import Mathlib

/-!
# DuoMaze: world simulation core

A shallow embedding of the simulation core of `src/main_a.cpp` (tile passability, the
collision check, movement, the physics and validation loops, level initialisation and the
level advance of the main loop), followed by the properties proved about it.

Conventions of the embedding.

* `float` coordinates are exact rationals (`ℚ`); `int` values are `Int`. Every coordinate
  the workers compute from a spawn position is an integer of magnitude below 1000 (a cell
  centre `40 c + 20`, moved by steps of 3 and clamped to `[1, 799]`), where `float`
  arithmetic is exact.
* `static_cast<int>` of a float is truncation toward zero (`truncToInt`).
* The threads are modelled by their loop bodies, run as atomic interleaved steps on one
  `GameState`; the locals of `validationThread` are carried in `ValidationLocals`.
* Calls into the audio system are recorded as a list of `Notification`s.
* Joining the workers, in the main loop, is modelled by the loop bodies they still complete
  after `gameRunning` has been cleared (`stopAndJoin`).
-/

namespace DuoMaze

/-! ## Constants and data model -/

/-- Constant `GameConstants::MAP_WIDTH`. -/
abbrev MAP_WIDTH : Nat := 20
/-- Constant `GameConstants::MAP_HEIGHT`. -/
abbrev MAP_HEIGHT : Nat := 15
/-- Constant `GameConstants::TILE_SIZE`. -/
abbrev TILE_SIZE : Int := 40
/-- Constant `GameConstants::PLAYER_RADIUS`. -/
abbrev PLAYER_RADIUS : Int := 15
/-- Constant `GameConstants::PLAYER_SPEED`. -/
abbrev PLAYER_SPEED : Int := 3
/-- Constant `GameConstants::TOTAL_LEVELS`. -/
abbrev TOTAL_LEVELS : Int := 4

/-! The values of `enum TileType`, as the `int`s stored in the grid. -/

abbrev VACIO : Int := 0
abbrev PARED : Int := 1
abbrev START_MASTER : Int := 2
abbrev START_SLAVE : Int := 3
abbrev BOTON_1 : Int := 4
abbrev BOTON_2 : Int := 5
abbrev BOTON_3 : Int := 6
abbrev PUERTA_1 : Int := 7
abbrev PUERTA_2 : Int := 8
abbrev PUERTA_3 : Int := 9
abbrev OBSTACULO_ROJO : Int := 10
abbrev OBSTACULO_AZUL : Int := 11
abbrev META : Int := 12

/-- The raylib `Vector2`, with exact coordinates. -/
structure Vector2 where
  x : ℚ
  y : ℚ

/-- The raylib `Rectangle`, with exact coordinates. -/
structure Rectangle where
  x : ℚ
  y : ℚ
  width : ℚ
  height : ℚ

/-- The type `GameState::MapArray`: `MAP_HEIGHT` rows of `MAP_WIDTH` ints, indexed `[y][x]`. -/
abbrev MapArray := Fin MAP_HEIGHT → Fin MAP_WIDTH → Int

/-- The `struct GameState` (the mutex carries no data). -/
structure GameState where
  laberinto : MapArray
  masterPos : Vector2
  slavePos : Vector2
  button1Active : Bool
  button2Active : Bool
  button3Active : Bool
  masterInGoal : Bool
  slaveInGoal : Bool
  bothInGoal : Bool
  gameRunning : Bool
  currentLevel : Int
  levelCompleted : Bool

/-- The conversion `static_cast<int>(q)` of a float `q`: rounding toward zero. -/
def truncToInt (q : ℚ) : Int := if 0 ≤ q then ⌊q⌋ else ⌈q⌉

/-- The guard `x >= 0 && x < MAP_WIDTH && y >= 0 && y < MAP_HEIGHT` used before every
grid access. -/
abbrev inGrid (x y : Int) : Prop := x ≥ 0 ∧ x < MAP_WIDTH ∧ y ≥ 0 ∧ y < MAP_HEIGHT

/-- The read `state.laberinto[y][x]` for indices that passed the guard `inGrid`. -/
def GameState.tile (state : GameState) (x y : Int) (h : inGrid x y) : Int :=
  state.laberinto ⟨y.toNat, by have := h.2.2.1; have := h.2.2.2; omega⟩
    ⟨x.toNat, by have := h.1; have := h.2.1; omega⟩

/-! ## CollisionSystem -/

/-- Constant `CollisionSystem::COLLISION_CHECK_RADIUS`. -/
abbrev COLLISION_CHECK_RADIUS : Int := 1

/-- Function `CollisionSystem::canPassTile`; the `switch` is written as a chain of tests. -/
def canPassTile (tileType : Int) (isMaster : Bool) (state : GameState) : Bool :=
  if tileType = VACIO ∨ tileType = START_MASTER ∨ tileType = START_SLAVE ∨
      tileType = BOTON_1 ∨ tileType = BOTON_2 ∨ tileType = BOTON_3 ∨ tileType = META then true
  else if tileType = PARED then false
  else if tileType = PUERTA_1 then state.button1Active
  else if tileType = PUERTA_2 then state.button2Active
  else if tileType = PUERTA_3 then state.button3Active
  else if tileType = OBSTACULO_ROJO then isMaster
  else if tileType = OBSTACULO_AZUL then !isMaster
  else false

/-- Modelled from the spec: raylib's `CheckCollisionCircleRec` is a library function, not part
of the sources; the spec calls it the circle-vs-axis-aligned-rectangle overlap test. The
definition follows raylib's algorithm (distances between the centres, then the corner case);
contact counts as overlap. -/
def CheckCollisionCircleRec (center : Vector2) (radius : ℚ) (r : Rectangle) : Bool :=
  let recCenterX := r.x + r.width / 2
  let recCenterY := r.y + r.height / 2
  let dx := |center.x - recCenterX|
  let dy := |center.y - recCenterY|
  if dx > r.width / 2 + radius then false
  else if dy > r.height / 2 + radius then false
  else if dx ≤ r.width / 2 then true
  else if dy ≤ r.height / 2 then true
  else decide ((dx - r.width / 2) * (dx - r.width / 2) +
    (dy - r.height / 2) * (dy - r.height / 2) ≤ radius * radius)

/-- The `tileRect` built in the inner loop of `checkCollisionWithLaberinto` for tile `(x, y)`. -/
def tileRect (x y : Int) : Rectangle :=
  { x := ((x * TILE_SIZE : Int) : ℚ), y := ((y * TILE_SIZE : Int) : ℚ),
    width := (TILE_SIZE : ℚ), height := (TILE_SIZE : ℚ) }

/-- The values of a loop variable running from `c - COLLISION_CHECK_RADIUS` to
`c + COLLISION_CHECK_RADIUS` inclusive. -/
def neighbourRange (c : Int) : List Int :=
  (List.range (2 * COLLISION_CHECK_RADIUS.toNat + 1)).map
    fun i => c - COLLISION_CHECK_RADIUS + (i : Int)

/-- The body of the inner loop of `checkCollisionWithLaberinto` at tile `(x, y)`: `true` when
the body executes `return true`. -/
def tileBlocks (position : Vector2) (radius : ℚ) (isMaster : Bool) (state : GameState)
    (x y : Int) : Bool :=
  if h : inGrid x y then
    let tileType := state.tile x y h
    if !canPassTile tileType isMaster state then
      CheckCollisionCircleRec position radius (tileRect x y)
    else false
  else false

/-- Function `CollisionSystem::checkCollisionWithLaberinto`: `true` means blocked. The two
nested loops return at the first tile whose body returns, hence `List.any`. -/
def checkCollisionWithLaberinto (position : Vector2) (radius : ℚ) (isMaster : Bool)
    (state : GameState) : Bool :=
  if position.x < radius ∨ position.y < radius ∨
      position.x ≥ ((MAP_WIDTH * TILE_SIZE : Int) : ℚ) - radius ∨
      position.y ≥ ((MAP_HEIGHT * TILE_SIZE : Int) : ℚ) - radius then true
  else
    let centerTileX := truncToInt (position.x / (TILE_SIZE : ℚ))
    let centerTileY := truncToInt (position.y / (TILE_SIZE : ℚ))
    (neighbourRange centerTileY).any fun y =>
      (neighbourRange centerTileX).any fun x =>
        tileBlocks position radius isMaster state x y

/-! ## MovementSystem -/

/-- Constant `MovementSystem::BORDER_MARGIN`. -/
abbrev BORDER_MARGIN : ℚ := 1

/-- Function `MovementSystem::clamp`. -/
def clamp (value min max : ℚ) : ℚ :=
  if value < min then min
  else if value > max then max
  else value

/-- The loop of `calculateNewPosition` over the key list, four keys per iteration
(`keys[i]` left, `keys[i+1]` right, `keys[i+2]` up, `keys[i+3]` down). `isKeyDown` is the
sampled keyboard (raylib `IsKeyDown`). The callers pass lists of exactly four keys; a
trailing group of fewer than four keys (an out-of-bounds read in the source) is not stepped. -/
def applyKeys (isKeyDown : Int → Bool) : List Int → Vector2 → Vector2
  | k0 :: k1 :: k2 :: k3 :: rest, newPos =>
    let p1 : Vector2 := if isKeyDown k0 then { newPos with x := newPos.x - PLAYER_SPEED } else newPos
    let p2 : Vector2 := if isKeyDown k1 then { p1 with x := p1.x + PLAYER_SPEED } else p1
    let p3 : Vector2 := if isKeyDown k2 then { p2 with y := p2.y - PLAYER_SPEED } else p2
    let p4 : Vector2 := if isKeyDown k3 then { p3 with y := p3.y + PLAYER_SPEED } else p3
    applyKeys isKeyDown rest p4
  | _, newPos => newPos

/-- Function `MovementSystem::calculateNewPosition`. -/
def calculateNewPosition (isKeyDown : Int → Bool) (currentPos : Vector2) (keys : List Int) :
    Vector2 :=
  let newPos := applyKeys isKeyDown keys currentPos
  let maxX : ℚ := ((MAP_WIDTH * TILE_SIZE : Int) : ℚ) - BORDER_MARGIN
  let maxY : ℚ := ((MAP_HEIGHT * TILE_SIZE : Int) : ℚ) - BORDER_MARGIN
  { x := clamp newPos.x BORDER_MARGIN maxX, y := clamp newPos.y BORDER_MARGIN maxY }

/-! ## The worker loop bodies -/

/-- One body of the `while (state.gameRunning)` loop of `physicsThread`. -/
def physicsStep (isKeyDown : Int → Bool) (state : GameState) (isMaster : Bool)
    (keys : List Int) : GameState :=
  let currentPos := if isMaster then state.masterPos else state.slavePos
  let newPos := calculateNewPosition isKeyDown currentPos keys
  if !checkCollisionWithLaberinto newPos (PLAYER_RADIUS : ℚ) isMaster state then
    if isMaster then { state with masterPos := newPos } else { state with slavePos := newPos }
  else state

/-- The calls `validationThread` makes into the audio system: `playDoorOpen` for gate `n`
(the gate is the one named in the log line written next to the call) and
`playLevelComplete`. -/
inductive Notification where
  | doorOpen (n : Nat)
  | levelComplete
deriving DecidableEq

/-- The locals of `validationThread` that live across loop iterations. -/
structure ValidationLocals where
  prevButton1Active : Bool
  prevButton2Active : Bool
  prevButton3Active : Bool
  prevLevelCompleted : Bool
deriving DecidableEq

/-- The locals as `validationThread` declares them before its loop. -/
def ValidationLocals.initial : ValidationLocals :=
  { prevButton1Active := false, prevButton2Active := false,
    prevButton3Active := false, prevLevelCompleted := false }

/-- The test `in-range && state.laberinto[tileY][tileX] == kind` that `validationThread`
makes for an agent at tile `(tileX, tileY)`. -/
def tileIs (state : GameState) (tileX tileY : Int) (kind : Int) : Bool :=
  if h : inGrid tileX tileY then decide (state.tile tileX tileY h = kind) else false

/-- The block "Botones 1 y 2" of `validationThread`, first half: the master on `BOTON_1`
sets `button1Active`. -/
def updateButton1 (state : GameState) (masterTileX masterTileY : Int) : GameState :=
  if tileIs state masterTileX masterTileY BOTON_1 then { state with button1Active := true }
  else state

/-- The block "Botones 1 y 2" of `validationThread`, second half: the slave on `BOTON_2`
sets `button2Active`. -/
def updateButton2 (state : GameState) (slaveTileX slaveTileY : Int) : GameState :=
  if tileIs state slaveTileX slaveTileY BOTON_2 then { state with button2Active := true }
  else state

/-- The block `if (!state.button3Active) {...}` of `validationThread`. -/
def updateButton3 (state : GameState) (masterTileX masterTileY slaveTileX slaveTileY : Int) :
    GameState :=
  if !state.button3Active then
    let masterOnButton3 := tileIs state masterTileX masterTileY BOTON_3
    let slaveOnButton3 := tileIs state slaveTileX slaveTileY BOTON_3
    { state with button3Active := masterOnButton3 && slaveOnButton3 }
  else state

/-- The three door tests of `validationThread` ("Detectar cuando una puerta se abre"), in
order. -/
def doorNotifications (locals : ValidationLocals) (state : GameState) : List Notification :=
  (if !locals.prevButton1Active && state.button1Active then [Notification.doorOpen 1] else []) ++
  (if !locals.prevButton2Active && state.button2Active then [Notification.doorOpen 2] else []) ++
  (if !locals.prevButton3Active && state.button3Active then [Notification.doorOpen 3] else [])

/-- The block "Verificar victoria" of `validationThread`: the goal flags are recomputed and
`levelCompleted` is set when both agents are on the goal. -/
def updateGoal (state : GameState) (masterTileX masterTileY slaveTileX slaveTileY : Int) :
    GameState :=
  let masterOnGoal := tileIs state masterTileX masterTileY META
  let slaveOnGoal := tileIs state slaveTileX slaveTileY META
  let s1 : GameState :=
    { state with masterInGoal := masterOnGoal, slaveInGoal := slaveOnGoal,
                 bothInGoal := masterOnGoal && slaveOnGoal }
  if s1.bothInGoal && !s1.levelCompleted then { s1 with levelCompleted := true } else s1

/-- The level-completed test of `validationThread` ("Reproducir sonido cuando se completa el
nivel"). -/
def levelNotification (locals : ValidationLocals) (state : GameState) : List Notification :=
  if !locals.prevLevelCompleted && state.levelCompleted then [Notification.levelComplete] else []

/-- The local `masterTileX` of `validationThread`, computed from the sampled position. -/
def masterTileX (state : GameState) : Int := truncToInt (state.masterPos.x / (TILE_SIZE : ℚ))

/-- The local `masterTileY` of `validationThread`, computed from the sampled position. -/
def masterTileY (state : GameState) : Int := truncToInt (state.masterPos.y / (TILE_SIZE : ℚ))

/-- The local `slaveTileX` of `validationThread`, computed from the sampled position. -/
def slaveTileX (state : GameState) : Int := truncToInt (state.slavePos.x / (TILE_SIZE : ℚ))

/-- The local `slaveTileY` of `validationThread`, computed from the sampled position. -/
def slaveTileY (state : GameState) : Int := truncToInt (state.slavePos.y / (TILE_SIZE : ℚ))

/-- One body of the `while (state.gameRunning)` loop of `validationThread`: the new state,
the new locals and the notifications emitted, in order. The positions are sampled once, at
the top of the body; no later block changes them. -/
def validationTick (state : GameState) (locals : ValidationLocals) :
    GameState × ValidationLocals × List Notification :=
  let mx := masterTileX state
  let my := masterTileY state
  let sx := slaveTileX state
  let sy := slaveTileY state
  let s1 := updateButton1 state mx my
  let s2 := updateButton2 s1 sx sy
  let s3 := updateButton3 s2 mx my sx sy
  let doors := doorNotifications locals s3
  let s4 := updateGoal s3 mx my sx sy
  let level := levelNotification locals s4
  (s4,
   { prevButton1Active := s3.button1Active, prevButton2Active := s3.button2Active,
     prevButton3Active := s3.button3Active, prevLevelCompleted := s4.levelCompleted },
   doors ++ level)

/-! ## LevelSystem -/

/-- The body of the inner loop of `LevelSystem::loadLevelData` at cell `[y][x]`. -/
def loadCell (levelData : MapArray) (state : GameState) (y : Fin MAP_HEIGHT)
    (x : Fin MAP_WIDTH) : GameState :=
  let s1 : GameState :=
    { state with
      laberinto :=
        (Function.update state.laberinto y (Function.update (state.laberinto y) x (levelData y x))) }
  let s2 : GameState :=
    if levelData y x = START_MASTER then
      { s1 with masterPos :=
          { x := (((x : Nat) * TILE_SIZE + TILE_SIZE / 2 : Int) : ℚ),
            y := (((y : Nat) * TILE_SIZE + TILE_SIZE / 2 : Int) : ℚ) } }
    else s1
  if levelData y x = START_SLAVE then
    { s2 with slavePos :=
        { x := (((x : Nat) * TILE_SIZE + TILE_SIZE / 2 : Int) : ℚ),
          y := (((y : Nat) * TILE_SIZE + TILE_SIZE / 2 : Int) : ℚ) } }
  else s2

/-- Function `LevelSystem::loadLevelData`: rows top to bottom, columns left to right. -/
def loadLevelData (state : GameState) (levelData : MapArray) : GameState :=
  (List.finRange MAP_HEIGHT).foldl
    (fun st y => (List.finRange MAP_WIDTH).foldl (fun st2 x => loadCell levelData st2 y x) st)
    state

/-! ## Runs of the workers -/

/-- One atomic step of a worker: a physics loop body of one agent with the keyboard as
sampled on that step, or a validation loop body. -/
inductive Action where
  | physics (isMaster : Bool) (isKeyDown : Int → Bool) (keys : List Int)
  | validation

/-- The shared state together with the locals of the validation thread and the
notifications emitted so far (oldest first). -/
structure World where
  state : GameState
  locals : ValidationLocals
  emitted : List Notification

/-- Run one action. -/
def World.step (w : World) : Action → World
  | Action.physics isMaster isKeyDown keys =>
    { w with state := physicsStep isKeyDown w.state isMaster keys }
  | Action.validation =>
    let r := validationTick w.state w.locals
    { state := r.1, locals := r.2.1, emitted := w.emitted ++ r.2.2 }

/-- Run a sequence of actions, first to last. -/
def World.run (w : World) (actions : List Action) : World :=
  actions.foldl World.step w

/-! ## Definitions used to state the properties -/

/-- The full-map sweep that `checkCollisionWithLaberinto` is compared with: the circle is
tested against the rectangle of every impassable cell of the whole grid. -/
def checkCollisionFullSweep (position : Vector2) (radius : ℚ) (isMaster : Bool)
    (state : GameState) : Bool :=
  (List.finRange MAP_HEIGHT).any fun y =>
    (List.finRange MAP_WIDTH).any fun x =>
      !canPassTile (state.laberinto y x) isMaster state &&
        CheckCollisionCircleRec position radius (tileRect x y)

/-- The closed disc of the given radius around `center` and the closed rectangle `r` share
a point. -/
def circleMeetsRect (center : Vector2) (radius : ℚ) (r : Rectangle) : Prop :=
  ∃ qx qy : ℚ, r.x ≤ qx ∧ qx ≤ r.x + r.width ∧ r.y ≤ qy ∧ qy ≤ r.y + r.height ∧
    (qx - center.x) * (qx - center.x) + (qy - center.y) * (qy - center.y) ≤ radius * radius

/-- The cells of the given rows, row by row, each row left to right. -/
def cellsOfRows : List (Fin MAP_HEIGHT) → List (Fin MAP_HEIGHT × Fin MAP_WIDTH)
  | [] => []
  | y :: ys => (List.finRange MAP_WIDTH).map (fun x => (y, x)) ++ cellsOfRows ys

/-- All cells of the grid in row-major order, the order of the loops of `loadLevelData`. -/
def rowMajorCells : List (Fin MAP_HEIGHT × Fin MAP_WIDTH) :=
  cellsOfRows (List.finRange MAP_HEIGHT)

/-- The centre of a cell, as `loadLevelData` computes it for a spawn marker. -/
def cellCentre (c : Fin MAP_HEIGHT × Fin MAP_WIDTH) : Vector2 :=
  { x := (((c.2 : Nat) * TILE_SIZE + TILE_SIZE / 2 : Int) : ℚ),
    y := (((c.1 : Nat) * TILE_SIZE + TILE_SIZE / 2 : Int) : ℚ) }

/-- The last cell, in row-major order, that holds `kind` in `levelData`. -/
def lastMarker (levelData : MapArray) (kind : Int) : Option (Fin MAP_HEIGHT × Fin MAP_WIDTH) :=
  (rowMajorCells.filter fun c => decide (levelData c.1 c.2 = kind)).getLast?

/-- The test of `validationThread` on the grid alone: cell `(tileX, tileY)` is in range and
holds `kind`. -/
def gridTileIs (lab : MapArray) (tileX tileY : Int) (kind : Int) : Bool :=
  if h : inGrid tileX tileY then
    decide (lab ⟨tileY.toNat, by have := h.2.2.1; have := h.2.2.2; omega⟩
      ⟨tileX.toNat, by have := h.1; have := h.2.1; omega⟩ = kind)
  else false

/-- The master stands on a cell of the given kind, as `validationThread` tests it. -/
def masterOn (state : GameState) (kind : Int) : Bool :=
  gridTileIs state.laberinto (masterTileX state) (masterTileY state) kind

/-- The slave stands on a cell of the given kind, as `validationThread` tests it. -/
def slaveOn (state : GameState) (kind : Int) : Bool :=
  gridTileIs state.laberinto (slaveTileX state) (slaveTileY state) kind

/-- Both agents stand where the collision check accepts them. -/
def GameState.Safe (s : GameState) : Prop :=
  checkCollisionWithLaberinto s.masterPos (PLAYER_RADIUS : ℚ) true s = false ∧
    checkCollisionWithLaberinto s.slavePos (PLAYER_RADIUS : ℚ) false s = false

/-- The box `[1, 799] x [1, 599]` that `calculateNewPosition` clamps into. -/
def inClampBox (p : Vector2) : Prop := 1 ≤ p.x ∧ p.x ≤ 799 ∧ 1 ≤ p.y ∧ p.y ≤ 599

/-- A `GameState` as its member initialisers leave it (every flag false, `gameRunning` true,
`currentLevel` 0), with the given grid and positions. -/
def GameState.constructed (laberinto : MapArray) (masterPos slavePos : Vector2) : GameState :=
  { laberinto := laberinto, masterPos := masterPos, slavePos := slavePos,
    button1Active := false, button2Active := false, button3Active := false,
    masterInGoal := false, slaveInGoal := false, bothInGoal := false,
    gameRunning := true, currentLevel := 0, levelCompleted := false }

/-- A grid given by its rows, as in the initialiser lists of the level arrays. -/
def gridOfRows (rows : List (List Int)) : MapArray :=
  fun y x => (rows.getD (y : Nat) []).getD (x : Nat) 0

/-- The array `nivel0` of `LevelSystem::initializeLevel0`. -/
def nivel0 : MapArray := gridOfRows
  [[1, 1, 1, 1, 1, 1, 1, 1, 1, 1, 1, 1, 1, 1, 1, 1, 1, 1, 1, 1],
   [1, 2, 0, 0, 0, 0, 0, 0, 0, 1, 1, 1, 0, 0, 0, 4, 0, 0, 0, 1],
   [1, 0, 1, 1, 1, 1, 1, 1, 0, 1, 1, 1, 0, 1, 1, 1, 1, 1, 0, 1],
   [1, 0, 1, 0, 0, 0, 0, 0, 0, 1, 1, 1, 0, 0, 0, 0, 0, 1, 0, 1],
   [1, 0, 1, 0, 1, 1, 1, 1, 1, 1, 1, 1, 1, 1, 1, 1, 0, 1, 0, 1],
   [1, 0, 1, 0, 0, 0, 0, 0, 0, 0, 0, 0, 0, 0, 0, 0, 0, 1, 0, 1],
   [1, 0, 1, 1, 1, 1, 1, 1, 1, 1, 1, 1, 1, 1, 1, 1, 1, 1, 0, 1],
   [1, 0, 0, 0, 0, 0, 0, 0, 0, 0, 0, 0, 0, 0, 0, 0, 0, 0, 0, 1],
   [1, 1, 1, 1, 1, 1, 1, 1, 1, 1, 1, 1, 1, 1, 1, 1, 1, 1, 0, 1],
   [1, 0, 0, 0, 0, 0, 0, 0, 0, 0, 0, 0, 0, 0, 0, 0, 0, 1, 0, 1],
   [1, 0, 1, 1, 1, 1, 1, 1, 1, 1, 1, 1, 1, 1, 1, 1, 1, 1, 8, 1],
   [1, 0, 0, 0, 0, 0, 0, 0, 0, 0, 0, 0, 0, 0, 0, 0, 0, 0, 0, 1],
   [1, 1, 1, 1, 1, 1, 1, 1, 1, 1, 1, 1, 1, 1, 1, 1, 1, 1, 0, 1],
   [1, 3, 0, 0, 0, 0, 0, 0, 7, 0, 5, 0, 0, 0, 0, 0, 0, 0, 12, 1],
   [1, 1, 1, 1, 1, 1, 1, 1, 1, 1, 1, 1, 1, 1, 1, 1, 1, 1, 1, 1]]

/-- A grid without any impassable cell: every cell is `VACIO`. -/
def openGrid : MapArray := fun _ _ => VACIO

/-- A state on the open grid, both agents in the middle of the map. -/
def openFieldState : GameState := GameState.constructed openGrid ⟨400, 300⟩ ⟨400, 300⟩

/-- A grid with two `BOTON_3` cells, at row 1 in columns 1 and 3; every other cell is `VACIO`. -/
def twoPlateGrid : MapArray :=
  fun y x => if (y : Nat) = 1 ∧ ((x : Nat) = 1 ∨ (x : Nat) = 3) then BOTON_3 else VACIO

/-- The master at `(60, 60)`, in cell column 1 row 1, and the slave at `(140, 60)`, in cell
column 3 row 1, on `twoPlateGrid`: each agent on a different `BOTON_3` cell. -/
def twoPlateState : GameState := GameState.constructed twoPlateGrid ⟨60, 60⟩ ⟨140, 60⟩

/-- A grid with one `BOTON_3` cell, at row 1 column 1; every other cell is `VACIO`. -/
def onePlateGrid : MapArray :=
  fun y x => if (y : Nat) = 1 ∧ (x : Nat) = 1 then BOTON_3 else VACIO

/-- Both agents in cell column 1 row 1 of `onePlateGrid`. -/
def onePlateState : GameState := GameState.constructed onePlateGrid ⟨60, 60⟩ ⟨50, 70⟩

/-- The state `openFieldState` with the four sticky flags set. -/
def allSetState : GameState :=
  { openFieldState with
    button1Active := true, button2Active := true, button3Active := true, levelCompleted := true }

/-- A short run: the master moves with all four of its keys sampled down, the validation
thread ticks, the slave moves with no key down. -/
def sampleRun : List Action :=
  [Action.physics true (fun _ => true) [65, 68, 87, 83], Action.validation,
   Action.physics false (fun _ => false) [263, 262, 265, 264]]

/-- The array `nivel1` of `LevelSystem::initializeLevel1`. -/
def nivel1 : MapArray := gridOfRows
  [[1, 1, 1, 1, 1, 1, 1, 1, 1, 1, 1, 1, 1, 1, 1, 1, 1, 1, 1, 1],
   [1, 1, 4, 1, 1, 1, 1, 1, 1, 1, 1, 1, 1, 1, 1, 1, 1, 1, 2, 1],
   [1, 1, 0, 1, 1, 1, 1, 1, 1, 1, 1, 1, 1, 1, 1, 1, 0, 0, 0, 1],
   [1, 1, 0, 1, 1, 1, 1, 0, 0, 0, 0, 0, 1, 1, 1, 1, 0, 1, 11, 1],
   [1, 1, 0, 0, 0, 0, 0, 0, 1, 1, 1, 0, 1, 1, 5, 1, 0, 1, 0, 1],
   [1, 1, 0, 0, 1, 1, 1, 0, 1, 6, 1, 0, 0, 0, 0, 10, 0, 1, 0, 1],
   [1, 0, 0, 0, 1, 1, 1, 0, 1, 0, 1, 1, 0, 1, 1, 1, 1, 1, 0, 1],
   [1, 0, 1, 0, 1, 1, 1, 7, 8, 0, 1, 1, 0, 11, 0, 0, 0, 0, 0, 1],
   [1, 0, 1, 0, 1, 1, 1, 1, 1, 1, 1, 1, 1, 1, 0, 1, 1, 1, 0, 1],
   [1, 0, 1, 0, 0, 0, 0, 0, 0, 0, 0, 1, 1, 1, 9, 1, 1, 1, 0, 1],
   [1, 10, 1, 1, 1, 1, 1, 1, 0, 0, 0, 1, 1, 1, 0, 1, 1, 1, 0, 1],
   [1, 0, 0, 0, 0, 0, 0, 11, 0, 0, 0, 1, 1, 1, 12, 1, 1, 1, 0, 1],
   [1, 0, 1, 1, 1, 1, 1, 1, 1, 1, 1, 1, 1, 1, 1, 1, 1, 1, 0, 1],
   [1, 3, 0, 0, 0, 0, 0, 0, 0, 0, 0, 0, 0, 0, 0, 0, 0, 0, 0, 1],
   [1, 1, 1, 1, 1, 1, 1, 1, 1, 1, 1, 1, 1, 1, 1, 1, 1, 1, 1, 1]]

/-- The array `nivel2` of `LevelSystem::initializeLevel2`. -/
def nivel2 : MapArray := gridOfRows
  [[1, 1, 1, 1, 1, 1, 1, 1, 1, 1, 1, 1, 1, 1, 1, 1, 1, 1, 1, 1],
   [1, 0, 0, 0, 11, 0, 0, 0, 0, 0, 6, 1, 0, 0, 0, 0, 4, 7, 0, 1],
   [1, 0, 1, 0, 1, 8, 1, 1, 1, 0, 1, 1, 0, 1, 1, 1, 1, 1, 0, 1],
   [1, 0, 1, 0, 0, 0, 0, 0, 1, 0, 0, 1, 0, 1, 0, 0, 0, 1, 0, 1],
   [1, 0, 1, 1, 1, 0, 1, 0, 1, 1, 0, 1, 0, 1, 0, 1, 0, 1, 0, 1],
   [1, 0, 0, 0, 10, 0, 0, 0, 1, 1, 0, 1, 0, 0, 0, 1, 0, 0, 0, 1],
   [1, 1, 0, 1, 1, 1, 0, 0, 1, 1, 9, 1, 1, 1, 1, 1, 1, 1, 0, 1],
   [1, 0, 5, 0, 1, 0, 0, 0, 0, 0, 2, 0, 0, 0, 10, 0, 0, 0, 0, 1],
   [1, 0, 1, 0, 1, 0, 1, 1, 1, 1, 9, 1, 1, 1, 1, 1, 1, 1, 0, 1],
   [1, 0, 1, 0, 0, 0, 0, 0, 1, 1, 0, 1, 0, 0, 0, 0, 0, 1, 0, 1],
   [1, 0, 1, 1, 1, 1, 1, 0, 1, 1, 0, 1, 0, 1, 1, 1, 0, 1, 0, 1],
   [1, 0, 0, 0, 0, 0, 0, 0, 1, 1, 0, 0, 0, 1, 12, 0, 0, 1, 0, 1],
   [1, 0, 1, 1, 1, 1, 1, 1, 1, 1, 1, 1, 1, 1, 1, 1, 1, 1, 0, 1],
   [1, 0, 0, 0, 0, 0, 0, 0, 7, 0, 0, 0, 0, 0, 0, 0, 0, 0, 3, 1],
   [1, 1, 1, 1, 1, 1, 1, 1, 1, 1, 1, 1, 1, 1, 1, 1, 1, 1, 1, 1]]

/-- The array `nivel3` of `LevelSystem::initializeLevel3`. -/
def nivel3 : MapArray := gridOfRows
  [[1, 1, 1, 1, 1, 1, 1, 1, 1, 1, 1, 1, 1, 1, 1, 1, 1, 1, 1, 1],
   [1, 0, 4, 1, 6, 0, 0, 8, 0, 1, 0, 1, 0, 1, 0, 1, 0, 0, 0, 1],
   [1, 10, 1, 1, 1, 1, 1, 1, 0, 1, 0, 1, 0, 11, 0, 1, 0, 1, 0, 1],
   [1, 0, 0, 11, 0, 10, 0, 1, 0, 1, 0, 1, 0, 1, 0, 10, 0, 1, 0, 1],
   [1, 11, 10, 1, 0, 1, 0, 1, 0, 1, 0, 10, 0, 1, 0, 1, 0, 1, 0, 1],
   [1, 0, 0, 1, 0, 1, 0, 1, 0, 1, 0, 1, 0, 1, 0, 1, 0, 1, 0, 1],
   [1, 10, 11, 1, 0, 1, 0, 1, 0, 1, 0, 1, 0, 1, 0, 1, 0, 1, 0, 1],
   [1, 0, 0, 1, 0, 11, 0, 0, 0, 1, 0, 1, 0, 1, 0, 1, 0, 1, 0, 1],
   [1, 11, 10, 1, 10, 1, 1, 0, 0, 10, 0, 11, 0, 1, 0, 1, 0, 1, 0, 1],
   [1, 0, 0, 0, 0, 11, 5, 1, 0, 7, 0, 1, 0, 10, 0, 11, 0, 1, 0, 1],
   [1, 1, 1, 1, 1, 1, 1, 1, 1, 1, 1, 1, 1, 1, 1, 1, 1, 1, 0, 1],
   [1, 0, 9, 3, 0, 10, 0, 11, 0, 1, 0, 11, 0, 1, 0, 11, 0, 1, 0, 1],
   [1, 12, 1, 0, 0, 11, 0, 1, 0, 10, 0, 1, 0, 10, 0, 1, 0, 10, 0, 1],
   [1, 0, 9, 2, 0, 1, 0, 10, 0, 11, 0, 10, 0, 11, 0, 10, 0, 11, 0, 1],
   [1, 1, 1, 1, 1, 1, 1, 1, 1, 1, 1, 1, 1, 1, 1, 1, 1, 1, 1, 1]]

/-- Function `LevelSystem::initializeLevel0`. -/
def initializeLevel0 (state : GameState) : GameState := loadLevelData state nivel0

/-- Function `LevelSystem::initializeLevel1`. -/
def initializeLevel1 (state : GameState) : GameState := loadLevelData state nivel1

/-- Function `LevelSystem::initializeLevel2`. -/
def initializeLevel2 (state : GameState) : GameState := loadLevelData state nivel2

/-- Function `LevelSystem::initializeLevel3`. -/
def initializeLevel3 (state : GameState) : GameState := loadLevelData state nivel3

/-- The first block of `LevelSystem::initializeLevel` ("Resetear estados") together with the
store to `currentLevel`. -/
def resetForLevel (state : GameState) (level : Int) : GameState :=
  { state with
    button1Active := false, button2Active := false, button3Active := false,
    masterInGoal := false, slaveInGoal := false, bothInGoal := false,
    levelCompleted := false, currentLevel := level }

/-- Function `LevelSystem::initializeLevel`; it returns nothing to its caller, and the
`default` case of its `switch` calls `initializeLevel0`. -/
def initializeLevel (state : GameState) (level : Int) : GameState :=
  let s1 := resetForLevel state level
  if level = 0 then initializeLevel0 s1
  else if level = 1 then initializeLevel1 s1
  else if level = 2 then initializeLevel2 s1
  else if level = 3 then initializeLevel3 s1
  else initializeLevel0 s1

/-! ## Worker loops with their guard, and the level advance of the main loop -/

/-- One evaluation of `while (state.gameRunning) { body }` in a worker: the body runs when
the flag reads true; when it reads false the loop is left and nothing is executed. -/
def World.iterate (w : World) (a : Action) : World :=
  if w.state.gameRunning then w.step a else w

/-- A sequence of guarded loop iterations of the workers, first to last. -/
def World.iterateAll (w : World) (actions : List Action) : World :=
  actions.foldl World.iterate w

/-- The `enum GameScreen`. -/
inductive GameScreen where
  | MENU
  | GAMEPLAY
deriving DecidableEq

/-- What the main loop holds besides the shared state: the current screen. -/
structure MainState where
  world : World
  currentScreen : GameScreen

/-- The statements `gameState.gameRunning = false; ... join()` of the level advance: the flag
is cleared, then the three workers are joined. `inFlight` are the loop bodies the workers
still complete before they read the cleared flag and return. -/
def stopAndJoin (w : World) (inFlight : List Action) : World :=
  World.run { w with state := { w.state with gameRunning := false } } inFlight

/-- The block "Lógica de transición entre niveles" of the `GAMEPLAY` case of the main loop.
`enterPressed` is `IsKeyPressed(KEY_ENTER)` on this frame. The new validation thread starts
with fresh locals. -/
def levelAdvance (m : MainState) (enterPressed : Bool) (inFlight : List Action) : MainState :=
  if m.world.state.levelCompleted && enterPressed then
    let nextLevel := m.world.state.currentLevel + 1
    if nextLevel < TOTAL_LEVELS then
      let joined := stopAndJoin m.world inFlight
      let loaded := initializeLevel joined.state nextLevel
      { world :=
          { state := { loaded with gameRunning := true }, locals := ValidationLocals.initial,
            emitted := joined.emitted },
        currentScreen := m.currentScreen }
    else
      let joined := stopAndJoin m.world inFlight
      { world := joined, currentScreen := GameScreen.MENU }
  else m

/-- The level data that exists for a level index: the arrays `nivel0` .. `nivel3` for the
indices 0 .. 3 (`TOTAL_LEVELS = 4`), none for any other index. -/
def shippedLevel (L : Int) : Option MapArray :=
  if L = 0 then some nivel0
  else if L = 1 then some nivel1
  else if L = 2 then some nivel2
  else if L = 3 then some nivel3
  else none

/-- The grid holds `kind` in exactly one cell. -/
def HasUniqueMarker (levelData : MapArray) (kind : Int) : Prop :=
  ∃ y x, levelData y x = kind ∧ ∀ y2 x2, levelData y2 x2 = kind → y2 = y ∧ x2 = x

/-- The array `initializeLevel` loads: the one of the level for the indices 1, 2, 3 and
`nivel0` for every other index. -/
def loadedArray (level : Int) : MapArray :=
  if level = 1 then nivel1 else if level = 2 then nivel2 else if level = 3 then nivel3
  else nivel0

/-- Level 0 with the master driven onto the goal cell (column 18, row 13) and the slave
still on its spawn cell (column 1, row 13). -/
def masterOnGoalState : GameState := GameState.constructed nivel0 ⟨740, 540⟩ ⟨60, 540⟩

/-- Level 0 with both agents on the goal cell. -/
def bothOnGoalState : GameState := GameState.constructed nivel0 ⟨740, 540⟩ ⟨740, 540⟩

/-- Level 0 with both agents on their spawn cells while the three goal flags still read
true, as after a tick on the goal followed by moves away from it. -/
def leftGoalState : GameState :=
  { GameState.constructed nivel0 ⟨60, 60⟩ ⟨60, 540⟩ with
    masterInGoal := true, slaveInGoal := true, bothInGoal := true }

/-- The open grid with the master one unit inside the left boundary limit. -/
def nearEdgeState : GameState := GameState.constructed openGrid ⟨16, 300⟩ ⟨400, 300⟩

/-- A keyboard with the keys 65 (left of the master) and 87 (up of the master) down. -/
def leftUpKeyboard : Int → Bool := fun c => decide (c = 65 ∨ c = 87)

/-- A keyboard with the keys 65 (left) and 68 (right) of the master down. -/
def leftRightKeyboard : Int → Bool := fun c => decide (c = 65 ∨ c = 68)

/-- A keyboard with the keys 87 (up) and 83 (down) of the master down. -/
def upDownKeyboard : Int → Bool := fun c => decide (c = 87 ∨ c = 83)

/-- The main loop on the `GAMEPLAY` screen with the given level completed. -/
def completedMain (level : Int) : MainState :=
  { world :=
      { state := { GameState.constructed nivel0 ⟨740, 540⟩ ⟨740, 540⟩ with
                   levelCompleted := true, currentLevel := level },
        locals := ValidationLocals.initial, emitted := [] },
    currentScreen := GameScreen.GAMEPLAY }

/-- A world whose `gameRunning` flag has been cleared. -/
def stoppedWorld : World :=
  { state := { openFieldState with gameRunning := false },
    locals := ValidationLocals.initial, emitted := [] }

/-! ## The rest of the main loop -/

/-- The `MENU` case of the `switch (currentScreen)` of the main loop. `playPressed` is
`menuSystem.isPlayButtonPressed()`. The other test of the case, the exit button, only sets
`shouldClose`, which ends the loop; it is not part of `MainState`. -/
def menuCase (m : MainState) (playPressed : Bool) : MainState :=
  if playPressed then
    let loaded := initializeLevel m.world.state 0
    { world :=
        { state := { loaded with gameRunning := true }, locals := ValidationLocals.initial,
          emitted := m.world.emitted },
      currentScreen := GameScreen.GAMEPLAY }
  else m

/-- The first `switch (currentScreen)` of one frame of the main loop. -/
def mainSwitch (m : MainState) (playPressed enterPressed : Bool) (inFlight : List Action) :
    MainState :=
  match m.currentScreen with
  | GameScreen.MENU => menuCase m playPressed
  | GameScreen.GAMEPLAY => levelAdvance m enterPressed inFlight

/-- What happens in the lifetime of the program: a frame of the main loop with its sampled
inputs, or a guarded loop iteration of a worker. -/
inductive LifecycleEvent where
  | frame (playPressed enterPressed : Bool) (inFlight : List Action)
  | worker (a : Action)

/-- One event of the lifecycle. Workers exist only while the screen is `GAMEPLAY`. -/
def MainState.next (m : MainState) : LifecycleEvent → MainState
  | LifecycleEvent.frame playPressed enterPressed inFlight =>
    mainSwitch m playPressed enterPressed inFlight
  | LifecycleEvent.worker a =>
    match m.currentScreen with
    | GameScreen.GAMEPLAY => { m with world := m.world.iterate a }
    | GameScreen.MENU => m

/-- The main loop before its first frame: `GameState gameState;` with its member
initialisers (grid and positions are not initialised, so any values), the screen `MENU`. -/
def MainState.initial (laberinto : MapArray) (masterPos slavePos : Vector2) : MainState :=
  { world :=
      { state := GameState.constructed laberinto masterPos slavePos,
        locals := ValidationLocals.initial, emitted := [] },
    currentScreen := GameScreen.MENU }

/-- The main loop after a sequence of lifecycle events, first to last. -/
def MainState.after (m : MainState) (events : List LifecycleEvent) : MainState :=
  events.foldl MainState.next m

/-! ## The level editor (`src/creador/creador_niveles.cpp`)

`CreatorConstants` repeats the values of `GameConstants` (`MAP_WIDTH = 20`,
`MAP_HEIGHT = 15`, `TILE_SIZE = 40`) and the editor repeats `enum TileType`, so the
definitions above are used for them. -/

/-- Constant `CreatorConstants::AUTO_BORDES`. -/
abbrev AUTO_BORDES : Bool := true

/-- The enumerator `TOTAL_TILE_TYPES` of the editor. -/
abbrev TOTAL_TILE_TYPES : Int := 13

/-- The data members of `class LevelCreator` (the texture reference carries no state). -/
structure LevelCreator where
  nivel : MapArray
  gridVisible : Bool

/-- The assignment `nivel[y][x] = v`. -/
def LevelCreator.setCell (c : LevelCreator) (y : Fin MAP_HEIGHT) (x : Fin MAP_WIDTH) (v : Int) :
    LevelCreator :=
  { c with nivel := (Function.update c.nivel y (Function.update (c.nivel y) x v)) }

/-- Function `LevelCreator::createBordes`: the loop over the columns writes the top and
bottom rows, the loop over the rows writes the left and right columns. -/
def LevelCreator.createBordes (c : LevelCreator) : LevelCreator :=
  let c1 := (List.finRange MAP_WIDTH).foldl
    (fun st x => (st.setCell ⟨0, by decide⟩ x PARED).setCell ⟨MAP_HEIGHT - 1, by decide⟩ x PARED) c
  (List.finRange MAP_HEIGHT).foldl
    (fun st y => (st.setCell y ⟨0, by decide⟩ PARED).setCell y ⟨MAP_WIDTH - 1, by decide⟩ PARED) c1

/-- Function `LevelCreator::initializeWithBordes`: every cell is set to `VACIO`, then the
borders are created when `AUTO_BORDES` is set. -/
def LevelCreator.initializeWithBordes (c : LevelCreator) : LevelCreator :=
  let cleared := (List.finRange MAP_HEIGHT).foldl
    (fun st y => (List.finRange MAP_WIDTH).foldl (fun st2 x => st2.setCell y x VACIO) st) c
  if AUTO_BORDES then cleared.createBordes else cleared

/-- Function `LevelCreator::clearLevel`. -/
def LevelCreator.clearLevel (c : LevelCreator) : LevelCreator := c.initializeWithBordes

/-- The constructor of `LevelCreator`, on whatever the array holds before it runs. -/
def LevelCreator.construct (uninitialised : MapArray) : LevelCreator :=
  LevelCreator.initializeWithBordes { nivel := uninitialised, gridVisible := true }

/-- What `handleInput` samples in one call: the mouse position, the two mouse buttons and
the keys G, C and S. -/
structure CreatorInput where
  mousePos : Vector2
  leftPressed : Bool
  rightPressed : Bool
  keyG : Bool
  keyC : Bool
  keyS : Bool

/-- The two mouse-button blocks of `handleInput` on an editable cell `(tileX, tileY)`: a left
click cycles the cell, then a right click clears it. -/
def LevelCreator.applyClicks (c : LevelCreator) (tileX tileY : Int) (h : inGrid tileX tileY)
    (leftPressed rightPressed : Bool) : LevelCreator :=
  let y : Fin MAP_HEIGHT := ⟨tileY.toNat, by have := h.2.2.1; have := h.2.2.2; omega⟩
  let x : Fin MAP_WIDTH := ⟨tileX.toNat, by have := h.1; have := h.2.1; omega⟩
  let c1 := if leftPressed then c.setCell y x ((c.nivel y x + 1).tmod TOTAL_TILE_TYPES) else c
  if rightPressed then c1.setCell y x VACIO else c1

/-- Function `LevelCreator::handleInput`. The integer division of the truncated mouse
coordinate rounds toward zero (`Int.tdiv`) and `%` is the remainder of that division
(`Int.tmod`). `saveLevel` writes a file and leaves the editor as it is. -/
def LevelCreator.handleInput (c : LevelCreator) (input : CreatorInput) : LevelCreator :=
  let c1 :=
    if input.mousePos.x < ((MAP_WIDTH * TILE_SIZE : Int) : ℚ) then
      let tileX := (truncToInt input.mousePos.x).tdiv TILE_SIZE
      let tileY := (truncToInt input.mousePos.y).tdiv TILE_SIZE
      let isBorderTile := AUTO_BORDES &&
        (decide (tileX = 0) || decide (tileX = MAP_WIDTH - 1) ||
          decide (tileY = 0) || decide (tileY = MAP_HEIGHT - 1))
      if h : !isBorderTile ∧ inGrid tileX tileY then
        c.applyClicks tileX tileY h.2 input.leftPressed input.rightPressed
      else c
    else c
  let c2 := if input.keyG then { c1 with gridVisible := !c1.gridVisible } else c1
  if input.keyC then c2.clearLevel else c2

/-- The editor after its constructor and a sequence of `handleInput` calls. -/
def LevelCreator.afterInputs (uninitialised : MapArray) (inputs : List CreatorInput) :
    LevelCreator :=
  inputs.foldl LevelCreator.handleInput (LevelCreator.construct uninitialised)

/-- The cell lies on the border of the grid (row 0, row 14, column 0 or column 19). -/
def isBorderCell (y : Fin MAP_HEIGHT) (x : Fin MAP_WIDTH) : Prop :=
  (y : Nat) = 0 ∨ (y : Nat) = MAP_HEIGHT - 1 ∨ (x : Nat) = 0 ∨ (x : Nat) = MAP_WIDTH - 1

/-! ## Definitions used to state the properties of the lifecycle, the levels and the editor -/

/-- The level index of a main-loop state is one of the shipped levels. -/
def MainState.LevelInRange (m : MainState) : Prop :=
  0 ≤ m.world.state.currentLevel ∧ m.world.state.currentLevel ≤ 3

/-- The number of cells of the grid that hold `kind`. -/
def countCells (levelData : MapArray) (kind : Int) : Nat :=
  (rowMajorCells.filter fun c => decide (levelData c.1 c.2 = kind)).length

/-- A well-formed level: one master spawn, one slave spawn, one goal, at most one plate 3,
only tile values `0 .. 12`, and `PARED` on every border cell. -/
def WellFormedLevel (levelData : MapArray) : Prop :=
  countCells levelData START_MASTER = 1 ∧ countCells levelData START_SLAVE = 1 ∧
  countCells levelData META = 1 ∧ countCells levelData BOTON_3 ≤ 1 ∧
  (∀ y x, 0 ≤ levelData y x ∧ levelData y x ≤ 12) ∧
  (∀ y x, isBorderCell y x → levelData y x = PARED)

/-- The first cell comes before the second in row-major order. -/
def rowMajorBefore (c c2 : Fin MAP_HEIGHT × Fin MAP_WIDTH) : Prop :=
  c.1 < c2.1 ∨ (c.1 = c2.1 ∧ c.2 < c2.2)

/-- The editor's invariant: every border cell holds `PARED` and every cell holds a value in
`0 .. 12`. -/
def LevelCreator.BordersLocked (c : LevelCreator) : Prop :=
  (∀ y x, isBorderCell y x → c.nivel y x = PARED) ∧ ∀ y x, 0 ≤ c.nivel y x ∧ c.nivel y x ≤ 12

/-- One `handleInput` call that is a left click, and nothing else that writes the grid, with
the mouse inside the cell `(y, x)`. -/
def IsLeftClickOn (y : Fin MAP_HEIGHT) (x : Fin MAP_WIDTH) (input : CreatorInput) : Prop :=
  (40 * ((x : Nat) : ℚ) ≤ input.mousePos.x ∧ input.mousePos.x < 40 * ((x : Nat) : ℚ) + 40) ∧
  (40 * ((y : Nat) : ℚ) ≤ input.mousePos.y ∧ input.mousePos.y < 40 * ((y : Nat) : ℚ) + 40) ∧
  input.leftPressed = true ∧ input.rightPressed = false ∧ input.keyC = false

/-- A keyboard with only the key A (65, "left" of the master) held. -/
def leftKeyboard : Int → Bool := fun c => decide (c = 65)

/-- An open field with the master one step to the right of the slave. -/
def meetingState : GameState := GameState.constructed openGrid ⟨403, 300⟩ ⟨400, 300⟩

/-- One `handleInput` call with the left button pressed at `(mx, my)` and no key. -/
def leftClickAt (mx my : ℚ) : CreatorInput :=
  { mousePos := ⟨mx, my⟩, leftPressed := true, rightPressed := false,
    keyG := false, keyC := false, keyS := false }

/-- An editor whose grid is level 0 of the game. -/
def editorOnLevel0 : LevelCreator := { nivel := nivel0, gridVisible := true }

/-- The point lies in the cell of row `y` and column `x` of the grid: the half-open square
`[40 x, 40 x + 40) x [40 y, 40 y + 40)`. Stated on the coordinates alone. -/
def standsInCell (p : Vector2) (y : Fin MAP_HEIGHT) (x : Fin MAP_WIDTH) : Prop :=
  40 * ((x : Nat) : ℚ) ≤ p.x ∧ p.x < 40 * ((x : Nat) : ℚ) + 40 ∧
    40 * ((y : Nat) : ℚ) ≤ p.y ∧ p.y < 40 * ((y : Nat) : ℚ) + 40

/-- A keyboard with only the key W (87, "up" of the master) held. -/
def upKeyboard : Int → Bool := fun c => decide (c = 87)

/-- Level 1 with the master on its `BOTON_1` cell (row 1, column 2) and the slave on its
`BOTON_2` cell (row 4, column 14). -/
def ownPlatesState : GameState := GameState.constructed nivel1 ⟨100, 60⟩ ⟨580, 180⟩

/-- Level 1 with the agents exchanged: the master on the `BOTON_2` cell (row 4, column 14)
and the slave on the `BOTON_1` cell (row 1, column 2). -/
def swappedPlatesState : GameState := GameState.constructed nivel1 ⟨580, 180⟩ ⟨100, 60⟩

/-! ## Properties -/

/-- Claim C3. The passability table of `canPassTile`: `VACIO`, the spawn markers, the three
plates and `META` are passable for both agents under all flags; `PARED` never is;
`PUERTA_N` is passable exactly when `buttonNActive` is set; `OBSTACULO_ROJO` exactly for
the master and `OBSTACULO_AZUL` exactly for the slave. -/
theorem canPassTile_table (isMaster : Bool) (state : GameState) :
    canPassTile VACIO isMaster state = true ∧
    canPassTile START_MASTER isMaster state = true ∧
    canPassTile START_SLAVE isMaster state = true ∧
    canPassTile BOTON_1 isMaster state = true ∧
    canPassTile BOTON_2 isMaster state = true ∧
    canPassTile BOTON_3 isMaster state = true ∧
    canPassTile META isMaster state = true ∧
    canPassTile PARED isMaster state = false ∧
    canPassTile PUERTA_1 isMaster state = state.button1Active ∧
    canPassTile PUERTA_2 isMaster state = state.button2Active ∧
    canPassTile PUERTA_3 isMaster state = state.button3Active ∧
    canPassTile OBSTACULO_ROJO isMaster state = isMaster ∧
    canPassTile OBSTACULO_AZUL isMaster state = !isMaster := by
  refine ⟨?_, ?_, ?_, ?_, ?_, ?_, ?_, ?_, ?_, ?_, ?_, ?_, ?_⟩ <;> simp [canPassTile]

theorem clamp_eq_max_min (v lo hi : ℚ) (h : lo ≤ hi) : clamp v lo hi = max lo (min v hi) := by
  unfold clamp
  split_ifs with h1 h2
  · rw [max_eq_left]; exact le_trans (min_le_left _ _) h1.le
  · rw [min_eq_right h2.le, max_eq_right h]
  · push_neg at h1 h2
    rw [min_eq_left h2, max_eq_right h1]

theorem applyKeys_four (isKeyDown : Int → Bool) (p : Vector2) (left right up down : Int) :
    applyKeys isKeyDown [left, right, up, down] p =
      { x := p.x - (if isKeyDown left then 3 else 0) + (if isKeyDown right then 3 else 0),
        y := p.y - (if isKeyDown up then 3 else 0) + (if isKeyDown down then 3 else 0) } := by
  cases hl : isKeyDown left <;> cases hr : isKeyDown right <;> cases hu : isKeyDown up <;>
    cases hd : isKeyDown down <;> simp [applyKeys, hl, hr, hu, hd]

/-- Claim C5. With a list of four keys (left, right, up, down) `calculateNewPosition`
returns, for every position and every state of the four keys, the point
`(clamp (x + 3 [right] - 3 [left]) 1 799, clamp (y + 3 [down] - 3 [up]) 1 599)`, each axis
on its own, so the result lies in `[1, 799] x [1, 599]`. -/
theorem calculateNewPosition_four (isKeyDown : Int → Bool) (currentPos : Vector2)
    (left right up down : Int) :
    calculateNewPosition isKeyDown currentPos [left, right, up, down] =
      { x := max 1 (min (currentPos.x + 3 * (if isKeyDown right then 1 else 0)
                - 3 * (if isKeyDown left then 1 else 0)) 799),
        y := max 1 (min (currentPos.y + 3 * (if isKeyDown down then 1 else 0)
                - 3 * (if isKeyDown up then 1 else 0)) 599) } ∧
    1 ≤ (calculateNewPosition isKeyDown currentPos [left, right, up, down]).x ∧
    (calculateNewPosition isKeyDown currentPos [left, right, up, down]).x ≤ 799 ∧
    1 ≤ (calculateNewPosition isKeyDown currentPos [left, right, up, down]).y ∧
    (calculateNewPosition isKeyDown currentPos [left, right, up, down]).y ≤ 599 := by
  have hx : calculateNewPosition isKeyDown currentPos [left, right, up, down] =
      { x := max 1 (min (currentPos.x + 3 * (if isKeyDown right then 1 else 0)
                - 3 * (if isKeyDown left then 1 else 0)) 799),
        y := max 1 (min (currentPos.y + 3 * (if isKeyDown down then 1 else 0)
                - 3 * (if isKeyDown up then 1 else 0)) 599) } := by
    unfold calculateNewPosition
    rw [applyKeys_four]
    simp only []
    rw [clamp_eq_max_min _ _ _ (by norm_num), clamp_eq_max_min _ _ _ (by norm_num)]
    have e1 : (((MAP_WIDTH : Int) * TILE_SIZE : Int) : ℚ) - BORDER_MARGIN = 799 := by
      simp only [BORDER_MARGIN, MAP_WIDTH, TILE_SIZE]; norm_num
    have e2 : (((MAP_HEIGHT : Int) * TILE_SIZE : Int) : ℚ) - BORDER_MARGIN = 599 := by
      simp only [BORDER_MARGIN, MAP_HEIGHT, TILE_SIZE]; norm_num
    have e3 : BORDER_MARGIN = 1 := rfl
    rw [e1, e2, e3, Vector2.mk.injEq]
    constructor
    · congr 2
      cases isKeyDown left <;> cases isKeyDown right <;> simp
    · congr 2
      cases isKeyDown up <;> cases isKeyDown down <;> simp
  rw [hx]
  refine ⟨rfl, le_max_left _ _, max_le (by norm_num) (min_le_right _ _), le_max_left _ _,
    max_le (by norm_num) (min_le_right _ _)⟩

theorem truncToInt_of_nonneg {q : ℚ} (h : 0 ≤ q) : truncToInt q = ⌊q⌋ := by
  simp [truncToInt, h]

theorem centerTile_bounds {p : ℚ} (h : 0 ≤ p) :
    ((truncToInt (p / (TILE_SIZE : ℚ)) : Int) : ℚ) * 40 ≤ p ∧
      p < ((truncToInt (p / (TILE_SIZE : ℚ)) : Int) : ℚ) * 40 + 40 := by
  have h40 : ((TILE_SIZE : Int) : ℚ) = 40 := by norm_num [TILE_SIZE]
  rw [h40, truncToInt_of_nonneg (div_nonneg h (by norm_num))]
  have h1 := Int.floor_le (p / 40)
  have h2 := Int.lt_floor_add_one (p / 40)
  constructor
  · have := (le_div_iff₀ (by norm_num : (0 : ℚ) < 40)).1 h1
    linarith
  · have := (div_lt_iff₀ (by norm_num : (0 : ℚ) < 40)).1 h2
    linarith

theorem neighbourRange_eq (c : Int) : neighbourRange c = [c - 1, c, c + 1] := by
  simp [neighbourRange, List.range_succ]
  show c - 1 + 2 = c + 1
  ring

theorem mem_neighbourRange (c x : Int) : x ∈ neighbourRange c ↔ c - 1 ≤ x ∧ x ≤ c + 1 := by
  rw [neighbourRange_eq]
  simp only [List.mem_cons, List.mem_singleton, List.not_mem_nil, or_false]
  omega

theorem CheckCollisionCircleRec_near {position : Vector2} {radius : ℚ} {x y : Int}
    (h : CheckCollisionCircleRec position radius (tileRect x y) = true) :
    |position.x - ((x : ℚ) * 40 + 20)| ≤ 20 + radius ∧
      |position.y - ((y : ℚ) * 40 + 20)| ≤ 20 + radius := by
  have h40 : ((TILE_SIZE : Int) : ℚ) = 40 := by norm_num [TILE_SIZE]
  simp only [CheckCollisionCircleRec, tileRect, Int.cast_mul, h40] at h
  split_ifs at h with h1 h2
  all_goals
    push_neg at h1 h2
    constructor <;> [(norm_num at h1; linarith); (norm_num at h2; linarith)]

theorem tileBlocks_fin (position : Vector2) (radius : ℚ) (isMaster : Bool) (state : GameState)
    (x : Fin MAP_WIDTH) (y : Fin MAP_HEIGHT) :
    tileBlocks position radius isMaster state x y =
      (!canPassTile (state.laberinto y x) isMaster state &&
        CheckCollisionCircleRec position radius (tileRect x y)) := by
  have hin : inGrid (x : Int) (y : Int) := by
    have := x.isLt; have := y.isLt
    refine ⟨?_, ?_, ?_, ?_⟩ <;> omega
  have ht : state.tile x y hin = state.laberinto y x := by
    simp [GameState.tile]
  unfold tileBlocks
  rw [dif_pos hin]
  simp only [ht]
  cases canPassTile (state.laberinto y x) isMaster state <;> simp

theorem tileBlocks_inGrid {position : Vector2} {radius : ℚ} {isMaster : Bool}
    {state : GameState} {x y : Int} (h : tileBlocks position radius isMaster state x y = true) :
    inGrid x y := by
  by_contra hn
  simp [tileBlocks, hn] at h

theorem checkCollision_eq_fullSweep_of_inside (position : Vector2) (radius : ℚ) (isMaster : Bool)
    (state : GameState) (hr0 : 0 ≤ radius) (hr : radius < (TILE_SIZE : ℚ))
    (hb : ¬ (position.x < radius ∨ position.y < radius ∨
      position.x ≥ ((MAP_WIDTH * TILE_SIZE : Int) : ℚ) - radius ∨
      position.y ≥ ((MAP_HEIGHT * TILE_SIZE : Int) : ℚ) - radius)) :
    checkCollisionWithLaberinto position radius isMaster state =
      checkCollisionFullSweep position radius isMaster state := by
  have h40 : ((TILE_SIZE : Int) : ℚ) = 40 := by norm_num [TILE_SIZE]
  rw [h40] at hr
  have hb2 := hb
  push_neg at hb2
  obtain ⟨hx0, hy0, -, -⟩ := hb2
  have hcx := centerTile_bounds (le_trans hr0 hx0)
  have hcy := centerTile_bounds (le_trans hr0 hy0)
  rw [Bool.eq_iff_iff]
  unfold checkCollisionWithLaberinto checkCollisionFullSweep
  rw [if_neg hb]
  simp only [List.any_eq_true, mem_neighbourRange, List.mem_finRange, true_and]
  constructor
  · rintro ⟨y, -, x, -, hblk⟩
    have hin := tileBlocks_inGrid hblk
    obtain ⟨hx1, hx2, hy1, hy2⟩ := hin
    refine ⟨⟨y.toNat, by omega⟩, ⟨x.toNat, by omega⟩, ?_⟩
    rw [← tileBlocks_fin]
    simpa [Int.toNat_of_nonneg hx1, Int.toNat_of_nonneg hy1] using hblk
  · rintro ⟨y, x, hblk⟩
    rw [← tileBlocks_fin] at hblk
    refine ⟨(y : Int), ?_, (x : Int), ?_, hblk⟩
    · have hnear := (CheckCollisionCircleRec_near (x := (x : Int)) (y := (y : Int)) (by
        rw [tileBlocks_fin] at hblk
        simp only [Bool.and_eq_true] at hblk
        exact hblk.2)).2
      rw [abs_le] at hnear
      obtain ⟨hc1, hc2⟩ := hcy
      constructor
      · have : ((truncToInt (position.y / (TILE_SIZE : ℚ)) : Int) : ℚ) - 2 < (((y : Nat) : Int) : ℚ) := by
          linarith [hnear.1, hnear.2]
        have h2 : truncToInt (position.y / (TILE_SIZE : ℚ)) - 2 < ((y : Nat) : Int) := by
          exact_mod_cast this
        omega
      · have : (((y : Nat) : Int) : ℚ) < ((truncToInt (position.y / (TILE_SIZE : ℚ)) : Int) : ℚ) + 2 := by
          linarith [hnear.1, hnear.2]
        have h2 : ((y : Nat) : Int) < truncToInt (position.y / (TILE_SIZE : ℚ)) + 2 := by
          exact_mod_cast this
        omega
    · have hnear := (CheckCollisionCircleRec_near (x := (x : Int)) (y := (y : Int)) (by
        rw [tileBlocks_fin] at hblk
        simp only [Bool.and_eq_true] at hblk
        exact hblk.2)).1
      rw [abs_le] at hnear
      obtain ⟨hc1, hc2⟩ := hcx
      constructor
      · have : ((truncToInt (position.x / (TILE_SIZE : ℚ)) : Int) : ℚ) - 2 < (((x : Nat) : Int) : ℚ) := by
          linarith [hnear.1, hnear.2]
        have h2 : truncToInt (position.x / (TILE_SIZE : ℚ)) - 2 < ((x : Nat) : Int) := by
          exact_mod_cast this
        omega
      · have : (((x : Nat) : Int) : ℚ) < ((truncToInt (position.x / (TILE_SIZE : ℚ)) : Int) : ℚ) + 2 := by
          linarith [hnear.1, hnear.2]
        have h2 : ((x : Nat) : Int) < truncToInt (position.x / (TILE_SIZE : ℚ)) + 2 := by
          exact_mod_cast this
        omega

/-- On one axis: the point of `[a, a + w]` nearest to `p`. -/
theorem nearest_on_axis (p a w : ℚ) (hw : 0 ≤ w) :
    ∃ q : ℚ, a ≤ q ∧ q ≤ a + w ∧
      (q - p) * (q - p) =
        (max 0 (|p - (a + w / 2)| - w / 2)) * (max 0 (|p - (a + w / 2)| - w / 2)) := by
  rcases le_total p a with h1 | h1
  · refine ⟨a, le_refl _, by linarith, ?_⟩
    have e : |p - (a + w / 2)| = (a + w / 2) - p := by
      rw [abs_of_nonpos (by linarith)]; ring
    rw [e, max_eq_right (by linarith)]; ring
  · rcases le_total p (a + w) with h2 | h2
    · refine ⟨p, h1, h2, ?_⟩
      have e : |p - (a + w / 2)| - w / 2 ≤ 0 := by
        have : |p - (a + w / 2)| ≤ w / 2 := abs_le.2 ⟨by linarith, by linarith⟩
        linarith
      rw [max_eq_left e]; ring
    · refine ⟨a + w, by linarith, le_refl _, ?_⟩
      have e : |p - (a + w / 2)| = p - (a + w / 2) := abs_of_nonneg (by linarith)
      rw [e, max_eq_right (by linarith)]; ring

/-- On one axis: no point of `[a, a + w]` is nearer to `p` than the excess of `p`. -/
theorem excess_le_on_axis (p a w q : ℚ) (h1 : a ≤ q) (h2 : q ≤ a + w) :
    (max 0 (|p - (a + w / 2)| - w / 2)) * (max 0 (|p - (a + w / 2)| - w / 2)) ≤
      (q - p) * (q - p) := by
  have hq : |p - (a + w / 2)| - w / 2 ≤ |q - p| := by
    have t : |p - (a + w / 2)| ≤ |p - q| + |q - (a + w / 2)| := by
      have := abs_add (p - q) (q - (a + w / 2))
      simpa using this
    have t2 : |q - (a + w / 2)| ≤ w / 2 := abs_le.2 ⟨by linarith, by linarith⟩
    rw [abs_sub_comm q p]
    linarith
  have h0 : 0 ≤ max 0 (|p - (a + w / 2)| - w / 2) := le_max_left _ _
  have hm : max 0 (|p - (a + w / 2)| - w / 2) ≤ |q - p| := max_le (abs_nonneg _) hq
  calc (max 0 (|p - (a + w / 2)| - w / 2)) * (max 0 (|p - (a + w / 2)| - w / 2))
      ≤ |q - p| * |q - p| := mul_le_mul hm hm h0 (abs_nonneg _)
    _ = (q - p) * (q - p) := abs_mul_abs_self _

theorem circleMeetsRect_iff_excess (center : Vector2) (radius : ℚ) (r : Rectangle)
    (hw : 0 ≤ r.width) (hh : 0 ≤ r.height) :
    circleMeetsRect center radius r ↔
      (max 0 (|center.x - (r.x + r.width / 2)| - r.width / 2)) *
          (max 0 (|center.x - (r.x + r.width / 2)| - r.width / 2)) +
        (max 0 (|center.y - (r.y + r.height / 2)| - r.height / 2)) *
          (max 0 (|center.y - (r.y + r.height / 2)| - r.height / 2)) ≤ radius * radius := by
  constructor
  · rintro ⟨qx, qy, h1, h2, h3, h4, h5⟩
    have a := excess_le_on_axis center.x r.x r.width qx h1 h2
    have b := excess_le_on_axis center.y r.y r.height qy h3 h4
    linarith
  · intro h
    obtain ⟨qx, h1, h2, ex⟩ := nearest_on_axis center.x r.x r.width hw
    obtain ⟨qy, h3, h4, ey⟩ := nearest_on_axis center.y r.y r.height hh
    exact ⟨qx, qy, h1, h2, h3, h4, by rw [ex, ey]; exact h⟩

theorem CheckCollisionCircleRec_iff_excess (center : Vector2) (radius : ℚ) (r : Rectangle)
    (hr : 0 ≤ radius) :
    CheckCollisionCircleRec center radius r = true ↔
      (max 0 (|center.x - (r.x + r.width / 2)| - r.width / 2)) *
          (max 0 (|center.x - (r.x + r.width / 2)| - r.width / 2)) +
        (max 0 (|center.y - (r.y + r.height / 2)| - r.height / 2)) *
          (max 0 (|center.y - (r.y + r.height / 2)| - r.height / 2)) ≤ radius * radius := by
  unfold CheckCollisionCircleRec
  simp only []
  generalize |center.x - (r.x + r.width / 2)| = dx
  generalize |center.y - (r.y + r.height / 2)| = dy
  generalize r.width / 2 = hw
  generalize r.height / 2 = hh
  have mx0 : 0 ≤ max 0 (dx - hw) := le_max_left _ _
  have my0 : 0 ≤ max 0 (dy - hh) := le_max_left _ _
  have mx1 : dx - hw ≤ max 0 (dx - hw) := le_max_right _ _
  have my1 : dy - hh ≤ max 0 (dy - hh) := le_max_right _ _
  split_ifs with h1 h2 h3 h4
  · simp only [Bool.false_eq_true, false_iff, not_le]
    nlinarith [mul_nonneg my0 my0]
  · simp only [Bool.false_eq_true, false_iff, not_le]
    nlinarith [mul_nonneg mx0 mx0]
  · simp only [true_iff]
    push_neg at h1 h2
    rw [max_eq_left (by linarith : dx - hw ≤ 0)]
    have : max 0 (dy - hh) ≤ radius := max_le hr (by linarith)
    nlinarith
  · simp only [true_iff]
    push_neg at h1 h2 h3
    rw [max_eq_left (by linarith : dy - hh ≤ 0)]
    have : max 0 (dx - hw) ≤ radius := max_le hr (by linarith)
    nlinarith
  · push_neg at h1 h2 h3 h4
    rw [max_eq_right (by linarith : 0 ≤ dx - hw), max_eq_right (by linarith : 0 ≤ dy - hh)]
    simp only [decide_eq_true_eq]

theorem CheckCollisionCircleRec_iff_meets (center : Vector2) (radius : ℚ) (r : Rectangle)
    (hr : 0 ≤ radius) (hw : 0 ≤ r.width) (hh : 0 ≤ r.height) :
    CheckCollisionCircleRec center radius r = true ↔ circleMeetsRect center radius r := by
  rw [CheckCollisionCircleRec_iff_excess center radius r hr,
    circleMeetsRect_iff_excess center radius r hw hh]

theorem mem_cellsOfRows (ys : List (Fin MAP_HEIGHT)) (c : Fin MAP_HEIGHT × Fin MAP_WIDTH) :
    c ∈ cellsOfRows ys ↔ c.1 ∈ ys := by
  induction ys with
  | nil => simp [cellsOfRows]
  | cons y ys ih =>
    simp only [cellsOfRows, List.mem_append, List.mem_map, List.mem_finRange, true_and, ih,
      List.mem_cons]
    constructor
    · rintro (⟨x, rfl⟩ | h)
      · exact Or.inl rfl
      · exact Or.inr h
    · rintro (h | h)
      · exact Or.inl ⟨c.2, by rw [← h]⟩
      · exact Or.inr h

theorem mem_rowMajorCells (c : Fin MAP_HEIGHT × Fin MAP_WIDTH) : c ∈ rowMajorCells := by
  simp [rowMajorCells, mem_cellsOfRows, List.mem_finRange]

theorem foldl_rows_eq (levelData : MapArray) (ys : List (Fin MAP_HEIGHT)) (state : GameState) :
    ys.foldl (fun st y => (List.finRange MAP_WIDTH).foldl
        (fun st2 x => loadCell levelData st2 y x) st) state =
      (cellsOfRows ys).foldl (fun st c => loadCell levelData st c.1 c.2) state := by
  induction ys generalizing state with
  | nil => rfl
  | cons y ys ih =>
    simp only [List.foldl_cons, cellsOfRows, List.foldl_append, List.foldl_map]
    exact ih _

theorem loadLevelData_eq_foldl (state : GameState) (levelData : MapArray) :
    loadLevelData state levelData =
      rowMajorCells.foldl (fun st c => loadCell levelData st c.1 c.2) state :=
  foldl_rows_eq levelData _ state

theorem loadCell_laberinto (levelData : MapArray) (state : GameState) (y : Fin MAP_HEIGHT)
    (x : Fin MAP_WIDTH) (y2 : Fin MAP_HEIGHT) (x2 : Fin MAP_WIDTH) :
    (loadCell levelData state y x).laberinto y2 x2 =
      if (y2, x2) = (y, x) then levelData y x else state.laberinto y2 x2 := by
  have h : (loadCell levelData state y x).laberinto =
      Function.update state.laberinto y (Function.update (state.laberinto y) x (levelData y x)) := by
    unfold loadCell
    simp only []
    split_ifs <;> rfl
  rw [h]
  by_cases hy : y2 = y
  · subst hy
    by_cases hx : x2 = x
    · subst hx; simp
    · simp [hx]
  · simp [hy]

theorem loadCell_masterPos (levelData : MapArray) (state : GameState) (y : Fin MAP_HEIGHT)
    (x : Fin MAP_WIDTH) :
    (loadCell levelData state y x).masterPos =
      if levelData y x = START_MASTER then cellCentre (y, x) else state.masterPos := by
  unfold loadCell
  simp only []
  split_ifs <;> rfl

theorem loadCell_slavePos (levelData : MapArray) (state : GameState) (y : Fin MAP_HEIGHT)
    (x : Fin MAP_WIDTH) :
    (loadCell levelData state y x).slavePos =
      if levelData y x = START_SLAVE then cellCentre (y, x) else state.slavePos := by
  unfold loadCell
  simp only []
  split_ifs <;> rfl

theorem foldl_loadCell_laberinto (levelData : MapArray)
    (l : List (Fin MAP_HEIGHT × Fin MAP_WIDTH)) (state : GameState)
    (y2 : Fin MAP_HEIGHT) (x2 : Fin MAP_WIDTH) :
    (l.foldl (fun st c => loadCell levelData st c.1 c.2) state).laberinto y2 x2 =
      if (y2, x2) ∈ l then levelData y2 x2 else state.laberinto y2 x2 := by
  induction l generalizing state with
  | nil => simp
  | cons c l ih =>
    rw [List.foldl_cons, ih, loadCell_laberinto]
    by_cases h1 : (y2, x2) ∈ l
    · simp [h1]
    · by_cases h2 : (y2, x2) = c
      · subst h2; simp
      · have h3 : ¬ ((y2, x2) = (c.1, c.2)) := h2
        simp [h1, h2, h3]

theorem foldl_loadCell_masterPos (levelData : MapArray)
    (l : List (Fin MAP_HEIGHT × Fin MAP_WIDTH)) (state : GameState) :
    (l.foldl (fun st c => loadCell levelData st c.1 c.2) state).masterPos =
      (((l.filter fun c => decide (levelData c.1 c.2 = START_MASTER)).getLast?).map
        cellCentre).getD state.masterPos := by
  induction l generalizing state with
  | nil => simp
  | cons c l ih =>
    rw [List.foldl_cons, ih, loadCell_masterPos, List.filter_cons]
    by_cases h : levelData c.1 c.2 = START_MASTER
    · simp only [h, if_true, decide_True, List.getLast?_cons]
      cases (List.filter (fun c => decide (levelData c.1 c.2 = START_MASTER)) l).getLast? <;> simp
    · simp [h]

theorem foldl_loadCell_slavePos (levelData : MapArray)
    (l : List (Fin MAP_HEIGHT × Fin MAP_WIDTH)) (state : GameState) :
    (l.foldl (fun st c => loadCell levelData st c.1 c.2) state).slavePos =
      (((l.filter fun c => decide (levelData c.1 c.2 = START_SLAVE)).getLast?).map
        cellCentre).getD state.slavePos := by
  induction l generalizing state with
  | nil => simp
  | cons c l ih =>
    rw [List.foldl_cons, ih, loadCell_slavePos, List.filter_cons]
    by_cases h : levelData c.1 c.2 = START_SLAVE
    · simp only [h, if_true, decide_True, List.getLast?_cons]
      cases (List.filter (fun c => decide (levelData c.1 c.2 = START_SLAVE)) l).getLast? <;> simp
    · simp [h]

theorem loadLevelData_laberinto (state : GameState) (levelData : MapArray) :
    (loadLevelData state levelData).laberinto = levelData := by
  funext y x
  rw [loadLevelData_eq_foldl, foldl_loadCell_laberinto, if_pos (mem_rowMajorCells _)]

theorem loadLevelData_masterPos (state : GameState) (levelData : MapArray) :
    (loadLevelData state levelData).masterPos =
      ((lastMarker levelData START_MASTER).map cellCentre).getD state.masterPos := by
  rw [loadLevelData_eq_foldl, foldl_loadCell_masterPos]; rfl

theorem loadLevelData_slavePos (state : GameState) (levelData : MapArray) :
    (loadLevelData state levelData).slavePos =
      ((lastMarker levelData START_SLAVE).map cellCentre).getD state.slavePos := by
  rw [loadLevelData_eq_foldl, foldl_loadCell_slavePos]; rfl

/-- A grid that holds `kind` somewhere has a last cell holding it. -/
theorem lastMarker_of_exists (levelData : MapArray) (kind : Int)
    (h : ∃ y x, levelData y x = kind) :
    ∃ c, lastMarker levelData kind = some c ∧ levelData c.1 c.2 = kind := by
  obtain ⟨y, x, hyx⟩ := h
  have hmem : (y, x) ∈ rowMajorCells.filter fun c => decide (levelData c.1 c.2 = kind) := by
    simp [List.mem_filter, mem_rowMajorCells, hyx]
  cases hl : lastMarker levelData kind with
  | none =>
    unfold lastMarker at hl
    rw [List.getLast?_eq_none_iff] at hl
    rw [hl] at hmem
    simp at hmem
  | some c =>
    refine ⟨c, rfl, ?_⟩
    unfold lastMarker at hl
    have := List.mem_of_getLast?_eq_some hl
    simpa using (List.mem_filter.1 this).2

theorem tileIs_eq_gridTileIs (state : GameState) (x y kind : Int) :
    tileIs state x y kind = gridTileIs state.laberinto x y kind := rfl

theorem updateButton1_eq (state : GameState) (x y : Int) :
    updateButton1 state x y =
      { state with button1Active := state.button1Active || gridTileIs state.laberinto x y BOTON_1 } := by
  unfold updateButton1
  rw [tileIs_eq_gridTileIs]
  cases gridTileIs state.laberinto x y BOTON_1 <;> simp

theorem updateButton2_eq (state : GameState) (x y : Int) :
    updateButton2 state x y =
      { state with button2Active := state.button2Active || gridTileIs state.laberinto x y BOTON_2 } := by
  unfold updateButton2
  rw [tileIs_eq_gridTileIs]
  cases gridTileIs state.laberinto x y BOTON_2 <;> simp

theorem updateButton3_eq (state : GameState) (mx my sx sy : Int) :
    updateButton3 state mx my sx sy =
      { state with button3Active := state.button3Active ||
          (gridTileIs state.laberinto mx my BOTON_3 && gridTileIs state.laberinto sx sy BOTON_3) } := by
  unfold updateButton3
  simp only [tileIs_eq_gridTileIs]
  cases h : state.button3Active <;> simp [h]
  cases state; simp_all

theorem updateGoal_eq (state : GameState) (mx my sx sy : Int) :
    updateGoal state mx my sx sy =
      { state with
        masterInGoal := gridTileIs state.laberinto mx my META
        slaveInGoal := gridTileIs state.laberinto sx sy META
        bothInGoal := gridTileIs state.laberinto mx my META && gridTileIs state.laberinto sx sy META
        levelCompleted := state.levelCompleted ||
          (gridTileIs state.laberinto mx my META && gridTileIs state.laberinto sx sy META) } := by
  unfold updateGoal
  simp only [tileIs_eq_gridTileIs]
  cases gridTileIs state.laberinto mx my META <;> cases gridTileIs state.laberinto sx sy META <;>
    cases h : state.levelCompleted <;> simp [h]

/-- The state a validation tick leaves, field by field. -/
theorem validationTick_state (state : GameState) (locals : ValidationLocals) :
    (validationTick state locals).1 =
      { state with
        button1Active := state.button1Active || masterOn state BOTON_1
        button2Active := state.button2Active || slaveOn state BOTON_2
        button3Active := state.button3Active || (masterOn state BOTON_3 && slaveOn state BOTON_3)
        masterInGoal := masterOn state META
        slaveInGoal := slaveOn state META
        bothInGoal := masterOn state META && slaveOn state META
        levelCompleted := state.levelCompleted || (masterOn state META && slaveOn state META) } := by
  unfold validationTick masterOn slaveOn
  simp only [updateButton1_eq, updateButton2_eq, updateButton3_eq, updateGoal_eq]

theorem physicsStep_cases (isKeyDown : Int → Bool) (state : GameState) (isMaster : Bool)
    (keys : List Int) :
    physicsStep isKeyDown state isMaster keys = state ∨
    (checkCollisionWithLaberinto
        (calculateNewPosition isKeyDown (if isMaster then state.masterPos else state.slavePos) keys)
        (PLAYER_RADIUS : ℚ) isMaster state = false ∧
      physicsStep isKeyDown state isMaster keys =
        if isMaster then
          { state with masterPos := calculateNewPosition isKeyDown state.masterPos keys }
        else { state with slavePos := calculateNewPosition isKeyDown state.slavePos keys }) := by
  unfold physicsStep
  simp only []
  cases h : checkCollisionWithLaberinto
      (calculateNewPosition isKeyDown (if isMaster then state.masterPos else state.slavePos) keys)
      (PLAYER_RADIUS : ℚ) isMaster state
  · right
    refine ⟨rfl, ?_⟩
    cases isMaster <;> simp
  · left
    simp

theorem canPassTile_mono (t : Int) (m : Bool) (s s2 : GameState)
    (h1 : s.button1Active = true → s2.button1Active = true)
    (h2 : s.button2Active = true → s2.button2Active = true)
    (h3 : s.button3Active = true → s2.button3Active = true)
    (h : canPassTile t m s = true) : canPassTile t m s2 = true := by
  unfold canPassTile at h ⊢
  split_ifs at h ⊢ <;> simp_all

theorem tileBlocks_mono (position : Vector2) (radius : ℚ) (m : Bool) (s s2 : GameState)
    (x y : Int) (hl : s2.laberinto = s.laberinto)
    (h1 : s.button1Active = true → s2.button1Active = true)
    (h2 : s.button2Active = true → s2.button2Active = true)
    (h3 : s.button3Active = true → s2.button3Active = true)
    (h : tileBlocks position radius m s2 x y = true) :
    tileBlocks position radius m s x y = true := by
  unfold tileBlocks at h ⊢
  by_cases hin : inGrid x y
  · rw [dif_pos hin] at h ⊢
    have ht : s2.tile x y hin = s.tile x y hin := by simp [GameState.tile, hl]
    rw [ht] at h
    simp only [] at h ⊢
    cases hc : canPassTile (s.tile x y hin) m s
    · cases hc2 : canPassTile (s.tile x y hin) m s2
      · simpa [hc2] using h
      · simp [hc2] at h
    · have := canPassTile_mono _ m s s2 h1 h2 h3 hc
      simp [this] at h
  · rw [dif_neg hin] at h
    exact absurd h (by simp)

theorem checkCollision_mono (position : Vector2) (radius : ℚ) (m : Bool) (s s2 : GameState)
    (hl : s2.laberinto = s.laberinto)
    (h1 : s.button1Active = true → s2.button1Active = true)
    (h2 : s.button2Active = true → s2.button2Active = true)
    (h3 : s.button3Active = true → s2.button3Active = true)
    (h : checkCollisionWithLaberinto position radius m s = false) :
    checkCollisionWithLaberinto position radius m s2 = false := by
  unfold checkCollisionWithLaberinto at h ⊢
  split_ifs at h ⊢ with hb
  rw [Bool.eq_false_iff] at h ⊢
  intro h2'
  apply h
  simp only [List.any_eq_true] at h2' ⊢
  obtain ⟨y, hy, x, hx, hblk⟩ := h2'
  exact ⟨y, hy, x, hx, tileBlocks_mono position radius m s s2 x y hl h1 h2 h3 hblk⟩

theorem checkCollision_false_inside {position : Vector2} {radius : ℚ} {m : Bool}
    {s : GameState} (h : checkCollisionWithLaberinto position radius m s = false) :
    ¬ (position.x < radius ∨ position.y < radius ∨
      position.x ≥ ((MAP_WIDTH * TILE_SIZE : Int) : ℚ) - radius ∨
      position.y ≥ ((MAP_HEIGHT * TILE_SIZE : Int) : ℚ) - radius) := by
  intro hb
  unfold checkCollisionWithLaberinto at h
  rw [if_pos hb] at h
  exact absurd h (by simp)

theorem fullSweep_false_iff (position : Vector2) (radius : ℚ) (m : Bool) (s : GameState) :
    checkCollisionFullSweep position radius m s = false ↔
      ∀ y x, canPassTile (s.laberinto y x) m s = false →
        CheckCollisionCircleRec position radius (tileRect x y) = false := by
  unfold checkCollisionFullSweep
  rw [Bool.eq_false_iff]
  simp only [ne_eq, List.any_eq_true, List.mem_finRange, true_and, Bool.and_eq_true,
    Bool.not_eq_true', not_exists, not_and, Bool.not_eq_true]

theorem tileRect_width (x y : Int) : (tileRect x y).width = 40 := by
  simp [tileRect, TILE_SIZE]

theorem tileRect_height (x y : Int) : (tileRect x y).height = 40 := by
  simp [tileRect, TILE_SIZE]

/-- A position the collision check accepts for an agent overlaps no cell of the grid that is
impassable for that agent. -/
theorem clear_of_checkCollision_false {position : Vector2} {m : Bool} {s : GameState}
    (h : checkCollisionWithLaberinto position (PLAYER_RADIUS : ℚ) m s = false)
    (y : Fin MAP_HEIGHT) (x : Fin MAP_WIDTH) (hp : canPassTile (s.laberinto y x) m s = false) :
    ¬ circleMeetsRect position (PLAYER_RADIUS : ℚ) (tileRect x y) := by
  have hr0 : (0 : ℚ) ≤ (PLAYER_RADIUS : ℚ) := by norm_num [PLAYER_RADIUS]
  have hr1 : ((PLAYER_RADIUS : Int) : ℚ) < ((TILE_SIZE : Int) : ℚ) := by
    norm_num [PLAYER_RADIUS, TILE_SIZE]
  have hs := checkCollision_eq_fullSweep_of_inside position _ m s hr0 hr1
    (checkCollision_false_inside h)
  rw [h] at hs
  have := (fullSweep_false_iff _ _ _ _).1 hs.symm y x hp
  rw [← CheckCollisionCircleRec_iff_meets _ _ _ hr0 (by rw [tileRect_width]; norm_num)
    (by rw [tileRect_height]; norm_num), this]
  exact Bool.false_ne_true

theorem cellCentre_x (c : Fin MAP_HEIGHT × Fin MAP_WIDTH) :
    (cellCentre c).x = ((c.2 : Nat) : ℚ) * 40 + 20 := by
  simp [cellCentre, TILE_SIZE]

theorem cellCentre_y (c : Fin MAP_HEIGHT × Fin MAP_WIDTH) :
    (cellCentre c).y = ((c.1 : Nat) : ℚ) * 40 + 20 := by
  simp [cellCentre, TILE_SIZE]

theorem CheckCollisionCircleRec_far {position : Vector2} {radius : ℚ} {x y : Int}
    (h : 20 + radius < |position.x - ((x : ℚ) * 40 + 20)| ∨
      20 + radius < |position.y - ((y : ℚ) * 40 + 20)|) :
    CheckCollisionCircleRec position radius (tileRect x y) = false := by
  have h40 : ((TILE_SIZE : Int) : ℚ) = 40 := by norm_num [TILE_SIZE]
  simp only [CheckCollisionCircleRec, tileRect, Int.cast_mul, h40]
  norm_num
  intro h1 h2
  rcases h with h | h
  · linarith
  · linarith

theorem fin_cast_far {n : Nat} (a b : Fin n) (h : a ≠ b) :
    (40 : ℚ) ≤ |(((a : Nat) : ℚ) * 40 + 20) - ((((b : Nat) : Int) : ℚ) * 40 + 20)| := by
  have hne : (a : Nat) ≠ (b : Nat) := fun e => h (Fin.ext e)
  rcases Nat.lt_or_gt_of_ne hne with hlt | hgt
  · have : ((a : Nat) : ℚ) + 1 ≤ ((b : Nat) : ℚ) := by exact_mod_cast hlt
    rw [abs_of_nonpos (by push_cast; linarith)]
    push_cast; linarith
  · have : ((b : Nat) : ℚ) + 1 ≤ ((a : Nat) : ℚ) := by exact_mod_cast hgt
    rw [abs_of_nonneg (by push_cast; linarith)]
    push_cast; linarith

theorem checkCollision_cellCentre (c : Fin MAP_HEIGHT × Fin MAP_WIDTH) (m : Bool)
    (s : GameState) (hp : canPassTile (s.laberinto c.1 c.2) m s = true) :
    checkCollisionWithLaberinto (cellCentre c) (PLAYER_RADIUS : ℚ) m s = false := by
  have hr0 : (0 : ℚ) ≤ (PLAYER_RADIUS : ℚ) := by norm_num [PLAYER_RADIUS]
  have hr1 : ((PLAYER_RADIUS : Int) : ℚ) < ((TILE_SIZE : Int) : ℚ) := by
    norm_num [PLAYER_RADIUS, TILE_SIZE]
  have h15 : ((PLAYER_RADIUS : Int) : ℚ) = 15 := by norm_num [PLAYER_RADIUS]
  have hx0 : (0 : ℚ) ≤ ((c.2 : Nat) : ℚ) := Nat.cast_nonneg _
  have hy0 : (0 : ℚ) ≤ ((c.1 : Nat) : ℚ) := Nat.cast_nonneg _
  have hx1 : ((c.2 : Nat) : ℚ) ≤ 19 := by
    have h20 : (c.2 : Nat) < 20 := c.2.isLt
    have : (c.2 : Nat) ≤ 19 := by omega
    exact_mod_cast this
  have hy1 : ((c.1 : Nat) : ℚ) ≤ 14 := by
    have h15 : (c.1 : Nat) < 15 := c.1.isLt
    have : (c.1 : Nat) ≤ 14 := by omega
    exact_mod_cast this
  have hin : ¬ ((cellCentre c).x < (PLAYER_RADIUS : ℚ) ∨ (cellCentre c).y < (PLAYER_RADIUS : ℚ) ∨
      (cellCentre c).x ≥ ((MAP_WIDTH * TILE_SIZE : Int) : ℚ) - (PLAYER_RADIUS : ℚ) ∨
      (cellCentre c).y ≥ ((MAP_HEIGHT * TILE_SIZE : Int) : ℚ) - (PLAYER_RADIUS : ℚ)) := by
    rw [cellCentre_x, cellCentre_y, h15]
    have e1 : (((MAP_WIDTH : Nat) * TILE_SIZE : Int) : ℚ) = 800 := by norm_num [TILE_SIZE]
    have e2 : (((MAP_HEIGHT : Nat) * TILE_SIZE : Int) : ℚ) = 600 := by norm_num [TILE_SIZE]
    rw [e1, e2]
    push_neg
    refine ⟨by linarith, by linarith, by linarith, by linarith⟩
  rw [checkCollision_eq_fullSweep_of_inside _ _ m s hr0 hr1 hin, fullSweep_false_iff]
  intro y x hyx
  apply CheckCollisionCircleRec_far
  rw [cellCentre_x, cellCentre_y, h15]
  by_cases hx : c.2 = x
  · by_cases hy : c.1 = y
    · rw [← hx, ← hy, hp] at hyx
      exact absurd hyx (by simp)
    · right
      have := fin_cast_far c.1 y hy
      linarith
  · left
    have := fin_cast_far c.2 x hx
    linarith

theorem World.run_append (w : World) (as bs : List Action) :
    w.run (as ++ bs) = (w.run as).run bs := by
  simp [World.run, List.foldl_append]

theorem physicsStep_safe (k : Int → Bool) (s : GameState) (m : Bool) (keys : List Int)
    (h : s.Safe) : (physicsStep k s m keys).Safe := by
  rcases physicsStep_cases k s m keys with e | ⟨hc, e⟩
  · rw [e]; exact h
  · rw [e]
    cases m
    · simp only [Bool.false_eq_true, if_false] at hc ⊢
      exact ⟨checkCollision_mono _ _ _ s _ rfl (fun a => a) (fun a => a) (fun a => a) h.1,
        checkCollision_mono _ _ _ s _ rfl (fun a => a) (fun a => a) (fun a => a) hc⟩
    · simp only [if_true] at hc ⊢
      exact ⟨checkCollision_mono _ _ _ s _ rfl (fun a => a) (fun a => a) (fun a => a) hc,
        checkCollision_mono _ _ _ s _ rfl (fun a => a) (fun a => a) (fun a => a) h.2⟩

theorem validationTick_safe (s : GameState) (l : ValidationLocals) (h : s.Safe) :
    (validationTick s l).1.Safe := by
  rw [validationTick_state]
  refine ⟨checkCollision_mono _ _ _ s _ rfl ?_ ?_ ?_ h.1,
    checkCollision_mono _ _ _ s _ rfl ?_ ?_ ?_ h.2⟩ <;>
  · intro hb
    simp [hb]

theorem World.step_safe (w : World) (a : Action) (h : w.state.Safe) : (w.step a).state.Safe := by
  cases a with
  | physics m k keys => exact physicsStep_safe k w.state m keys h
  | validation => exact validationTick_safe w.state w.locals h

theorem World.run_safe (actions : List Action) (w : World) (h : w.state.Safe) :
    (w.run actions).state.Safe := by
  induction actions generalizing w with
  | nil => exact h
  | cons a as ih => exact ih (w.step a) (World.step_safe w a h)

theorem canPassTile_START_MASTER (m : Bool) (s : GameState) :
    canPassTile START_MASTER m s = true := by simp [canPassTile]

theorem canPassTile_START_SLAVE (m : Bool) (s : GameState) :
    canPassTile START_SLAVE m s = true := by simp [canPassTile]

theorem loadLevelData_safe (s0 : GameState) (levelData : MapArray)
    (hM : ∃ y x, levelData y x = START_MASTER) (hS : ∃ y x, levelData y x = START_SLAVE) :
    (loadLevelData s0 levelData).Safe := by
  obtain ⟨cm, hcm, hcm2⟩ := lastMarker_of_exists levelData START_MASTER hM
  obtain ⟨cs, hcs, hcs2⟩ := lastMarker_of_exists levelData START_SLAVE hS
  constructor
  · rw [loadLevelData_masterPos, hcm]
    apply checkCollision_cellCentre
    rw [loadLevelData_laberinto, hcm2]
    exact canPassTile_START_MASTER _ _
  · rw [loadLevelData_slavePos, hcs]
    apply checkCollision_cellCentre
    rw [loadLevelData_laberinto, hcs2]
    exact canPassTile_START_SLAVE _ _

/-- Claim C1. From the placement made by `loadLevelData` on a grid with both spawn markers,
after any sequence of physics steps (any agent, any keys) and validation ticks, the disc of
radius `PLAYER_RADIUS` around each agent meets the square of no cell that `canPassTile`
reports impassable for that agent under the gate flags of the state reached. -/
theorem committed_position_clear_of_impassable (s0 : GameState) (locals0 : ValidationLocals)
    (emitted0 : List Notification) (levelData : MapArray)
    (hM : ∃ y x, levelData y x = START_MASTER) (hS : ∃ y x, levelData y x = START_SLAVE)
    (actions : List Action) :
    (∀ (y : Fin MAP_HEIGHT) (x : Fin MAP_WIDTH),
      canPassTile
          ((World.run ⟨loadLevelData s0 levelData, locals0, emitted0⟩ actions).state.laberinto y x)
          true (World.run ⟨loadLevelData s0 levelData, locals0, emitted0⟩ actions).state = false →
        ¬ circleMeetsRect
          (World.run ⟨loadLevelData s0 levelData, locals0, emitted0⟩ actions).state.masterPos
          (PLAYER_RADIUS : ℚ) (tileRect x y)) ∧
    (∀ (y : Fin MAP_HEIGHT) (x : Fin MAP_WIDTH),
      canPassTile
          ((World.run ⟨loadLevelData s0 levelData, locals0, emitted0⟩ actions).state.laberinto y x)
          false (World.run ⟨loadLevelData s0 levelData, locals0, emitted0⟩ actions).state = false →
        ¬ circleMeetsRect
          (World.run ⟨loadLevelData s0 levelData, locals0, emitted0⟩ actions).state.slavePos
          (PLAYER_RADIUS : ℚ) (tileRect x y)) := by
  have h := World.run_safe actions ⟨loadLevelData s0 levelData, locals0, emitted0⟩
    (loadLevelData_safe s0 levelData hM hS)
  exact ⟨fun y x hp => clear_of_checkCollision_false h.1 y x hp,
    fun y x hp => clear_of_checkCollision_false h.2 y x hp⟩

theorem clamp_mem (v lo hi : ℚ) (h : lo ≤ hi) : lo ≤ clamp v lo hi ∧ clamp v lo hi ≤ hi := by
  unfold clamp
  split_ifs with h1 h2
  · exact ⟨le_refl _, h⟩
  · exact ⟨h, le_refl _⟩
  · push_neg at h1 h2
    exact ⟨h1, h2⟩

theorem calculateNewPosition_inClampBox (k : Int → Bool) (p : Vector2) (keys : List Int) :
    inClampBox (calculateNewPosition k p keys) := by
  have e1 : (((MAP_WIDTH : Int) * TILE_SIZE : Int) : ℚ) - BORDER_MARGIN = 799 := by
    simp only [BORDER_MARGIN, MAP_WIDTH, TILE_SIZE]; norm_num
  have e2 : (((MAP_HEIGHT : Int) * TILE_SIZE : Int) : ℚ) - BORDER_MARGIN = 599 := by
    simp only [BORDER_MARGIN, MAP_HEIGHT, TILE_SIZE]; norm_num
  have e3 : BORDER_MARGIN = 1 := rfl
  unfold calculateNewPosition inClampBox
  simp only []
  rw [e1, e2, e3]
  have hx := clamp_mem (applyKeys k keys p).x 1 799 (by norm_num)
  have hy := clamp_mem (applyKeys k keys p).y 1 599 (by norm_num)
  exact ⟨hx.1, hx.2, hy.1, hy.2⟩

theorem cellCentre_inClampBox (c : Fin MAP_HEIGHT × Fin MAP_WIDTH) : inClampBox (cellCentre c) := by
  have hx0 : (0 : ℚ) ≤ ((c.2 : Nat) : ℚ) := Nat.cast_nonneg _
  have hy0 : (0 : ℚ) ≤ ((c.1 : Nat) : ℚ) := Nat.cast_nonneg _
  have hx1 : ((c.2 : Nat) : ℚ) ≤ 19 := by
    have h20 : (c.2 : Nat) < 20 := c.2.isLt
    have : (c.2 : Nat) ≤ 19 := by omega
    exact_mod_cast this
  have hy1 : ((c.1 : Nat) : ℚ) ≤ 14 := by
    have h15 : (c.1 : Nat) < 15 := c.1.isLt
    have : (c.1 : Nat) ≤ 14 := by omega
    exact_mod_cast this
  unfold inClampBox
  rw [cellCentre_x, cellCentre_y]
  refine ⟨by linarith, by linarith, by linarith, by linarith⟩

theorem physicsStep_masterPos_inClampBox (k : Int → Bool) (s : GameState) (m : Bool)
    (keys : List Int) (h : inClampBox s.masterPos) :
    inClampBox (physicsStep k s m keys).masterPos := by
  rcases physicsStep_cases k s m keys with e | ⟨-, e⟩
  · rw [e]; exact h
  · rw [e]
    cases m
    · exact h
    · exact calculateNewPosition_inClampBox k s.masterPos keys

theorem physicsStep_slavePos_inClampBox (k : Int → Bool) (s : GameState) (m : Bool)
    (keys : List Int) (h : inClampBox s.slavePos) :
    inClampBox (physicsStep k s m keys).slavePos := by
  rcases physicsStep_cases k s m keys with e | ⟨-, e⟩
  · rw [e]; exact h
  · rw [e]
    cases m
    · exact calculateNewPosition_inClampBox k s.slavePos keys
    · exact h

theorem World.run_masterPos_inClampBox (actions : List Action) (w : World)
    (h : inClampBox w.state.masterPos) : inClampBox (w.run actions).state.masterPos := by
  induction actions generalizing w with
  | nil => exact h
  | cons a as ih =>
    apply ih (w.step a)
    cases a with
    | physics m k keys => exact physicsStep_masterPos_inClampBox k w.state m keys h
    | validation =>
      show inClampBox (validationTick w.state w.locals).1.masterPos
      rw [validationTick_state]; exact h

theorem World.run_slavePos_inClampBox (actions : List Action) (w : World)
    (h : inClampBox w.state.slavePos) : inClampBox (w.run actions).state.slavePos := by
  induction actions generalizing w with
  | nil => exact h
  | cons a as ih =>
    apply ih (w.step a)
    cases a with
    | physics m k keys => exact physicsStep_slavePos_inClampBox k w.state m keys h
    | validation =>
      show inClampBox (validationTick w.state w.locals).1.slavePos
      rw [validationTick_state]; exact h

/-- Claim C4. The position `loadLevelData` derives from a spawn marker, and the position of
that agent after any sequence of physics steps and validation ticks from there, lies in
`[1, 799] x [1, 599]` (margin `BORDER_MARGIN = 1`, map extent 800 by 600). -/
theorem committed_position_within_margin (s0 : GameState) (locals0 : ValidationLocals)
    (emitted0 : List Notification) (levelData : MapArray) (actions : List Action) :
    ((∃ y x, levelData y x = START_MASTER) →
      1 ≤ (World.run ⟨loadLevelData s0 levelData, locals0, emitted0⟩ actions).state.masterPos.x ∧
      (World.run ⟨loadLevelData s0 levelData, locals0, emitted0⟩ actions).state.masterPos.x ≤ 799 ∧
      1 ≤ (World.run ⟨loadLevelData s0 levelData, locals0, emitted0⟩ actions).state.masterPos.y ∧
      (World.run ⟨loadLevelData s0 levelData, locals0, emitted0⟩ actions).state.masterPos.y ≤ 599) ∧
    ((∃ y x, levelData y x = START_SLAVE) →
      1 ≤ (World.run ⟨loadLevelData s0 levelData, locals0, emitted0⟩ actions).state.slavePos.x ∧
      (World.run ⟨loadLevelData s0 levelData, locals0, emitted0⟩ actions).state.slavePos.x ≤ 799 ∧
      1 ≤ (World.run ⟨loadLevelData s0 levelData, locals0, emitted0⟩ actions).state.slavePos.y ∧
      (World.run ⟨loadLevelData s0 levelData, locals0, emitted0⟩ actions).state.slavePos.y ≤ 599) := by
  constructor
  · intro hM
    obtain ⟨c, hc, -⟩ := lastMarker_of_exists levelData START_MASTER hM
    apply World.run_masterPos_inClampBox
    show inClampBox (loadLevelData s0 levelData).masterPos
    rw [loadLevelData_masterPos, hc]
    exact cellCentre_inClampBox c
  · intro hS
    obtain ⟨c, hc, -⟩ := lastMarker_of_exists levelData START_SLAVE hS
    apply World.run_slavePos_inClampBox
    show inClampBox (loadLevelData s0 levelData).slavePos
    rw [loadLevelData_slavePos, hc]
    exact cellCentre_inClampBox c

theorem masterOn_eq_of_inGrid (s : GameState) (kind : Int)
    (h : inGrid (masterTileX s) (masterTileY s)) :
    masterOn s kind = decide (s.tile (masterTileX s) (masterTileY s) h = kind) := by
  unfold masterOn gridTileIs
  rw [dif_pos h]
  rfl

theorem slaveOn_eq_of_inGrid (s : GameState) (kind : Int)
    (h : inGrid (slaveTileX s) (slaveTileY s)) :
    slaveOn s kind = decide (s.tile (slaveTileX s) (slaveTileY s) h = kind) := by
  unfold slaveOn gridTileIs
  rw [dif_pos h]
  rfl

theorem masterOn_true_iff (s : GameState) (kind : Int) :
    masterOn s kind = true ↔
      ∃ h : inGrid (masterTileX s) (masterTileY s),
        s.tile (masterTileX s) (masterTileY s) h = kind := by
  by_cases h : inGrid (masterTileX s) (masterTileY s)
  · rw [masterOn_eq_of_inGrid s kind h, decide_eq_true_eq]
    exact ⟨fun e => ⟨h, e⟩, fun ⟨_, e⟩ => e⟩
  · have : masterOn s kind = false := by
      unfold masterOn gridTileIs
      rw [dif_neg h]
    simp [this, h]

theorem slaveOn_true_iff (s : GameState) (kind : Int) :
    slaveOn s kind = true ↔
      ∃ h : inGrid (slaveTileX s) (slaveTileY s),
        s.tile (slaveTileX s) (slaveTileY s) h = kind := by
  by_cases h : inGrid (slaveTileX s) (slaveTileY s)
  · rw [slaveOn_eq_of_inGrid s kind h, decide_eq_true_eq]
    exact ⟨fun e => ⟨h, e⟩, fun ⟨_, e⟩ => e⟩
  · have : slaveOn s kind = false := by
      unfold slaveOn gridTileIs
      rw [dif_neg h]
    simp [this, h]

theorem physicsStep_flags (k : Int → Bool) (s : GameState) (m : Bool) (keys : List Int) :
    (physicsStep k s m keys).button1Active = s.button1Active ∧
    (physicsStep k s m keys).button2Active = s.button2Active ∧
    (physicsStep k s m keys).button3Active = s.button3Active ∧
    (physicsStep k s m keys).levelCompleted = s.levelCompleted := by
  rcases physicsStep_cases k s m keys with e | ⟨-, e⟩
  · rw [e]; exact ⟨rfl, rfl, rfl, rfl⟩
  · rw [e]; cases m <;> exact ⟨rfl, rfl, rfl, rfl⟩

theorem validationTick_flags (s : GameState) (l : ValidationLocals) :
    (validationTick s l).1.button1Active = (s.button1Active || masterOn s BOTON_1) ∧
    (validationTick s l).1.button2Active = (s.button2Active || slaveOn s BOTON_2) ∧
    (validationTick s l).1.button3Active =
      (s.button3Active || (masterOn s BOTON_3 && slaveOn s BOTON_3)) ∧
    (validationTick s l).1.levelCompleted =
      (s.levelCompleted || (masterOn s META && slaveOn s META)) := by
  rw [validationTick_state]
  exact ⟨rfl, rfl, rfl, rfl⟩

/-- The sticky flags never fall in one step. -/
theorem World.step_flags_mono (w : World) (a : Action) :
    (w.state.button1Active = true → (w.step a).state.button1Active = true) ∧
    (w.state.button2Active = true → (w.step a).state.button2Active = true) ∧
    (w.state.button3Active = true → (w.step a).state.button3Active = true) ∧
    (w.state.levelCompleted = true → (w.step a).state.levelCompleted = true) := by
  cases a with
  | physics m k keys =>
    obtain ⟨h1, h2, h3, h4⟩ := physicsStep_flags k w.state m keys
    show (_ → (physicsStep k w.state m keys).button1Active = true) ∧
      (_ → (physicsStep k w.state m keys).button2Active = true) ∧
      (_ → (physicsStep k w.state m keys).button3Active = true) ∧
      (_ → (physicsStep k w.state m keys).levelCompleted = true)
    rw [h1, h2, h3, h4]
    exact ⟨id, id, id, id⟩
  | validation =>
    obtain ⟨h1, h2, h3, h4⟩ := validationTick_flags w.state w.locals
    show (_ → (validationTick w.state w.locals).1.button1Active = true) ∧
      (_ → (validationTick w.state w.locals).1.button2Active = true) ∧
      (_ → (validationTick w.state w.locals).1.button3Active = true) ∧
      (_ → (validationTick w.state w.locals).1.levelCompleted = true)
    rw [h1, h2, h3, h4]
    refine ⟨?_, ?_, ?_, ?_⟩ <;> intro h <;> simp [h]

theorem World.run_flags_mono (actions : List Action) (w : World) :
    (w.state.button1Active = true → (w.run actions).state.button1Active = true) ∧
    (w.state.button2Active = true → (w.run actions).state.button2Active = true) ∧
    (w.state.button3Active = true → (w.run actions).state.button3Active = true) ∧
    (w.state.levelCompleted = true → (w.run actions).state.levelCompleted = true) := by
  induction actions generalizing w with
  | nil => exact ⟨id, id, id, id⟩
  | cons a as ih =>
    obtain ⟨s1, s2, s3, s4⟩ := World.step_flags_mono w a
    obtain ⟨r1, r2, r3, r4⟩ := ih (w.step a)
    exact ⟨fun h => r1 (s1 h), fun h => r2 (s2 h), fun h => r3 (s3 h), fun h => r4 (s4 h)⟩

/-- Claim C7. In any sequence of physics steps and validation ticks, a sticky flag
(`button1Active`, `button2Active`, `button3Active`, `levelCompleted`) that is true in some
state of the sequence is true in every later state: no worker step sets it back to false. -/
theorem sticky_flags_monotone (w : World) (earlier later : List Action) :
    ((w.run earlier).state.button1Active = true →
      (w.run (earlier ++ later)).state.button1Active = true) ∧
    ((w.run earlier).state.button2Active = true →
      (w.run (earlier ++ later)).state.button2Active = true) ∧
    ((w.run earlier).state.button3Active = true →
      (w.run (earlier ++ later)).state.button3Active = true) ∧
    ((w.run earlier).state.levelCompleted = true →
      (w.run (earlier ++ later)).state.levelCompleted = true) := by
  rw [World.run_append]
  exact World.run_flags_mono later (w.run earlier)

/-- Claim C8, as amended. A validation tick sets `button3Active` to its old value or-ed with
"the master's cell is `BOTON_3` and the slave's cell is `BOTON_3`" (both tested on that
tick); so a tick with at most one agent on a `BOTON_3` cell leaves a false flag false, and
on a grid whose `BOTON_3` cell is unique a tick that takes the flag from false to true finds
both agents at the grid coordinates of that cell. -/
theorem gate3_joint_condition (s : GameState) (l : ValidationLocals) :
    (validationTick s l).1.button3Active =
        (s.button3Active || (masterOn s BOTON_3 && slaveOn s BOTON_3)) ∧
    (s.button3Active = false → (masterOn s BOTON_3 = false ∨ slaveOn s BOTON_3 = false) →
      (validationTick s l).1.button3Active = false) ∧
    ((∀ (y y2 : Fin MAP_HEIGHT) (x x2 : Fin MAP_WIDTH),
        s.laberinto y x = BOTON_3 → s.laberinto y2 x2 = BOTON_3 → y = y2 ∧ x = x2) →
      s.button3Active = false → (validationTick s l).1.button3Active = true →
      ∃ (y : Fin MAP_HEIGHT) (x : Fin MAP_WIDTH), s.laberinto y x = BOTON_3 ∧
        masterTileX s = x ∧ masterTileY s = y ∧ slaveTileX s = x ∧ slaveTileY s = y) := by
  have hb := (validationTick_flags s l).2.2.1
  refine ⟨hb, ?_, ?_⟩
  · intro h0 h
    rw [hb, h0]
    rcases h with h | h <;> simp [h]
  · intro huniq h0 h
    rw [hb, h0] at h
    simp only [Bool.false_or, Bool.and_eq_true] at h
    obtain ⟨hm, hs⟩ := h
    obtain ⟨hmin, hmt⟩ := (masterOn_true_iff s BOTON_3).1 hm
    obtain ⟨hsin, hst⟩ := (slaveOn_true_iff s BOTON_3).1 hs
    unfold GameState.tile at hmt hst
    obtain ⟨ey, ex⟩ := huniq _ _ _ _ hmt hst
    have ey2 := congrArg Fin.val ey
    have ex2 := congrArg Fin.val ex
    simp only [] at ey2 ex2
    obtain ⟨a1, a2, a3, a4⟩ := hmin
    obtain ⟨b1, b2, b3, b4⟩ := hsin
    refine ⟨_, _, hmt, ?_, ?_, ?_, ?_⟩
    · simp [Int.toNat_of_nonneg a1]
    · simp [Int.toNat_of_nonneg a3]
    · show slaveTileX s = (((masterTileX s).toNat : Nat) : Int)
      omega
    · show slaveTileY s = (((masterTileY s).toNat : Nat) : Int)
      omega

theorem truncToInt_tile (p : ℚ) (n : Int) (h0 : 0 ≤ p) (h1 : (n : ℚ) * 40 ≤ p)
    (h2 : p < (n : ℚ) * 40 + 40) : truncToInt (p / (TILE_SIZE : ℚ)) = n := by
  have h40 : ((TILE_SIZE : Int) : ℚ) = 40 := by norm_num [TILE_SIZE]
  rw [h40, truncToInt_of_nonneg (div_nonneg h0 (by norm_num)), Int.floor_eq_iff]
  constructor
  · rw [le_div_iff₀ (by norm_num)]; exact h1
  · rw [div_lt_iff₀ (by norm_num)]; linarith

theorem checkCollision_open (p : Vector2) (r : ℚ) (m : Bool) (s : GameState)
    (hopen : ∀ y x, canPassTile (s.laberinto y x) m s = true) :
    checkCollisionWithLaberinto p r m s =
      decide (p.x < r ∨ p.y < r ∨ p.x ≥ ((MAP_WIDTH * TILE_SIZE : Int) : ℚ) - r ∨
        p.y ≥ ((MAP_HEIGHT * TILE_SIZE : Int) : ℚ) - r) := by
  unfold checkCollisionWithLaberinto
  split_ifs with hb
  · rw [decide_eq_true hb]
  · rw [decide_eq_false hb, Bool.eq_false_iff]
    intro h
    simp only [List.any_eq_true] at h
    obtain ⟨y, -, x, -, hblk⟩ := h
    unfold tileBlocks at hblk
    split at hblk
    · rename_i hin
      have := hopen ⟨y.toNat, by have := hin.2.2.1; have := hin.2.2.2; omega⟩
        ⟨x.toNat, by have := hin.1; have := hin.2.1; omega⟩
      unfold GameState.tile at hblk
      simp only [this] at hblk
      simp at hblk
    · simp at hblk

theorem openGrid_passable (m : Bool) (p q : Vector2) (y : Fin MAP_HEIGHT) (x : Fin MAP_WIDTH) :
    canPassTile ((GameState.constructed openGrid p q).laberinto y x) m
      (GameState.constructed openGrid p q) = true := by
  simp [GameState.constructed, openGrid, canPassTile]

/-- Claim C6, as amended. On a grid without impassable cells the boundary test of
`checkCollisionWithLaberinto` (radius `PLAYER_RADIUS = 15`) is inclusive at the near side
and exclusive at the far side: a candidate at `x = 15` or `y = 15` is accepted and one at
`14` is rejected; a candidate at `x = 785` or `y = 585` is rejected, as is one at `786` or
`586`, and one at `784` or `584` is accepted (the other coordinate `t` inside the map). -/
theorem boundary_check_half_open (s : GameState) (m : Bool)
    (hopen : ∀ y x, canPassTile (s.laberinto y x) m s = true) (t : ℚ) :
    (15 ≤ t → t < 585 → checkCollisionWithLaberinto ⟨15, t⟩ (PLAYER_RADIUS : ℚ) m s = false) ∧
    (15 ≤ t → t < 785 → checkCollisionWithLaberinto ⟨t, 15⟩ (PLAYER_RADIUS : ℚ) m s = false) ∧
    checkCollisionWithLaberinto ⟨14, t⟩ (PLAYER_RADIUS : ℚ) m s = true ∧
    checkCollisionWithLaberinto ⟨t, 14⟩ (PLAYER_RADIUS : ℚ) m s = true ∧
    checkCollisionWithLaberinto ⟨785, t⟩ (PLAYER_RADIUS : ℚ) m s = true ∧
    checkCollisionWithLaberinto ⟨t, 585⟩ (PLAYER_RADIUS : ℚ) m s = true ∧
    checkCollisionWithLaberinto ⟨786, t⟩ (PLAYER_RADIUS : ℚ) m s = true ∧
    checkCollisionWithLaberinto ⟨t, 586⟩ (PLAYER_RADIUS : ℚ) m s = true ∧
    (15 ≤ t → t < 585 → checkCollisionWithLaberinto ⟨784, t⟩ (PLAYER_RADIUS : ℚ) m s = false) ∧
    (15 ≤ t → t < 785 → checkCollisionWithLaberinto ⟨t, 584⟩ (PLAYER_RADIUS : ℚ) m s = false) := by
  have e1 : (((MAP_WIDTH : Nat) * TILE_SIZE : Int) : ℚ) = 800 := by norm_num [TILE_SIZE]
  have e2 : (((MAP_HEIGHT : Nat) * TILE_SIZE : Int) : ℚ) = 600 := by norm_num [TILE_SIZE]
  have e3 : ((PLAYER_RADIUS : Int) : ℚ) = 15 := by norm_num [PLAYER_RADIUS]
  simp only [checkCollision_open _ _ m s hopen, e1, e2, e3, decide_eq_true_eq,
    decide_eq_false_iff_not]
  refine ⟨?_, ?_, ?_, ?_, ?_, ?_, ?_, ?_, ?_, ?_⟩
  · intro h1 h2; norm_num; exact ⟨h1, by linarith⟩
  · intro h1 h2; norm_num; exact ⟨h1, by linarith⟩
  · left; norm_num
  · right; left; norm_num
  · right; right; left; norm_num
  · right; right; right; norm_num
  · right; right; left; norm_num
  · right; right; right; norm_num
  · intro h1 h2; norm_num; exact ⟨h1, by linarith⟩
  · intro h1 h2; norm_num; exact ⟨h1, by linarith⟩

/-- Witness of `boundary_check_half_open`: the open grid, the master, `t = 300`. -/
theorem boundary_check_half_open_witness :
    (∀ y x, canPassTile (openFieldState.laberinto y x) true openFieldState = true) ∧
    checkCollisionWithLaberinto ⟨785, 300⟩ (PLAYER_RADIUS : ℚ) true openFieldState = true ∧
    checkCollisionWithLaberinto ⟨784, 300⟩ (PLAYER_RADIUS : ℚ) true openFieldState = false ∧
    checkCollisionWithLaberinto ⟨15, 300⟩ (PLAYER_RADIUS : ℚ) true openFieldState = false :=
  ⟨openGrid_passable true _ _,
    (boundary_check_half_open openFieldState true (openGrid_passable true _ _) 300).2.2.2.2.1,
    (boundary_check_half_open openFieldState true (openGrid_passable true _ _) 300).2.2.2.2.2.2.2.2.1
      (by norm_num) (by norm_num),
    (boundary_check_half_open openFieldState true (openGrid_passable true _ _) 300).1
      (by norm_num) (by norm_num)⟩

/-- Counterexample to claim C6 as stated: on the open grid (no impassable cell) the
candidates `(785, 300)` and `(400, 585)`, exactly at map extent minus the radius, are
rejected by `checkCollisionWithLaberinto`. -/
theorem boundary_upper_edge_rejected :
    (∀ y x, canPassTile (openFieldState.laberinto y x) true openFieldState = true) ∧
    checkCollisionWithLaberinto ⟨785, 300⟩ (PLAYER_RADIUS : ℚ) true openFieldState = true ∧
    checkCollisionWithLaberinto ⟨400, 585⟩ (PLAYER_RADIUS : ℚ) true openFieldState = true := by
  refine ⟨openGrid_passable true _ _, ?_, ?_⟩
  · unfold checkCollisionWithLaberinto
    rw [if_pos]
    right; right; left
    norm_num [PLAYER_RADIUS, TILE_SIZE]
  · unfold checkCollisionWithLaberinto
    rw [if_pos]
    right; right; right
    norm_num [PLAYER_RADIUS, TILE_SIZE]

theorem twoPlateState_tiles :
    masterTileX twoPlateState = 1 ∧ masterTileY twoPlateState = 1 ∧
    slaveTileX twoPlateState = 3 ∧ slaveTileY twoPlateState = 1 := by
  refine ⟨?_, ?_, ?_, ?_⟩
  · exact truncToInt_tile 60 1 (by norm_num) (by norm_num) (by norm_num)
  · exact truncToInt_tile 60 1 (by norm_num) (by norm_num) (by norm_num)
  · exact truncToInt_tile 140 3 (by norm_num) (by norm_num) (by norm_num)
  · exact truncToInt_tile 60 1 (by norm_num) (by norm_num) (by norm_num)

theorem onePlateState_tiles :
    masterTileX onePlateState = 1 ∧ masterTileY onePlateState = 1 ∧
    slaveTileX onePlateState = 1 ∧ slaveTileY onePlateState = 1 := by
  refine ⟨?_, ?_, ?_, ?_⟩
  · exact truncToInt_tile 60 1 (by norm_num) (by norm_num) (by norm_num)
  · exact truncToInt_tile 60 1 (by norm_num) (by norm_num) (by norm_num)
  · exact truncToInt_tile 50 1 (by norm_num) (by norm_num) (by norm_num)
  · exact truncToInt_tile 70 1 (by norm_num) (by norm_num) (by norm_num)

theorem twoPlateState_on :
    masterOn twoPlateState BOTON_3 = true ∧ slaveOn twoPlateState BOTON_3 = true := by
  obtain ⟨a, b, c, d⟩ := twoPlateState_tiles
  unfold masterOn slaveOn
  rw [a, b, c, d]
  exact ⟨by decide, by decide⟩

theorem onePlateState_on :
    masterOn onePlateState BOTON_3 = true ∧ slaveOn onePlateState BOTON_3 = true := by
  obtain ⟨a, b, c, d⟩ := onePlateState_tiles
  unfold masterOn slaveOn
  rw [a, b, c, d]
  exact ⟨by decide, by decide⟩

theorem onePlateGrid_unique (y y2 : Fin MAP_HEIGHT) (x x2 : Fin MAP_WIDTH)
    (h1 : onePlateState.laberinto y x = BOTON_3) (h2 : onePlateState.laberinto y2 x2 = BOTON_3) :
    y = y2 ∧ x = x2 := by
  simp only [onePlateState, GameState.constructed, onePlateGrid] at h1 h2
  split_ifs at h1 h2 with a b
  · exact ⟨Fin.ext (a.1.trans b.1.symm), Fin.ext (a.2.trans b.2.symm)⟩
  all_goals first | exact absurd h2 (by decide) | exact absurd h1 (by decide)

/-- Counterexample to claim C8 as stated: on a grid with two `BOTON_3` cells, with the master
on the one in column 1 and the slave on the one in column 3, a validation tick takes
`button3Active` from false to true although the agents are at different grid coordinates. -/
theorem gate3_opens_on_distinct_plates :
    twoPlateState.button3Active = false ∧
    (validationTick twoPlateState ValidationLocals.initial).1.button3Active = true ∧
    masterTileX twoPlateState = 1 ∧ slaveTileX twoPlateState = 3 := by
  refine ⟨rfl, ?_, twoPlateState_tiles.1, twoPlateState_tiles.2.2.1⟩
  rw [(validationTick_flags _ _).2.2.1, twoPlateState_on.1, twoPlateState_on.2]
  rfl

/-- Witness of `gate3_joint_condition`: both agents on the only `BOTON_3` cell. -/
theorem gate3_joint_condition_witness :
    (∀ (y y2 : Fin MAP_HEIGHT) (x x2 : Fin MAP_WIDTH),
      onePlateState.laberinto y x = BOTON_3 → onePlateState.laberinto y2 x2 = BOTON_3 →
        y = y2 ∧ x = x2) ∧
    onePlateState.button3Active = false ∧
    (validationTick onePlateState ValidationLocals.initial).1.button3Active = true ∧
    ∃ (y : Fin MAP_HEIGHT) (x : Fin MAP_WIDTH), onePlateState.laberinto y x = BOTON_3 ∧
      masterTileX onePlateState = x ∧ masterTileY onePlateState = y ∧
      slaveTileX onePlateState = x ∧ slaveTileY onePlateState = y :=
  have hb : (validationTick onePlateState ValidationLocals.initial).1.button3Active = true := by
    rw [(validationTick_flags _ _).2.2.1, onePlateState_on.1, onePlateState_on.2]
    rfl
  ⟨onePlateGrid_unique, rfl, hb,
    (gate3_joint_condition onePlateState ValidationLocals.initial).2.2 onePlateGrid_unique rfl hb⟩

/-- Witness of `committed_position_clear_of_impassable`: level 0 and a short run. -/
theorem committed_position_clear_of_impassable_witness :
    (∃ y x, nivel0 y x = START_MASTER) ∧ (∃ y x, nivel0 y x = START_SLAVE) ∧
    ∀ (y : Fin MAP_HEIGHT) (x : Fin MAP_WIDTH),
      canPassTile
          ((World.run ⟨loadLevelData openFieldState nivel0, ValidationLocals.initial, []⟩
            sampleRun).state.laberinto y x)
          true (World.run ⟨loadLevelData openFieldState nivel0, ValidationLocals.initial, []⟩
            sampleRun).state = false →
        ¬ circleMeetsRect
          (World.run ⟨loadLevelData openFieldState nivel0, ValidationLocals.initial, []⟩
            sampleRun).state.masterPos
          (PLAYER_RADIUS : ℚ) (tileRect x y) :=
  ⟨⟨1, 1, by decide⟩, ⟨13, 1, by decide⟩,
    (committed_position_clear_of_impassable openFieldState ValidationLocals.initial [] nivel0
      ⟨1, 1, by decide⟩ ⟨13, 1, by decide⟩ sampleRun).1⟩

/-- Witness of `committed_position_within_margin`: level 0 and a short run. -/
theorem committed_position_within_margin_witness :
    (∃ y x, nivel0 y x = START_MASTER) ∧
    1 ≤ (World.run ⟨loadLevelData openFieldState nivel0, ValidationLocals.initial, []⟩
      sampleRun).state.masterPos.x ∧
    (World.run ⟨loadLevelData openFieldState nivel0, ValidationLocals.initial, []⟩
      sampleRun).state.masterPos.x ≤ 799 ∧
    (∃ y x, nivel0 y x = START_SLAVE) ∧
    1 ≤ (World.run ⟨loadLevelData openFieldState nivel0, ValidationLocals.initial, []⟩
      sampleRun).state.slavePos.y ∧
    (World.run ⟨loadLevelData openFieldState nivel0, ValidationLocals.initial, []⟩
      sampleRun).state.slavePos.y ≤ 599 :=
  ⟨⟨1, 1, by decide⟩,
    ((committed_position_within_margin openFieldState ValidationLocals.initial [] nivel0
      sampleRun).1 ⟨1, 1, by decide⟩).1,
    ((committed_position_within_margin openFieldState ValidationLocals.initial [] nivel0
      sampleRun).1 ⟨1, 1, by decide⟩).2.1,
    ⟨13, 1, by decide⟩,
    ((committed_position_within_margin openFieldState ValidationLocals.initial [] nivel0
      sampleRun).2 ⟨13, 1, by decide⟩).2.2.1,
    ((committed_position_within_margin openFieldState ValidationLocals.initial [] nivel0
      sampleRun).2 ⟨13, 1, by decide⟩).2.2.2⟩

/-- Witness of `sticky_flags_monotone`: all four flags set, then a short run. -/
theorem sticky_flags_monotone_witness :
    ((World.run ⟨allSetState, ValidationLocals.initial, []⟩ []).state.button1Active = true ∧
      (World.run ⟨allSetState, ValidationLocals.initial, []⟩ ([] ++ sampleRun)).state.button1Active
        = true) ∧
    ((World.run ⟨allSetState, ValidationLocals.initial, []⟩ []).state.button2Active = true ∧
      (World.run ⟨allSetState, ValidationLocals.initial, []⟩ ([] ++ sampleRun)).state.button2Active
        = true) ∧
    ((World.run ⟨allSetState, ValidationLocals.initial, []⟩ []).state.button3Active = true ∧
      (World.run ⟨allSetState, ValidationLocals.initial, []⟩ ([] ++ sampleRun)).state.button3Active
        = true) ∧
    ((World.run ⟨allSetState, ValidationLocals.initial, []⟩ []).state.levelCompleted = true ∧
      (World.run ⟨allSetState, ValidationLocals.initial, []⟩ ([] ++ sampleRun)).state.levelCompleted
        = true) :=
  ⟨⟨rfl, (sticky_flags_monotone ⟨allSetState, ValidationLocals.initial, []⟩ [] sampleRun).1 rfl⟩,
   ⟨rfl, (sticky_flags_monotone ⟨allSetState, ValidationLocals.initial, []⟩ [] sampleRun).2.1 rfl⟩,
   ⟨rfl, (sticky_flags_monotone ⟨allSetState, ValidationLocals.initial, []⟩ [] sampleRun).2.2.1 rfl⟩,
   ⟨rfl, (sticky_flags_monotone ⟨allSetState, ValidationLocals.initial, []⟩ [] sampleRun).2.2.2 rfl⟩⟩

/-- Claim C2. For a radius `0 <= r < TILE_SIZE` and a position that passes the outer
boundary test, `checkCollisionWithLaberinto`, which looks at the 3x3 cells around the cell
of the position, returns what the sweep over every impassable cell of the whole grid
returns. -/
theorem local_check_eq_full_sweep (position : Vector2) (radius : ℚ) (isMaster : Bool)
    (state : GameState) (hr0 : 0 ≤ radius) (hr : radius < (TILE_SIZE : ℚ))
    (hb : ¬ (position.x < radius ∨ position.y < radius ∨
      position.x ≥ ((MAP_WIDTH * TILE_SIZE : Int) : ℚ) - radius ∨
      position.y ≥ ((MAP_HEIGHT * TILE_SIZE : Int) : ℚ) - radius)) :
    checkCollisionWithLaberinto position radius isMaster state =
      checkCollisionFullSweep position radius isMaster state :=
  checkCollision_eq_fullSweep_of_inside position radius isMaster state hr0 hr hb

/-- Witness of `local_check_eq_full_sweep`: the position `(100, 100)` with radius 15 on
level 0. -/
theorem local_check_eq_full_sweep_witness :
    (0 : ℚ) ≤ 15 ∧ (15 : ℚ) < (TILE_SIZE : ℚ) ∧
    ¬ ((100 : ℚ) < 15 ∨ (100 : ℚ) < 15 ∨
      (100 : ℚ) ≥ ((MAP_WIDTH * TILE_SIZE : Int) : ℚ) - 15 ∨
      (100 : ℚ) ≥ ((MAP_HEIGHT * TILE_SIZE : Int) : ℚ) - 15) ∧
    checkCollisionWithLaberinto ⟨100, 100⟩ 15 true (loadLevelData openFieldState nivel0) =
      checkCollisionFullSweep ⟨100, 100⟩ 15 true (loadLevelData openFieldState nivel0) :=
  ⟨by norm_num, by norm_num [TILE_SIZE], by norm_num [TILE_SIZE],
    local_check_eq_full_sweep ⟨100, 100⟩ 15 true (loadLevelData openFieldState nivel0)
      (by norm_num) (by norm_num [TILE_SIZE]) (by norm_num [TILE_SIZE])⟩

/-- A field that no `loadCell` changes is not changed by `loadLevelData`. -/
theorem loadLevelData_preserves {α : Type} (f : GameState → α) (levelData : MapArray)
    (hf : ∀ s y x, f (loadCell levelData s y x) = f s) (state : GameState) :
    f (loadLevelData state levelData) = f state := by
  rw [loadLevelData_eq_foldl]
  generalize rowMajorCells = l
  induction l generalizing state with
  | nil => rfl
  | cons c l ih => rw [List.foldl_cons, ih, hf]

theorem loadCell_rest (levelData : MapArray) (s : GameState) (y : Fin MAP_HEIGHT)
    (x : Fin MAP_WIDTH) :
    (loadCell levelData s y x).button1Active = s.button1Active ∧
    (loadCell levelData s y x).button2Active = s.button2Active ∧
    (loadCell levelData s y x).button3Active = s.button3Active ∧
    (loadCell levelData s y x).masterInGoal = s.masterInGoal ∧
    (loadCell levelData s y x).slaveInGoal = s.slaveInGoal ∧
    (loadCell levelData s y x).bothInGoal = s.bothInGoal ∧
    (loadCell levelData s y x).gameRunning = s.gameRunning ∧
    (loadCell levelData s y x).currentLevel = s.currentLevel ∧
    (loadCell levelData s y x).levelCompleted = s.levelCompleted := by
  unfold loadCell
  simp only []
  split_ifs <;> exact ⟨rfl, rfl, rfl, rfl, rfl, rfl, rfl, rfl, rfl⟩

/-- The state `loadLevelData` leaves, field by field. -/
theorem loadLevelData_state (state : GameState) (levelData : MapArray) :
    loadLevelData state levelData =
      { state with
        laberinto := levelData
        masterPos := ((lastMarker levelData START_MASTER).map cellCentre).getD state.masterPos
        slavePos := ((lastMarker levelData START_SLAVE).map cellCentre).getD state.slavePos } := by
  have h1 := loadLevelData_preserves (fun s => s.button1Active) levelData
    (fun s y x => (loadCell_rest levelData s y x).1) state
  have h2 := loadLevelData_preserves (fun s => s.button2Active) levelData
    (fun s y x => (loadCell_rest levelData s y x).2.1) state
  have h3 := loadLevelData_preserves (fun s => s.button3Active) levelData
    (fun s y x => (loadCell_rest levelData s y x).2.2.1) state
  have h4 := loadLevelData_preserves (fun s => s.masterInGoal) levelData
    (fun s y x => (loadCell_rest levelData s y x).2.2.2.1) state
  have h5 := loadLevelData_preserves (fun s => s.slaveInGoal) levelData
    (fun s y x => (loadCell_rest levelData s y x).2.2.2.2.1) state
  have h6 := loadLevelData_preserves (fun s => s.bothInGoal) levelData
    (fun s y x => (loadCell_rest levelData s y x).2.2.2.2.2.1) state
  have h7 := loadLevelData_preserves (fun s => s.gameRunning) levelData
    (fun s y x => (loadCell_rest levelData s y x).2.2.2.2.2.2.1) state
  have h8 := loadLevelData_preserves (fun s => s.currentLevel) levelData
    (fun s y x => (loadCell_rest levelData s y x).2.2.2.2.2.2.2.1) state
  have h9 := loadLevelData_preserves (fun s => s.levelCompleted) levelData
    (fun s y x => (loadCell_rest levelData s y x).2.2.2.2.2.2.2.2) state
  have hl := loadLevelData_laberinto state levelData
  have hm := loadLevelData_masterPos state levelData
  have hs := loadLevelData_slavePos state levelData
  simp only [] at h1 h2 h3 h4 h5 h6 h7 h8 h9
  cases hld : loadLevelData state levelData
  rw [hld] at h1 h2 h3 h4 h5 h6 h7 h8 h9 hl hm hs
  simp only [] at h1 h2 h3 h4 h5 h6 h7 h8 h9 hl hm hs
  simp only [GameState.mk.injEq]
  exact ⟨hl, hm, hs, h1, h2, h3, h4, h5, h6, h7, h8, h9⟩

/-- The level array `initializeLevel` loads for a level index. -/
theorem initializeLevel_eq (state : GameState) (level : Int) :
    initializeLevel state level =
      loadLevelData (resetForLevel state level)
        (if level = 1 then nivel1 else if level = 2 then nivel2
          else if level = 3 then nivel3 else nivel0) := by
  unfold initializeLevel initializeLevel0 initializeLevel1 initializeLevel2 initializeLevel3
  simp only []
  split_ifs <;> first | omega | rfl

theorem validationTick_goalFlags (s : GameState) (l : ValidationLocals) :
    (validationTick s l).1.masterInGoal = masterOn s META ∧
    (validationTick s l).1.slaveInGoal = slaveOn s META ∧
    (validationTick s l).1.bothInGoal = (masterOn s META && slaveOn s META) := by
  rw [validationTick_state]
  exact ⟨rfl, rfl, rfl⟩

theorem validationTick_frame (s : GameState) (l : ValidationLocals) :
    (validationTick s l).1.laberinto = s.laberinto ∧
    (validationTick s l).1.masterPos = s.masterPos ∧
    (validationTick s l).1.slavePos = s.slavePos ∧
    (validationTick s l).1.gameRunning = s.gameRunning ∧
    (validationTick s l).1.currentLevel = s.currentLevel := by
  rw [validationTick_state]
  exact ⟨rfl, rfl, rfl, rfl, rfl⟩

theorem physicsStep_frame (k : Int → Bool) (s : GameState) (m : Bool) (keys : List Int) :
    (physicsStep k s m keys).laberinto = s.laberinto ∧
    (physicsStep k s m keys).button1Active = s.button1Active ∧
    (physicsStep k s m keys).button2Active = s.button2Active ∧
    (physicsStep k s m keys).button3Active = s.button3Active ∧
    (physicsStep k s m keys).masterInGoal = s.masterInGoal ∧
    (physicsStep k s m keys).slaveInGoal = s.slaveInGoal ∧
    (physicsStep k s m keys).bothInGoal = s.bothInGoal ∧
    (physicsStep k s m keys).levelCompleted = s.levelCompleted ∧
    (physicsStep k s m keys).gameRunning = s.gameRunning ∧
    (physicsStep k s m keys).currentLevel = s.currentLevel := by
  rcases physicsStep_cases k s m keys with e | ⟨-, e⟩
  · rw [e]; exact ⟨rfl, rfl, rfl, rfl, rfl, rfl, rfl, rfl, rfl, rfl⟩
  · rw [e]; cases m <;> exact ⟨rfl, rfl, rfl, rfl, rfl, rfl, rfl, rfl, rfl, rfl⟩

theorem physicsStep_other_agent (k : Int → Bool) (s : GameState) (keys : List Int) :
    (physicsStep k s true keys).slavePos = s.slavePos ∧
    (physicsStep k s false keys).masterPos = s.masterPos := by
  constructor
  · rcases physicsStep_cases k s true keys with e | ⟨-, e⟩
    · rw [e]
    · rw [e]; rfl
  · rcases physicsStep_cases k s false keys with e | ⟨-, e⟩
    · rw [e]
    · rw [e]; rfl

/-- Claim C18. A physics step of the master leaves `slavePos`, the grid and the seven flags
as they were, and a physics step of the slave leaves `masterPos`, the grid and the flags as
they were; a validation tick leaves both positions, the grid and `currentLevel` as they
were (it writes only gate and goal flags). Neither writes `gameRunning`. -/
theorem single_writer_frame (k : Int → Bool) (s : GameState) (keys : List Int)
    (l : ValidationLocals) :
    ((physicsStep k s true keys).slavePos = s.slavePos ∧
      (physicsStep k s false keys).masterPos = s.masterPos) ∧
    (∀ m : Bool,
      (physicsStep k s m keys).laberinto = s.laberinto ∧
      (physicsStep k s m keys).button1Active = s.button1Active ∧
      (physicsStep k s m keys).button2Active = s.button2Active ∧
      (physicsStep k s m keys).button3Active = s.button3Active ∧
      (physicsStep k s m keys).masterInGoal = s.masterInGoal ∧
      (physicsStep k s m keys).slaveInGoal = s.slaveInGoal ∧
      (physicsStep k s m keys).bothInGoal = s.bothInGoal ∧
      (physicsStep k s m keys).levelCompleted = s.levelCompleted ∧
      (physicsStep k s m keys).gameRunning = s.gameRunning ∧
      (physicsStep k s m keys).currentLevel = s.currentLevel) ∧
    ((validationTick s l).1.laberinto = s.laberinto ∧
      (validationTick s l).1.masterPos = s.masterPos ∧
      (validationTick s l).1.slavePos = s.slavePos ∧
      (validationTick s l).1.gameRunning = s.gameRunning ∧
      (validationTick s l).1.currentLevel = s.currentLevel) :=
  ⟨physicsStep_other_agent k s keys, fun m => physicsStep_frame k s m keys,
    validationTick_frame s l⟩

/-- Claim C14. A physics step is all or nothing: when `checkCollisionWithLaberinto` reports
the candidate of `calculateNewPosition` blocked, the state after the step is the state
before (the agent keeps both coordinates); otherwise the agent's position is the candidate.
Either way the step emits no notification and leaves the validation locals alone. -/
theorem physics_step_all_or_nothing (k : Int → Bool) (s : GameState) (m : Bool)
    (keys : List Int) (w : World) :
    (checkCollisionWithLaberinto
        (calculateNewPosition k (if m then s.masterPos else s.slavePos) keys)
        (PLAYER_RADIUS : ℚ) m s = true →
      physicsStep k s m keys = s) ∧
    (checkCollisionWithLaberinto
        (calculateNewPosition k (if m then s.masterPos else s.slavePos) keys)
        (PLAYER_RADIUS : ℚ) m s = false →
      (if m then (physicsStep k s m keys).masterPos else (physicsStep k s m keys).slavePos) =
        calculateNewPosition k (if m then s.masterPos else s.slavePos) keys) ∧
    (w.step (Action.physics m k keys)).emitted = w.emitted ∧
    (w.step (Action.physics m k keys)).locals = w.locals := by
  refine ⟨?_, ?_, rfl, rfl⟩
  · intro h
    unfold physicsStep
    simp only [h]
    rfl
  · intro h
    unfold physicsStep
    simp only [h]
    cases m <;> rfl

theorem World.iterate_stopped (w : World) (a : Action) (h : w.state.gameRunning = false) :
    w.iterate a = w := by
  unfold World.iterate
  rw [h]
  rfl

theorem World.iterateAll_stopped (actions : List Action) (w : World)
    (h : w.state.gameRunning = false) : w.iterateAll actions = w := by
  induction actions with
  | nil => rfl
  | cons a as ih =>
    unfold World.iterateAll at ih ⊢
    rw [List.foldl_cons, World.iterate_stopped w a h]
    exact ih

theorem clamp_of_mem (v lo hi : ℚ) (h1 : lo ≤ v) (h2 : v ≤ hi) : clamp v lo hi = v := by
  unfold clamp
  rw [if_neg (not_lt.2 h1), if_neg (not_lt.2 h2)]

/-- Claim C20. Opposite inputs cancel. With left and right both held `calculateNewPosition`
returns what it returns with neither held, whatever the up and down keys are (the same in
both cases), and likewise for up and down both held; for a position inside
`[1, 799] x [1, 599]` the cancelled axis keeps its coordinate. -/
theorem opposite_inputs_cancel (held none : Int → Bool) (p : Vector2)
    (left right up down : Int) :
    (held left = true → held right = true → none left = false → none right = false →
      held up = none up → held down = none down →
      calculateNewPosition held p [left, right, up, down] =
        calculateNewPosition none p [left, right, up, down]) ∧
    (held up = true → held down = true → none up = false → none down = false →
      held left = none left → held right = none right →
      calculateNewPosition held p [left, right, up, down] =
        calculateNewPosition none p [left, right, up, down]) ∧
    (held left = true → held right = true → 1 ≤ p.x → p.x ≤ 799 →
      (calculateNewPosition held p [left, right, up, down]).x = p.x) ∧
    (held up = true → held down = true → 1 ≤ p.y → p.y ≤ 599 →
      (calculateNewPosition held p [left, right, up, down]).y = p.y) := by
  have e1 : (((MAP_WIDTH : Int) * TILE_SIZE : Int) : ℚ) - BORDER_MARGIN = 799 := by
    simp only [BORDER_MARGIN, MAP_WIDTH, TILE_SIZE]; norm_num
  have e2 : (((MAP_HEIGHT : Int) * TILE_SIZE : Int) : ℚ) - BORDER_MARGIN = 599 := by
    simp only [BORDER_MARGIN, MAP_HEIGHT, TILE_SIZE]; norm_num
  have e3 : BORDER_MARGIN = 1 := rfl
  refine ⟨?_, ?_, ?_, ?_⟩
  · intro a b c d e f
    unfold calculateNewPosition
    rw [applyKeys_four, applyKeys_four, a, b, c, d, e, f]
    simp
  · intro a b c d e f
    unfold calculateNewPosition
    rw [applyKeys_four, applyKeys_four, a, b, c, d, e, f]
    simp
  · intro a b h1 h2
    unfold calculateNewPosition
    rw [applyKeys_four, a, b]
    simp only [e1, e3, if_true, sub_add_cancel]
    exact clamp_of_mem _ _ _ h1 h2
  · intro a b h1 h2
    unfold calculateNewPosition
    rw [applyKeys_four, a, b]
    simp only [e2, e3, if_true, sub_add_cancel]
    exact clamp_of_mem _ _ _ h1 h2

theorem resetForLevel_levelCompleted (s : GameState) (L : Int) :
    (resetForLevel s L).levelCompleted = false := rfl

theorem initializeLevel_flags (s : GameState) (L : Int) :
    (initializeLevel s L).button1Active = false ∧
    (initializeLevel s L).button2Active = false ∧
    (initializeLevel s L).button3Active = false ∧
    (initializeLevel s L).masterInGoal = false ∧
    (initializeLevel s L).slaveInGoal = false ∧
    (initializeLevel s L).bothInGoal = false ∧
    (initializeLevel s L).levelCompleted = false ∧
    (initializeLevel s L).currentLevel = L ∧
    (initializeLevel s L).gameRunning = s.gameRunning := by
  rw [initializeLevel_eq, loadLevelData_state]
  exact ⟨rfl, rfl, rfl, rfl, rfl, rfl, rfl, rfl, rfl⟩

/-- In a run that ends with `levelCompleted` set, from a start where it was clear, some
validation tick left `bothInGoal` set. -/
theorem World.run_levelCompleted_witnessed (actions : List Action) (w : World)
    (h0 : w.state.levelCompleted = false)
    (h : (w.run actions).state.levelCompleted = true) :
    ∃ pre post, actions = pre ++ Action.validation :: post ∧
      (w.run (pre ++ [Action.validation])).state.bothInGoal = true := by
  induction actions using List.reverseRecOn with
  | nil =>
    rw [show w.run [] = w from rfl, h0] at h
    exact absurd h (by simp)
  | append_singleton as a ih =>
    rw [World.run_append] at h
    cases a with
    | physics m k keys =>
      have e : ((w.run as).run [Action.physics m k keys]).state.levelCompleted =
          (w.run as).state.levelCompleted :=
        (physicsStep_flags k (w.run as).state m keys).2.2.2
      rw [e] at h
      obtain ⟨pre, post, hp, hb⟩ := ih h
      exact ⟨pre, post ++ [Action.physics m k keys], by rw [hp]; simp, hb⟩
    | validation =>
      cases hl : (w.run as).state.levelCompleted
      · refine ⟨as, [], rfl, ?_⟩
        rw [World.run_append]
        have e : ((w.run as).run [Action.validation]).state.levelCompleted =
            ((w.run as).state.levelCompleted ||
              (masterOn (w.run as).state META && slaveOn (w.run as).state META)) :=
          (validationTick_flags (w.run as).state (w.run as).locals).2.2.2
        have e2 : ((w.run as).run [Action.validation]).state.bothInGoal =
            (masterOn (w.run as).state META && slaveOn (w.run as).state META) :=
          (validationTick_goalFlags (w.run as).state (w.run as).locals).2.2
        rw [e, hl] at h
        rw [e2]
        simpa using h
      · obtain ⟨pre, post, hp, hb⟩ := ih hl
        exact ⟨pre, post ++ [Action.validation], by rw [hp]; simp, hb⟩

/-- Claim C13. `levelCompleted` is false in the state `initializeLevel` returns; and in any
run of physics steps and validation ticks from there (more generally from any state with
`levelCompleted` false, on any grid) that ends with `levelCompleted` true, one of the
validation ticks of the run left `bothInGoal` true. -/
theorem levelCompleted_needs_bothInGoal (state : GameState) (L : Int)
    (locals : ValidationLocals) (emitted : List Notification) (actions : List Action) :
    (initializeLevel state L).levelCompleted = false ∧
    ((World.run ⟨initializeLevel state L, locals, emitted⟩ actions).state.levelCompleted = true →
      ∃ pre post, actions = pre ++ Action.validation :: post ∧
        (World.run ⟨initializeLevel state L, locals, emitted⟩
          (pre ++ [Action.validation])).state.bothInGoal = true) ∧
    (state.levelCompleted = false →
      (World.run ⟨state, locals, emitted⟩ actions).state.levelCompleted = true →
      ∃ pre post, actions = pre ++ Action.validation :: post ∧
        (World.run ⟨state, locals, emitted⟩ (pre ++ [Action.validation])).state.bothInGoal
          = true) :=
  ⟨(initializeLevel_flags state L).2.2.2.2.2.2.1,
    fun h => World.run_levelCompleted_witnessed actions _
      (initializeLevel_flags state L).2.2.2.2.2.2.1 h,
    fun h0 h => World.run_levelCompleted_witnessed actions _ h0 h⟩

theorem nivel0_markers :
    HasUniqueMarker nivel0 START_MASTER ∧ HasUniqueMarker nivel0 START_SLAVE :=
  ⟨⟨1, 1, by decide, by decide⟩, ⟨13, 1, by decide, by decide⟩⟩

theorem nivel1_markers :
    HasUniqueMarker nivel1 START_MASTER ∧ HasUniqueMarker nivel1 START_SLAVE :=
  ⟨⟨1, 18, by decide, by decide⟩, ⟨13, 1, by decide, by decide⟩⟩

theorem nivel2_markers :
    HasUniqueMarker nivel2 START_MASTER ∧ HasUniqueMarker nivel2 START_SLAVE :=
  ⟨⟨7, 10, by decide, by decide⟩, ⟨13, 18, by decide, by decide⟩⟩

theorem nivel3_markers :
    HasUniqueMarker nivel3 START_MASTER ∧ HasUniqueMarker nivel3 START_SLAVE :=
  ⟨⟨13, 3, by decide, by decide⟩, ⟨11, 3, by decide, by decide⟩⟩

theorem lastMarker_of_unique (levelData : MapArray) (kind : Int)
    (h : HasUniqueMarker levelData kind) :
    ∃ c, lastMarker levelData kind = some c ∧
      ∀ y x, levelData y x = kind → cellCentre c =
        { x := 40 * ((x : Nat) : ℚ) + 20, y := 40 * ((y : Nat) : ℚ) + 20 } := by
  obtain ⟨a, b, hab, hu⟩ := h
  obtain ⟨c, hc, hck⟩ := lastMarker_of_exists levelData kind ⟨a, b, hab⟩
  refine ⟨c, hc, ?_⟩
  intro y x hyx
  obtain ⟨e1, e2⟩ := hu y x hyx
  obtain ⟨e3, e4⟩ := hu c.1 c.2 hck
  have hx := cellCentre_x c
  have hy := cellCentre_y c
  rw [e4, ← e2] at hx
  rw [e3, ← e1] at hy
  cases hcc : cellCentre c
  rw [hcc] at hx hy
  simp only [] at hx hy
  rw [hx, hy, Vector2.mk.injEq]
  exact ⟨by ring, by ring⟩

/-- On a grid with one master marker and one slave marker `loadLevelData` gives a state that
depends on the state before only through the flags, `gameRunning` and `currentLevel`. -/
theorem loadLevelData_of_markers (levelData : MapArray)
    (hM : HasUniqueMarker levelData START_MASTER) (hS : HasUniqueMarker levelData START_SLAVE)
    (s : GameState) :
    (loadLevelData s levelData).laberinto = levelData ∧
    (∀ y x, levelData y x = START_MASTER → (loadLevelData s levelData).masterPos =
      { x := 40 * ((x : Nat) : ℚ) + 20, y := 40 * ((y : Nat) : ℚ) + 20 }) ∧
    (∀ y x, levelData y x = START_SLAVE → (loadLevelData s levelData).slavePos =
      { x := 40 * ((x : Nat) : ℚ) + 20, y := 40 * ((y : Nat) : ℚ) + 20 }) := by
  obtain ⟨cm, hcm, hm⟩ := lastMarker_of_unique levelData START_MASTER hM
  obtain ⟨cs, hcs, hs⟩ := lastMarker_of_unique levelData START_SLAVE hS
  refine ⟨loadLevelData_laberinto s levelData, ?_, ?_⟩
  · intro y x h
    rw [loadLevelData_masterPos, hcm]
    exact hm y x h
  · intro y x h
    rw [loadLevelData_slavePos, hcs]
    exact hs y x h

theorem loadedArray_markers (level : Int) :
    HasUniqueMarker (loadedArray level) START_MASTER ∧
      HasUniqueMarker (loadedArray level) START_SLAVE := by
  unfold loadedArray
  split_ifs
  · exact nivel1_markers
  · exact nivel2_markers
  · exact nivel3_markers
  · exact nivel0_markers

theorem initializeLevel_eq_loadedArray (state : GameState) (level : Int) :
    initializeLevel state level = loadLevelData (resetForLevel state level) (loadedArray level) :=
  initializeLevel_eq state level

/-- Apart from `gameRunning`, the state `initializeLevel` returns does not depend on the
state it is given. -/
theorem initializeLevel_independent (s s2 : GameState) (level : Int) :
    { initializeLevel s level with gameRunning := true } =
      { initializeLevel s2 level with gameRunning := true } := by
  obtain ⟨hM, hS⟩ := loadedArray_markers level
  obtain ⟨a, b, hab, -⟩ := hM
  obtain ⟨c, d, hcd, -⟩ := hS
  obtain ⟨cm, hcm, -⟩ := lastMarker_of_exists (loadedArray level) START_MASTER ⟨a, b, hab⟩
  obtain ⟨cs, hcs, -⟩ := lastMarker_of_exists (loadedArray level) START_SLAVE ⟨c, d, hcd⟩
  rw [initializeLevel_eq_loadedArray, initializeLevel_eq_loadedArray, loadLevelData_state,
    loadLevelData_state, hcm, hcs]
  rfl

theorem shippedLevel_eq_loadedArray (L : Int) (hL : 0 ≤ L ∧ L ≤ 3) :
    shippedLevel L = some (loadedArray L) := by
  have : L = 0 ∨ L = 1 ∨ L = 2 ∨ L = 3 := by omega
  rcases this with rfl | rfl | rfl | rfl <;> rfl

/-- Claim C15. For a level index `L` in 0 .. 3 and any prior state, `initializeLevel` clears
the seven flags, stores `L` in `currentLevel`, makes the grid equal to the array of level
`L`, and puts each agent at the centre `(40 col + 20, 40 row + 20)` of the one cell of that
array that holds its spawn marker. -/
theorem initializeLevel_loads_level (state : GameState) (L : Int) (hL : 0 ≤ L ∧ L ≤ 3) :
    ∃ level : MapArray, shippedLevel L = some level ∧
      (initializeLevel state L).button1Active = false ∧
      (initializeLevel state L).button2Active = false ∧
      (initializeLevel state L).button3Active = false ∧
      (initializeLevel state L).masterInGoal = false ∧
      (initializeLevel state L).slaveInGoal = false ∧
      (initializeLevel state L).bothInGoal = false ∧
      (initializeLevel state L).levelCompleted = false ∧
      (initializeLevel state L).currentLevel = L ∧
      (initializeLevel state L).laberinto = level ∧
      HasUniqueMarker level START_MASTER ∧ HasUniqueMarker level START_SLAVE ∧
      (∀ y x, level y x = START_MASTER → (initializeLevel state L).masterPos =
        { x := 40 * ((x : Nat) : ℚ) + 20, y := 40 * ((y : Nat) : ℚ) + 20 }) ∧
      (∀ y x, level y x = START_SLAVE → (initializeLevel state L).slavePos =
        { x := 40 * ((x : Nat) : ℚ) + 20, y := 40 * ((y : Nat) : ℚ) + 20 }) := by
  obtain ⟨f1, f2, f3, f4, f5, f6, f7, f8, -⟩ := initializeLevel_flags state L
  obtain ⟨hM, hS⟩ := loadedArray_markers L
  refine ⟨loadedArray L, shippedLevel_eq_loadedArray L hL, f1, f2, f3, f4, f5, f6, f7, f8, ?_⟩
  rw [initializeLevel_eq_loadedArray]
  obtain ⟨g1, g2, g3⟩ := loadLevelData_of_markers (loadedArray L) hM hS (resetForLevel state L)
  exact ⟨g1, hM, hS, g2, g3⟩

/-- Claim C17, as amended. For a level index without level data (`L < 0` or `L >= 4`)
`initializeLevel` reports nothing and loads level 0: it clears the flags, stores `L` in
`currentLevel` and fills the grid and both spawn positions from `nivel0`. -/
theorem initializeLevel_unknown_level_loads_level0 (state : GameState) (L : Int)
    (hL : L < 0 ∨ 4 ≤ L) :
    shippedLevel L = none ∧
    (initializeLevel state L).laberinto = nivel0 ∧
    (initializeLevel state L).masterPos = { x := 60, y := 60 } ∧
    (initializeLevel state L).slavePos = { x := 60, y := 540 } ∧
    (initializeLevel state L).currentLevel = L ∧
    (initializeLevel state L).button1Active = false ∧
    (initializeLevel state L).button2Active = false ∧
    (initializeLevel state L).button3Active = false ∧
    (initializeLevel state L).masterInGoal = false ∧
    (initializeLevel state L).slaveInGoal = false ∧
    (initializeLevel state L).bothInGoal = false ∧
    (initializeLevel state L).levelCompleted = false := by
  obtain ⟨f1, f2, f3, f4, f5, f6, f7, f8, -⟩ := initializeLevel_flags state L
  have hs : shippedLevel L = none := by
    unfold shippedLevel
    rw [if_neg (by omega), if_neg (by omega), if_neg (by omega), if_neg (by omega)]
  have ha : loadedArray L = nivel0 := by
    unfold loadedArray
    rw [if_neg (by omega), if_neg (by omega), if_neg (by omega)]
  obtain ⟨g1, g2, g3⟩ := loadLevelData_of_markers nivel0 nivel0_markers.1 nivel0_markers.2
    (resetForLevel state L)
  refine ⟨hs, ?_, ?_, ?_, f8, f1, f2, f3, f4, f5, f6, f7⟩
  · rw [initializeLevel_eq_loadedArray, ha]; exact g1
  · rw [initializeLevel_eq_loadedArray, ha, g2 1 1 (by decide), Vector2.mk.injEq]
    constructor <;> norm_num
  · rw [initializeLevel_eq_loadedArray, ha, g3 13 1 (by decide), Vector2.mk.injEq]
    constructor
    · norm_num
    · show (40 : ℚ) * ((13 : Nat) : ℚ) + 20 = 540
      norm_num

theorem World.step_gameRunning (w : World) (a : Action) :
    (w.step a).state.gameRunning = w.state.gameRunning ∧
    (w.step a).state.laberinto = w.state.laberinto ∧
    (w.step a).state.currentLevel = w.state.currentLevel := by
  cases a with
  | physics m k keys =>
    obtain ⟨h1, -, -, -, -, -, -, -, h2, h3⟩ := physicsStep_frame k w.state m keys
    exact ⟨h2, h1, h3⟩
  | validation =>
    obtain ⟨h1, -, -, h2, h3⟩ := validationTick_frame w.state w.locals
    exact ⟨h2, h1, h3⟩

theorem World.run_gameRunning (actions : List Action) (w : World) :
    (w.run actions).state.gameRunning = w.state.gameRunning ∧
    (w.run actions).state.laberinto = w.state.laberinto ∧
    (w.run actions).state.currentLevel = w.state.currentLevel := by
  induction actions generalizing w with
  | nil => exact ⟨rfl, rfl, rfl⟩
  | cons a as ih =>
    obtain ⟨h1, h2, h3⟩ := ih (w.step a)
    obtain ⟨g1, g2, g3⟩ := World.step_gameRunning w a
    exact ⟨h1.trans g1, h2.trans g2, h3.trans g3⟩

theorem stopAndJoin_frame (w : World) (inFlight : List Action) :
    (stopAndJoin w inFlight).state.gameRunning = false ∧
    (stopAndJoin w inFlight).state.laberinto = w.state.laberinto ∧
    (stopAndJoin w inFlight).state.currentLevel = w.state.currentLevel := by
  unfold stopAndJoin
  exact World.run_gameRunning inFlight _

/-- Claim C16. The level advance of the main loop (in the `GAMEPLAY` case) does nothing
unless `levelCompleted` is true and the advance key is pressed. When it fires on level `L`
it first clears `gameRunning` and joins the workers, which leave the flag clear; then, if
`L + 1 < TOTAL_LEVELS`, the state is that of `initializeLevel (L + 1)` (the same whatever
state it is applied to) with `gameRunning` true and the screen stays `GAMEPLAY`; otherwise
no level is loaded (grid and `currentLevel` stay), `gameRunning` stays false and the screen
becomes `MENU`. -/
theorem level_advance_transition (m : MainState) (enterPressed : Bool)
    (inFlight : List Action) (hscreen : m.currentScreen = GameScreen.GAMEPLAY) :
    ((m.world.state.levelCompleted && enterPressed) = false →
      levelAdvance m enterPressed inFlight = m) ∧
    (stopAndJoin m.world inFlight).state.gameRunning = false ∧
    (m.world.state.levelCompleted = true → enterPressed = true →
      m.world.state.currentLevel + 1 < TOTAL_LEVELS →
      (∀ anyState : GameState, (levelAdvance m enterPressed inFlight).world.state =
        { initializeLevel anyState (m.world.state.currentLevel + 1) with gameRunning := true }) ∧
      (levelAdvance m enterPressed inFlight).currentScreen = GameScreen.GAMEPLAY) ∧
    (m.world.state.levelCompleted = true → enterPressed = true →
      ¬ (m.world.state.currentLevel + 1 < TOTAL_LEVELS) →
      (levelAdvance m enterPressed inFlight).world = stopAndJoin m.world inFlight ∧
      (levelAdvance m enterPressed inFlight).world.state.gameRunning = false ∧
      (levelAdvance m enterPressed inFlight).world.state.laberinto = m.world.state.laberinto ∧
      (levelAdvance m enterPressed inFlight).world.state.currentLevel =
        m.world.state.currentLevel ∧
      (levelAdvance m enterPressed inFlight).currentScreen = GameScreen.MENU) := by
  obtain ⟨j1, j2, j3⟩ := stopAndJoin_frame m.world inFlight
  refine ⟨?_, j1, ?_, ?_⟩
  · intro h
    unfold levelAdvance
    rw [h]
    rfl
  · intro h1 h2 h3
    have e : levelAdvance m enterPressed inFlight =
        { world :=
            { state := { initializeLevel (stopAndJoin m.world inFlight).state
                (m.world.state.currentLevel + 1) with gameRunning := true },
              locals := ValidationLocals.initial,
              emitted := (stopAndJoin m.world inFlight).emitted },
          currentScreen := m.currentScreen } := by
      unfold levelAdvance
      rw [h1, h2]
      simp only [Bool.and_self, if_true, if_pos h3]
    rw [e]
    exact ⟨fun anyState => initializeLevel_independent _ anyState _, hscreen⟩
  · intro h1 h2 h3
    have e : levelAdvance m enterPressed inFlight =
        { world := stopAndJoin m.world inFlight, currentScreen := GameScreen.MENU } := by
      unfold levelAdvance
      rw [h1, h2]
      simp only [Bool.and_self, if_true, if_neg h3]
    rw [e]
    exact ⟨rfl, j1, j2, j3, rfl⟩

theorem masterOnGoalState_tiles :
    masterTileX masterOnGoalState = 18 ∧ masterTileY masterOnGoalState = 13 ∧
    slaveTileX masterOnGoalState = 1 ∧ slaveTileY masterOnGoalState = 13 := by
  refine ⟨?_, ?_, ?_, ?_⟩
  · exact truncToInt_tile 740 18 (by norm_num) (by norm_num) (by norm_num)
  · exact truncToInt_tile 540 13 (by norm_num) (by norm_num) (by norm_num)
  · exact truncToInt_tile 60 1 (by norm_num) (by norm_num) (by norm_num)
  · exact truncToInt_tile 540 13 (by norm_num) (by norm_num) (by norm_num)

theorem masterOnGoalState_slave_off : slaveOn masterOnGoalState META = false := by
  unfold slaveOn
  rw [masterOnGoalState_tiles.2.2.1, masterOnGoalState_tiles.2.2.2]
  decide

theorem bothOnGoalState_on :
    masterOn bothOnGoalState META = true ∧ slaveOn bothOnGoalState META = true := by
  have hx : truncToInt ((740 : ℚ) / (TILE_SIZE : ℚ)) = 18 :=
    truncToInt_tile 740 18 (by norm_num) (by norm_num) (by norm_num)
  have hy : truncToInt ((540 : ℚ) / (TILE_SIZE : ℚ)) = 13 :=
    truncToInt_tile 540 13 (by norm_num) (by norm_num) (by norm_num)
  constructor
  · show gridTileIs nivel0 (truncToInt ((740 : ℚ) / (TILE_SIZE : ℚ)))
      (truncToInt ((540 : ℚ) / (TILE_SIZE : ℚ))) META = true
    rw [hx, hy]; decide
  · show gridTileIs nivel0 (truncToInt ((740 : ℚ) / (TILE_SIZE : ℚ)))
      (truncToInt ((540 : ℚ) / (TILE_SIZE : ℚ))) META = true
    rw [hx, hy]; decide

theorem leftGoalState_off :
    masterOn leftGoalState META = false ∧ slaveOn leftGoalState META = false := by
  have h1 : truncToInt ((60 : ℚ) / (TILE_SIZE : ℚ)) = 1 :=
    truncToInt_tile 60 1 (by norm_num) (by norm_num) (by norm_num)
  have hy : truncToInt ((540 : ℚ) / (TILE_SIZE : ℚ)) = 13 :=
    truncToInt_tile 540 13 (by norm_num) (by norm_num) (by norm_num)
  constructor
  · show gridTileIs nivel0 (truncToInt ((60 : ℚ) / (TILE_SIZE : ℚ)))
      (truncToInt ((60 : ℚ) / (TILE_SIZE : ℚ))) META = false
    rw [h1]; decide
  · show gridTileIs nivel0 (truncToInt ((60 : ℚ) / (TILE_SIZE : ℚ)))
      (truncToInt ((540 : ℚ) / (TILE_SIZE : ℚ))) META = false
    rw [h1, hy]; decide

theorem bothOnGoalState_tick_completes :
    (World.run ⟨bothOnGoalState, ValidationLocals.initial, []⟩
      [Action.validation]).state.levelCompleted = true := by
  show (validationTick bothOnGoalState ValidationLocals.initial).1.levelCompleted = true
  rw [(validationTick_flags _ _).2.2.2, bothOnGoalState_on.1, bothOnGoalState_on.2]
  rfl

/-- Witness of `levelCompleted_needs_bothInGoal`: one tick with both agents on the goal. -/
theorem levelCompleted_needs_bothInGoal_witness :
    bothOnGoalState.levelCompleted = false ∧
    (World.run ⟨bothOnGoalState, ValidationLocals.initial, []⟩
      [Action.validation]).state.levelCompleted = true ∧
    ∃ pre post, [Action.validation] = pre ++ Action.validation :: post ∧
      (World.run ⟨bothOnGoalState, ValidationLocals.initial, []⟩
        (pre ++ [Action.validation])).state.bothInGoal = true :=
  ⟨rfl, bothOnGoalState_tick_completes,
    (levelCompleted_needs_bothInGoal bothOnGoalState 0 ValidationLocals.initial []
      [Action.validation]).2.2 rfl bothOnGoalState_tick_completes⟩

theorem calculateNewPosition_four_coords (k : Int → Bool) (p : Vector2)
    (left right up down : Int) :
    (calculateNewPosition k p [left, right, up, down]).x =
      clamp (p.x - (if k left then 3 else 0) + (if k right then 3 else 0)) 1 799 ∧
    (calculateNewPosition k p [left, right, up, down]).y =
      clamp (p.y - (if k up then 3 else 0) + (if k down then 3 else 0)) 1 599 := by
  have e1 : (((MAP_WIDTH : Int) * TILE_SIZE : Int) : ℚ) - BORDER_MARGIN = 799 := by
    simp only [BORDER_MARGIN, MAP_WIDTH, TILE_SIZE]; norm_num
  have e2 : (((MAP_HEIGHT : Int) * TILE_SIZE : Int) : ℚ) - BORDER_MARGIN = 599 := by
    simp only [BORDER_MARGIN, MAP_HEIGHT, TILE_SIZE]; norm_num
  have e3 : BORDER_MARGIN = 1 := rfl
  unfold calculateNewPosition
  simp only []
  rw [applyKeys_four, e1, e2, e3]
  exact ⟨rfl, rfl⟩

theorem nearEdge_candidate :
    (calculateNewPosition leftUpKeyboard nearEdgeState.masterPos [65, 68, 87, 83]).x = 13 ∧
    (calculateNewPosition leftUpKeyboard nearEdgeState.masterPos [65, 68, 87, 83]).y = 297 := by
  obtain ⟨hx, hy⟩ := calculateNewPosition_four_coords leftUpKeyboard nearEdgeState.masterPos
    65 68 87 83
  rw [hx, hy]
  have k1 : leftUpKeyboard 65 = true := by decide
  have k2 : leftUpKeyboard 68 = false := by decide
  have k3 : leftUpKeyboard 87 = true := by decide
  have k4 : leftUpKeyboard 83 = false := by decide
  rw [k1, k2, k3, k4]
  show clamp ((16 : ℚ) - (if true = true then 3 else 0) + (if false = true then 3 else 0)) 1 799
      = 13 ∧
    clamp ((300 : ℚ) - (if true = true then 3 else 0) + (if false = true then 3 else 0)) 1 599
      = 297
  constructor
  · rw [clamp_of_mem _ _ _ (by norm_num) (by norm_num)]; norm_num
  · rw [clamp_of_mem _ _ _ (by norm_num) (by norm_num)]; norm_num

theorem nearEdge_blocked :
    checkCollisionWithLaberinto
      (calculateNewPosition leftUpKeyboard
        (if true then nearEdgeState.masterPos else nearEdgeState.slavePos) [65, 68, 87, 83])
      (PLAYER_RADIUS : ℚ) true nearEdgeState = true := by
  unfold checkCollisionWithLaberinto
  rw [if_pos]
  left
  show (calculateNewPosition leftUpKeyboard nearEdgeState.masterPos [65, 68, 87, 83]).x < _
  rw [nearEdge_candidate.1]
  norm_num [PLAYER_RADIUS]

theorem openField_candidate_free :
    checkCollisionWithLaberinto
      (calculateNewPosition leftUpKeyboard
        (if true then openFieldState.masterPos else openFieldState.slavePos) [65, 68, 87, 83])
      (PLAYER_RADIUS : ℚ) true openFieldState = false := by
  obtain ⟨hx, hy⟩ := calculateNewPosition_four_coords leftUpKeyboard openFieldState.masterPos
    65 68 87 83
  have k1 : leftUpKeyboard 65 = true := by decide
  have k2 : leftUpKeyboard 68 = false := by decide
  have k3 : leftUpKeyboard 87 = true := by decide
  have k4 : leftUpKeyboard 83 = false := by decide
  rw [k1, k2] at hx
  rw [k3, k4] at hy
  have hx2 : (calculateNewPosition leftUpKeyboard openFieldState.masterPos [65, 68, 87, 83]).x
      = 397 := by
    rw [hx]
    show clamp ((400 : ℚ) - (if true = true then 3 else 0) + (if false = true then 3 else 0))
      1 799 = 397
    rw [clamp_of_mem _ _ _ (by norm_num) (by norm_num)]; norm_num
  have hy2 : (calculateNewPosition leftUpKeyboard openFieldState.masterPos [65, 68, 87, 83]).y
      = 297 := by
    rw [hy]
    show clamp ((300 : ℚ) - (if true = true then 3 else 0) + (if false = true then 3 else 0))
      1 599 = 297
    rw [clamp_of_mem _ _ _ (by norm_num) (by norm_num)]; norm_num
  rw [checkCollision_open _ _ true openFieldState (openGrid_passable true _ _)]
  show decide ((calculateNewPosition leftUpKeyboard openFieldState.masterPos
      [65, 68, 87, 83]).x < _ ∨
    (calculateNewPosition leftUpKeyboard openFieldState.masterPos [65, 68, 87, 83]).y < _ ∨
    (calculateNewPosition leftUpKeyboard openFieldState.masterPos [65, 68, 87, 83]).x ≥ _ ∨
    (calculateNewPosition leftUpKeyboard openFieldState.masterPos [65, 68, 87, 83]).y ≥ _)
      = false
  rw [hx2, hy2, decide_eq_false_iff_not]
  norm_num [PLAYER_RADIUS, TILE_SIZE]

/-- Witness of `physics_step_all_or_nothing`: a diagonal move (left and up) of the master
next to the left edge, where only the horizontal part is refused, leaves the state as it
was; the same move in the middle of the open grid is committed. -/
theorem physics_step_all_or_nothing_witness :
    (checkCollisionWithLaberinto
        (calculateNewPosition leftUpKeyboard
          (if true then nearEdgeState.masterPos else nearEdgeState.slavePos) [65, 68, 87, 83])
        (PLAYER_RADIUS : ℚ) true nearEdgeState = true ∧
      physicsStep leftUpKeyboard nearEdgeState true [65, 68, 87, 83] = nearEdgeState) ∧
    (checkCollisionWithLaberinto
        (calculateNewPosition leftUpKeyboard
          (if true then openFieldState.masterPos else openFieldState.slavePos) [65, 68, 87, 83])
        (PLAYER_RADIUS : ℚ) true openFieldState = false ∧
      (if true then (physicsStep leftUpKeyboard openFieldState true [65, 68, 87, 83]).masterPos
        else (physicsStep leftUpKeyboard openFieldState true [65, 68, 87, 83]).slavePos) =
        calculateNewPosition leftUpKeyboard
          (if true then openFieldState.masterPos else openFieldState.slavePos)
          [65, 68, 87, 83]) :=
  ⟨⟨nearEdge_blocked,
    (physics_step_all_or_nothing leftUpKeyboard nearEdgeState true [65, 68, 87, 83]
      stoppedWorld).1 nearEdge_blocked⟩,
   ⟨openField_candidate_free,
    (physics_step_all_or_nothing leftUpKeyboard openFieldState true [65, 68, 87, 83]
      stoppedWorld).2.1 openField_candidate_free⟩⟩

/-- Witness of `initializeLevel_loads_level`: level 2. -/
theorem initializeLevel_loads_level_witness :
    ((0 : Int) ≤ 2 ∧ (2 : Int) ≤ 3) ∧
    (initializeLevel openFieldState 2).laberinto = nivel2 ∧
    (initializeLevel openFieldState 2).currentLevel = 2 := by
  obtain ⟨level, h0, -, -, -, -, -, -, -, h8, h9, -⟩ :=
    initializeLevel_loads_level openFieldState 2 ⟨by decide, by decide⟩
  have e : level = nivel2 := (Option.some.inj h0).symm
  rw [e] at h9
  exact ⟨⟨by decide, by decide⟩, h9, h8⟩

/-- Counterexample to claim C17 as stated: for the index 4, which has no level data,
`initializeLevel` replaces the open grid by the grid of level 0 (cell row 0 column 0 turns
from `VACIO` into `PARED`) and stores 4 in `currentLevel`. -/
theorem initializeLevel_substitutes_level0 :
    shippedLevel 4 = none ∧
    openFieldState.laberinto 0 0 = VACIO ∧
    (initializeLevel openFieldState 4).laberinto = nivel0 ∧
    (initializeLevel openFieldState 4).laberinto 0 0 = PARED ∧
    (initializeLevel openFieldState 4).currentLevel = 4 := by
  have h : (initializeLevel openFieldState 4).laberinto = nivel0 := by
    rw [initializeLevel_eq_loadedArray, loadLevelData_laberinto]
    rfl
  refine ⟨rfl, rfl, h, ?_, (initializeLevel_flags openFieldState 4).2.2.2.2.2.2.2.1⟩
  rw [h]
  decide

/-- Witness of `initializeLevel_unknown_level_loads_level0`: the index 4. -/
theorem initializeLevel_unknown_level_loads_level0_witness :
    ((4 : Int) < 0 ∨ (4 : Int) ≤ 4) ∧
    (initializeLevel openFieldState 4).laberinto = nivel0 ∧
    (initializeLevel openFieldState 4).masterPos = { x := 60, y := 60 } :=
  ⟨Or.inr (by decide),
    (initializeLevel_unknown_level_loads_level0 openFieldState 4 (Or.inr (by decide))).2.1,
    (initializeLevel_unknown_level_loads_level0 openFieldState 4 (Or.inr (by decide))).2.2.1⟩

/-- Witness of `level_advance_transition`: from level 0 the advance loads level 1 and stays
on `GAMEPLAY`; from level 3 it goes to `MENU` with the workers stopped. -/
theorem level_advance_transition_witness :
    ((completedMain 0).currentScreen = GameScreen.GAMEPLAY ∧
      (completedMain 0).world.state.levelCompleted = true ∧
      (completedMain 0).world.state.currentLevel + 1 < TOTAL_LEVELS ∧
      (levelAdvance (completedMain 0) true sampleRun).world.state =
        { initializeLevel openFieldState ((completedMain 0).world.state.currentLevel + 1) with
          gameRunning := true } ∧
      (levelAdvance (completedMain 0) true sampleRun).currentScreen = GameScreen.GAMEPLAY) ∧
    ((completedMain 3).currentScreen = GameScreen.GAMEPLAY ∧
      (completedMain 3).world.state.levelCompleted = true ∧
      ¬ ((completedMain 3).world.state.currentLevel + 1 < TOTAL_LEVELS) ∧
      (levelAdvance (completedMain 3) true sampleRun).world.state.gameRunning = false ∧
      (levelAdvance (completedMain 3) true sampleRun).currentScreen = GameScreen.MENU) :=
  ⟨⟨rfl, rfl, by decide,
    ((level_advance_transition (completedMain 0) true sampleRun rfl).2.2.1 rfl rfl
      (by decide)).1 openFieldState,
    ((level_advance_transition (completedMain 0) true sampleRun rfl).2.2.1 rfl rfl
      (by decide)).2⟩,
   ⟨rfl, rfl, by decide,
    ((level_advance_transition (completedMain 3) true sampleRun rfl).2.2.2 rfl rfl
      (by decide)).2.1,
    ((level_advance_transition (completedMain 3) true sampleRun rfl).2.2.2 rfl rfl
      (by decide)).2.2.2.2⟩⟩

/-- Witness of `opposite_inputs_cancel`: the master's keys at `(400, 300)`. -/
theorem opposite_inputs_cancel_witness :
    (leftRightKeyboard 65 = true ∧ leftRightKeyboard 68 = true ∧
      calculateNewPosition leftRightKeyboard ⟨400, 300⟩ [65, 68, 87, 83] =
        calculateNewPosition (fun _ => false) ⟨400, 300⟩ [65, 68, 87, 83] ∧
      (calculateNewPosition leftRightKeyboard ⟨400, 300⟩ [65, 68, 87, 83]).x = 400) ∧
    (upDownKeyboard 87 = true ∧ upDownKeyboard 83 = true ∧
      calculateNewPosition upDownKeyboard ⟨400, 300⟩ [65, 68, 87, 83] =
        calculateNewPosition (fun _ => false) ⟨400, 300⟩ [65, 68, 87, 83] ∧
      (calculateNewPosition upDownKeyboard ⟨400, 300⟩ [65, 68, 87, 83]).y = 300) :=
  ⟨⟨by decide, by decide,
    (opposite_inputs_cancel leftRightKeyboard (fun _ => false) ⟨400, 300⟩ 65 68 87 83).1
      (by decide) (by decide) rfl rfl (by decide) (by decide),
    (opposite_inputs_cancel leftRightKeyboard (fun _ => false) ⟨400, 300⟩ 65 68 87 83).2.2.1
      (by decide) (by decide) (by norm_num) (by norm_num)⟩,
   ⟨by decide, by decide,
    (opposite_inputs_cancel upDownKeyboard (fun _ => false) ⟨400, 300⟩ 65 68 87 83).2.1
      (by decide) (by decide) rfl rfl (by decide) (by decide),
    (opposite_inputs_cancel upDownKeyboard (fun _ => false) ⟨400, 300⟩ 65 68 87 83).2.2.2
      (by decide) (by decide) (by norm_num) (by norm_num)⟩⟩

/-! ## The level advance, the collision check as a function, the levels and the editor -/

/-- The collision check reads the state only through the grid and the three gate flags. -/
theorem checkCollision_congr (position : Vector2) (radius : ℚ) (m : Bool) (s s2 : GameState)
    (hl : s2.laberinto = s.laberinto) (h1 : s2.button1Active = s.button1Active)
    (h2 : s2.button2Active = s.button2Active) (h3 : s2.button3Active = s.button3Active) :
    checkCollisionWithLaberinto position radius m s2 =
      checkCollisionWithLaberinto position radius m s := by
  cases h : checkCollisionWithLaberinto position radius m s
  · exact checkCollision_mono position radius m s s2 hl (fun a => by rw [h1, a])
      (fun a => by rw [h2, a]) (fun a => by rw [h3, a]) h
  · cases h' : checkCollisionWithLaberinto position radius m s2
    · have := checkCollision_mono position radius m s2 s hl.symm (fun a => by rw [← h1, a])
        (fun a => by rw [← h2, a]) (fun a => by rw [← h3, a]) h'
      rw [h] at this
      exact absurd this (by simp)
    · rfl

/-- Claim C22. `checkCollisionWithLaberinto` is a function of its inputs: the position, the
radius, the agent, the grid and the three gate flags. Two calls on states that agree on the
grid and the gate flags return the same boolean, whatever the other fields hold; in
particular two calls with identical inputs agree. The function receives the state by const
reference and assigns nothing, so it is embedded as a function into `Bool` alone; seen from
its caller, a physics step whose call reports blocked leaves the whole state as it was. -/
theorem checkCollision_deterministic (position : Vector2) (radius : ℚ) (isMaster : Bool)
    (state state2 : GameState) (isKeyDown : Int → Bool) (keys : List Int) :
    (state2.laberinto = state.laberinto → state2.button1Active = state.button1Active →
      state2.button2Active = state.button2Active → state2.button3Active = state.button3Active →
      checkCollisionWithLaberinto position radius isMaster state2 =
        checkCollisionWithLaberinto position radius isMaster state) ∧
    (state2 = state →
      checkCollisionWithLaberinto position radius isMaster state2 =
        checkCollisionWithLaberinto position radius isMaster state) ∧
    (checkCollisionWithLaberinto
        (calculateNewPosition isKeyDown (if isMaster then state.masterPos else state.slavePos) keys)
        (PLAYER_RADIUS : ℚ) isMaster state = true →
      physicsStep isKeyDown state isMaster keys = state) := by
  refine ⟨fun hl h1 h2 h3 => checkCollision_congr position radius isMaster state state2 hl h1 h2 h3,
    fun h => by rw [h], fun hblocked => ?_⟩
  rcases physicsStep_cases isKeyDown state isMaster keys with h | h
  · exact h
  · rw [h.1] at hblocked
    exact absurd hblocked (by decide)

theorem inGrid_of_inside (p : Vector2) (hx0 : 15 ≤ p.x) (hx1 : p.x < 785) (hy0 : 15 ≤ p.y)
    (hy1 : p.y < 585) :
    inGrid (truncToInt (p.x / (TILE_SIZE : ℚ))) (truncToInt (p.y / (TILE_SIZE : ℚ))) := by
  obtain ⟨a1, a2⟩ := centerTile_bounds (p := p.x) (by linarith)
  obtain ⟨b1, b2⟩ := centerTile_bounds (p := p.y) (by linarith)
  have c1 : (-1 : ℚ) < ((truncToInt (p.x / (TILE_SIZE : ℚ)) : Int) : ℚ) := by linarith
  have c2 : ((truncToInt (p.x / (TILE_SIZE : ℚ)) : Int) : ℚ) < 20 := by linarith
  have c3 : (-1 : ℚ) < ((truncToInt (p.y / (TILE_SIZE : ℚ)) : Int) : ℚ) := by linarith
  have c4 : ((truncToInt (p.y / (TILE_SIZE : ℚ)) : Int) : ℚ) < 15 := by linarith
  have d1 : (-1 : Int) < truncToInt (p.x / (TILE_SIZE : ℚ)) := by exact_mod_cast c1
  have d2 : truncToInt (p.x / (TILE_SIZE : ℚ)) < 20 := by exact_mod_cast c2
  have d3 : (-1 : Int) < truncToInt (p.y / (TILE_SIZE : ℚ)) := by exact_mod_cast c3
  have d4 : truncToInt (p.y / (TILE_SIZE : ℚ)) < 15 := by exact_mod_cast c4
  refine ⟨?_, ?_, ?_, ?_⟩
  · show (0 : Int) ≤ _; omega
  · show _ < ((20 : Nat) : Int); omega
  · show (0 : Int) ≤ _; omega
  · show _ < ((15 : Nat) : Int); omega

theorem inside_of_checkCollision_false {p : Vector2} {m : Bool} {s : GameState}
    (h : checkCollisionWithLaberinto p (PLAYER_RADIUS : ℚ) m s = false) :
    15 ≤ p.x ∧ p.x < 785 ∧ 15 ≤ p.y ∧ p.y < 585 := by
  have hb := checkCollision_false_inside h
  have e1 : (((MAP_WIDTH : Nat) * TILE_SIZE : Int) : ℚ) = 800 := by norm_num [TILE_SIZE]
  have e2 : (((MAP_HEIGHT : Nat) * TILE_SIZE : Int) : ℚ) = 600 := by norm_num [TILE_SIZE]
  have e3 : ((PLAYER_RADIUS : Int) : ℚ) = 15 := by norm_num [PLAYER_RADIUS]
  rw [e1, e2, e3] at hb
  push_neg at hb
  obtain ⟨a, b, c, d⟩ := hb
  exact ⟨a, by linarith, b, by linarith⟩

/-- Claim C25. A position that passes the boundary test with radius 15 (`15 <= x < 785`,
`15 <= y < 585`) has its cell indices `trunc (x / 40)`, `trunc (y / 40)` in `0 .. 19` and
`0 .. 14`; so does every position the collision check accepts, and the position of each
agent in every state reached from `loadLevelData` on a grid with both spawn markers: the
guards of `validationThread` then take the in-range branch. -/
theorem grid_indexing_safe (p : Vector2) (m : Bool) (s : GameState) (s0 : GameState)
    (locals0 : ValidationLocals) (emitted0 : List Notification) (levelData : MapArray)
    (actions : List Action) :
    (15 ≤ p.x → p.x < 785 → 15 ≤ p.y → p.y < 585 →
      inGrid (truncToInt (p.x / (TILE_SIZE : ℚ))) (truncToInt (p.y / (TILE_SIZE : ℚ)))) ∧
    (checkCollisionWithLaberinto p (PLAYER_RADIUS : ℚ) m s = false →
      inGrid (truncToInt (p.x / (TILE_SIZE : ℚ))) (truncToInt (p.y / (TILE_SIZE : ℚ)))) ∧
    ((∃ y x, levelData y x = START_MASTER) → (∃ y x, levelData y x = START_SLAVE) →
      inGrid (masterTileX (World.run ⟨loadLevelData s0 levelData, locals0, emitted0⟩ actions).state)
        (masterTileY (World.run ⟨loadLevelData s0 levelData, locals0, emitted0⟩ actions).state) ∧
      inGrid (slaveTileX (World.run ⟨loadLevelData s0 levelData, locals0, emitted0⟩ actions).state)
        (slaveTileY (World.run ⟨loadLevelData s0 levelData, locals0, emitted0⟩ actions).state)) := by
  refine ⟨inGrid_of_inside p, ?_, ?_⟩
  · intro h
    obtain ⟨a, b, c, d⟩ := inside_of_checkCollision_false h
    exact inGrid_of_inside p a b c d
  · intro hM hS
    have hsafe := World.run_safe actions ⟨loadLevelData s0 levelData, locals0, emitted0⟩
      (loadLevelData_safe s0 levelData hM hS)
    obtain ⟨a, b, c, d⟩ := inside_of_checkCollision_false hsafe.1
    obtain ⟨a2, b2, c2, d2⟩ := inside_of_checkCollision_false hsafe.2
    exact ⟨inGrid_of_inside _ a b c d, inGrid_of_inside _ a2 b2 c2 d2⟩

/-- Claim C26. Opening gates never blocks. On one grid, if every gate flag set in the first
state is set in the second, a position `checkCollisionWithLaberinto` accepts in the first is
accepted in the second (any agent, position, radius); with the monotonicity of the flags, a
position accepted in some state of a run is accepted in every later state of the run. -/
theorem opening_gates_never_blocks (position : Vector2) (radius : ℚ) (isMaster : Bool)
    (state state2 : GameState) (w : World) (earlier later : List Action) :
    (state2.laberinto = state.laberinto →
      (state.button1Active = true → state2.button1Active = true) →
      (state.button2Active = true → state2.button2Active = true) →
      (state.button3Active = true → state2.button3Active = true) →
      checkCollisionWithLaberinto position radius isMaster state = false →
      checkCollisionWithLaberinto position radius isMaster state2 = false) ∧
    (checkCollisionWithLaberinto position radius isMaster (w.run earlier).state = false →
      checkCollisionWithLaberinto position radius isMaster (w.run (earlier ++ later)).state
        = false) := by
  refine ⟨fun hl h1 h2 h3 h => checkCollision_mono position radius isMaster state state2 hl
    h1 h2 h3 h, ?_⟩
  intro h
  rw [World.run_append]
  obtain ⟨m1, m2, m3, -⟩ := World.run_flags_mono later (w.run earlier)
  exact checkCollision_mono position radius isMaster _ _
    (World.run_gameRunning later (w.run earlier)).2.1 m1 m2 m3 h

/-- Claim C30. Agents do not collide with each other: the position an agent holds after a
physics step is the same in two states that differ only in the other agent's position; and
a candidate the collision check accepts is committed also when it is the position of the
other agent. -/
theorem agents_do_not_collide (k : Int → Bool) (s : GameState) (keys : List Int)
    (other : Vector2) :
    (physicsStep k { s with slavePos := other } true keys).masterPos =
      (physicsStep k s true keys).masterPos ∧
    (physicsStep k { s with masterPos := other } false keys).slavePos =
      (physicsStep k s false keys).slavePos ∧
    (checkCollisionWithLaberinto (calculateNewPosition k s.masterPos keys)
        (PLAYER_RADIUS : ℚ) true s = false →
      calculateNewPosition k s.masterPos keys = s.slavePos →
      (physicsStep k s true keys).masterPos = (physicsStep k s true keys).slavePos) := by
  refine ⟨?_, ?_, ?_⟩
  · unfold physicsStep
    simp only [if_true]
    rw [checkCollision_congr _ _ true s { s with slavePos := other } rfl rfl rfl rfl]
    cases checkCollisionWithLaberinto (calculateNewPosition k s.masterPos keys)
      (PLAYER_RADIUS : ℚ) true s <;> rfl
  · unfold physicsStep
    simp only [Bool.false_eq_true, if_false]
    rw [checkCollision_congr _ _ false s { s with masterPos := other } rfl rfl rfl rfl]
    cases checkCollisionWithLaberinto (calculateNewPosition k s.slavePos keys)
      (PLAYER_RADIUS : ℚ) false s <;> rfl
  · intro h e
    unfold physicsStep
    simp only [if_true, h]
    exact e

theorem levelAdvance_fires (m : MainState) (inFlight : List Action)
    (hlc : m.world.state.levelCompleted = true)
    (hnext : m.world.state.currentLevel + 1 < TOTAL_LEVELS) :
    levelAdvance m true inFlight =
      { world :=
          { state := { initializeLevel (stopAndJoin m.world inFlight).state
              (m.world.state.currentLevel + 1) with gameRunning := true },
            locals := ValidationLocals.initial,
            emitted := (stopAndJoin m.world inFlight).emitted },
        currentScreen := m.currentScreen } := by
  unfold levelAdvance
  rw [hlc]
  simp only [Bool.and_self, if_true, if_pos hnext]

/-- Claim C21. No teardown race in the level advance: the workers of the old epoch are
stopped and joined first, `initializeLevel` is applied to the state they left, and the new
workers start from its result. That result carries no write of an old worker: it is the
same whatever loop bodies the old workers still completed before the join returned, and
the new validation thread starts with fresh locals. -/
theorem no_teardown_race (m : MainState) (inFlight inFlight2 : List Action)
    (hlc : m.world.state.levelCompleted = true)
    (hnext : m.world.state.currentLevel + 1 < TOTAL_LEVELS) :
    (stopAndJoin m.world inFlight).state.gameRunning = false ∧
    (levelAdvance m true inFlight).world.state =
      { initializeLevel (stopAndJoin m.world inFlight).state (m.world.state.currentLevel + 1)
        with gameRunning := true } ∧
    (levelAdvance m true inFlight).world.state = (levelAdvance m true inFlight2).world.state ∧
    (levelAdvance m true inFlight).world.state = (levelAdvance m true []).world.state ∧
    (levelAdvance m true inFlight).world.locals = ValidationLocals.initial := by
  rw [levelAdvance_fires m inFlight hlc hnext, levelAdvance_fires m inFlight2 hlc hnext,
    levelAdvance_fires m [] hlc hnext]
  exact ⟨(stopAndJoin_frame m.world inFlight).1, rfl, initializeLevel_independent _ _ _,
    initializeLevel_independent _ _ _, rfl⟩

theorem World.iterate_currentLevel (w : World) (a : Action) :
    (w.iterate a).state.currentLevel = w.state.currentLevel := by
  unfold World.iterate
  split_ifs
  · exact (World.step_gameRunning w a).2.2
  · rfl

theorem menuCase_currentLevel (m : MainState) (playPressed : Bool) :
    (menuCase m playPressed).world.state.currentLevel =
      if playPressed then 0 else m.world.state.currentLevel := by
  unfold menuCase
  cases playPressed
  · simp only [Bool.false_eq_true, if_false]
  · simp only [if_true]
    exact (initializeLevel_flags m.world.state 0).2.2.2.2.2.2.2.1

theorem menuCase_levelInRange (m : MainState) (playPressed : Bool) (h : m.LevelInRange) :
    (menuCase m playPressed).LevelInRange := by
  unfold MainState.LevelInRange
  rw [menuCase_currentLevel]
  cases playPressed
  · exact h
  · simp

theorem levelAdvance_currentLevel (m : MainState) (enterPressed : Bool)
    (inFlight : List Action) :
    (levelAdvance m enterPressed inFlight).world.state.currentLevel =
      if (m.world.state.levelCompleted && enterPressed) = true ∧
          m.world.state.currentLevel + 1 < TOTAL_LEVELS
      then m.world.state.currentLevel + 1 else m.world.state.currentLevel := by
  unfold levelAdvance
  by_cases h1 : (m.world.state.levelCompleted && enterPressed) = true
  · by_cases h2 : m.world.state.currentLevel + 1 < TOTAL_LEVELS
    · simp only [h1, h2, if_true, and_self]
      exact (initializeLevel_flags _ _).2.2.2.2.2.2.2.1
    · simp only [h1, h2, if_true, if_false, and_false]
      exact (stopAndJoin_frame m.world inFlight).2.2
  · have h3 : (m.world.state.levelCompleted && enterPressed) = false := by
      cases hb : (m.world.state.levelCompleted && enterPressed)
      · rfl
      · exact absurd hb h1
    simp only [h3, Bool.false_eq_true, if_false, false_and]

theorem levelAdvance_levelInRange (m : MainState) (enterPressed : Bool)
    (inFlight : List Action) (h : m.LevelInRange) :
    (levelAdvance m enterPressed inFlight).LevelInRange := by
  unfold MainState.LevelInRange
  rw [levelAdvance_currentLevel]
  obtain ⟨a, b⟩ := h
  split_ifs with h1
  · have h2 : m.world.state.currentLevel + 1 < 4 := h1.2
    constructor <;> omega
  · exact ⟨a, b⟩

theorem MainState.next_levelInRange (m : MainState) (e : LifecycleEvent)
    (h : m.LevelInRange) : (m.next e).LevelInRange := by
  cases e with
  | frame p en fl =>
    show (mainSwitch m p en fl).LevelInRange
    unfold mainSwitch
    cases m.currentScreen
    · exact menuCase_levelInRange m p h
    · exact levelAdvance_levelInRange m en fl h
  | worker a =>
    show (match m.currentScreen with
      | GameScreen.GAMEPLAY => { m with world := m.world.iterate a }
      | GameScreen.MENU => m).LevelInRange
    cases m.currentScreen
    · exact h
    · show 0 ≤ (m.world.iterate a).state.currentLevel ∧
        (m.world.iterate a).state.currentLevel ≤ 3
      rw [World.iterate_currentLevel]
      exact h

theorem MainState.after_levelInRange (events : List LifecycleEvent) (m : MainState)
    (h : m.LevelInRange) : (m.after events).LevelInRange := by
  induction events generalizing m with
  | nil => exact h
  | cons e es ih => exact ih (m.next e) (MainState.next_levelInRange m e h)

/-- Claim C29. In every state the main loop reaches (from `GameState`'s initial
`currentLevel = 0`, through frames of the main loop on any inputs and worker iterations)
`currentLevel` is in `0 .. 3`; so the index the play button passes to `initializeLevel`
(0) and the index the level advance passes (`currentLevel + 1`, only when it is below
`TOTAL_LEVELS`) both have level data: the `default` case of the switch is not reached. -/
theorem level_index_in_range (laberinto : MapArray) (masterPos slavePos : Vector2)
    (events : List LifecycleEvent) :
    0 ≤ ((MainState.initial laberinto masterPos slavePos).after events).world.state.currentLevel ∧
    ((MainState.initial laberinto masterPos slavePos).after events).world.state.currentLevel ≤ 3 ∧
    shippedLevel 0 ≠ none ∧
    (((MainState.initial laberinto masterPos slavePos).after events).world.state.currentLevel + 1
        < TOTAL_LEVELS →
      shippedLevel
        (((MainState.initial laberinto masterPos slavePos).after events).world.state.currentLevel
          + 1) ≠ none) := by
  have h0 : (MainState.initial laberinto masterPos slavePos).LevelInRange := by
    show (0 : Int) ≤ 0 ∧ (0 : Int) ≤ 3
    exact ⟨by decide, by decide⟩
  have h := MainState.after_levelInRange events (MainState.initial laberinto masterPos slavePos) h0
  obtain ⟨a, b⟩ := h
  refine ⟨a, b, by decide, ?_⟩
  intro hlt
  have hlt2 : ((MainState.initial laberinto masterPos slavePos).after events).world.state.currentLevel
      + 1 < 4 := hlt
  rw [shippedLevel_eq_loadedArray _ ⟨by omega, by omega⟩]
  exact Option.some_ne_none _

/-- Claim C27. Each of the four shipped levels `nivel0 .. nivel3` has exactly one
`START_MASTER` cell, exactly one `START_SLAVE` cell, exactly one `META` cell, at most one
`BOTON_3` cell, only tile values in `0 .. 12`, and `PARED` on every border cell. -/
theorem shipped_levels_well_formed :
    WellFormedLevel nivel0 ∧ WellFormedLevel nivel1 ∧ WellFormedLevel nivel2 ∧
      WellFormedLevel nivel3 := by
  unfold WellFormedLevel isBorderCell
  refine ⟨⟨?_, ?_, ?_, ?_, ?_, ?_⟩, ⟨?_, ?_, ?_, ?_, ?_, ?_⟩, ⟨?_, ?_, ?_, ?_, ?_, ?_⟩,
    ⟨?_, ?_, ?_, ?_, ?_, ?_⟩⟩ <;> decide

theorem cellsOfRows_pairwise (ys : List (Fin MAP_HEIGHT)) (h : ys.Pairwise (· < ·)) :
    (cellsOfRows ys).Pairwise rowMajorBefore := by
  induction ys with
  | nil => exact List.Pairwise.nil
  | cons y ys ih =>
    rw [List.pairwise_cons] at h
    unfold cellsOfRows
    rw [List.pairwise_append]
    refine ⟨?_, ih h.2, ?_⟩
    · rw [List.pairwise_map]
      exact (List.pairwise_lt_finRange MAP_WIDTH).imp (fun hab => Or.inr ⟨rfl, hab⟩)
    · intro a ha b hb
      rw [List.mem_map] at ha
      obtain ⟨x, -, rfl⟩ := ha
      exact Or.inl (h.1 b.1 ((mem_cellsOfRows ys b).1 hb))

theorem rowMajorCells_pairwise : rowMajorCells.Pairwise rowMajorBefore :=
  cellsOfRows_pairwise _ (List.pairwise_lt_finRange MAP_HEIGHT)

/-- The cell `lastMarker` returns holds the kind and every other cell holding it comes
before it in row-major order; it returns nothing exactly when no cell holds the kind. -/
theorem lastMarker_spec (levelData : MapArray) (kind : Int) :
    (∀ c, lastMarker levelData kind = some c →
      levelData c.1 c.2 = kind ∧
        ∀ c2, levelData c2.1 c2.2 = kind → c2 = c ∨ rowMajorBefore c2 c) ∧
    (lastMarker levelData kind = none ↔ ∀ y x, levelData y x ≠ kind) := by
  constructor
  · intro c hc
    unfold lastMarker at hc
    obtain ⟨l, hl⟩ := List.getLast?_eq_some_iff.1 hc
    have hp := (rowMajorCells_pairwise).filter (fun c => decide (levelData c.1 c.2 = kind))
    rw [hl, List.pairwise_append] at hp
    have hmem : ∀ c2, levelData c2.1 c2.2 = kind → c2 ∈ l ++ [c] := by
      intro c2 h2
      rw [← hl, List.mem_filter]
      exact ⟨mem_rowMajorCells c2, by simpa using h2⟩
    have hcm : c ∈ rowMajorCells.filter (fun c => decide (levelData c.1 c.2 = kind)) := by
      rw [hl]; simp
    refine ⟨by simpa using (List.mem_filter.1 hcm).2, ?_⟩
    intro c2 h2
    have := hmem c2 h2
    rw [List.mem_append, List.mem_singleton] at this
    rcases this with h3 | h3
    · exact Or.inr (hp.2.2 c2 h3 c (List.mem_singleton.2 rfl))
    · exact Or.inl h3
  · unfold lastMarker
    rw [List.getLast?_eq_none_iff, List.filter_eq_nil_iff]
    constructor
    · intro h y x hyx
      exact h (y, x) (mem_rowMajorCells _) (by simpa using hyx)
    · intro h c _ hc
      exact h c.1 c.2 (by simpa using hc)

/-- Claim C28. After `loadLevelData`, `masterPos` is the centre `(40 col + 20, 40 row + 20)`
of the last `START_MASTER` cell in row-major order when the grid has one (every other
`START_MASTER` cell comes before it), and is what it was before the call when the grid has
none; the same holds for `slavePos` and `START_SLAVE`. -/
theorem spawn_is_last_marker (state : GameState) (levelData : MapArray) :
    ((∃ y x, levelData y x = START_MASTER) →
      ∃ c : Fin MAP_HEIGHT × Fin MAP_WIDTH, levelData c.1 c.2 = START_MASTER ∧
        (∀ c2, levelData c2.1 c2.2 = START_MASTER → c2 = c ∨ rowMajorBefore c2 c) ∧
        (loadLevelData state levelData).masterPos =
          { x := 40 * ((c.2 : Nat) : ℚ) + 20, y := 40 * ((c.1 : Nat) : ℚ) + 20 }) ∧
    ((∀ y x, levelData y x ≠ START_MASTER) →
      (loadLevelData state levelData).masterPos = state.masterPos) ∧
    ((∃ y x, levelData y x = START_SLAVE) →
      ∃ c : Fin MAP_HEIGHT × Fin MAP_WIDTH, levelData c.1 c.2 = START_SLAVE ∧
        (∀ c2, levelData c2.1 c2.2 = START_SLAVE → c2 = c ∨ rowMajorBefore c2 c) ∧
        (loadLevelData state levelData).slavePos =
          { x := 40 * ((c.2 : Nat) : ℚ) + 20, y := 40 * ((c.1 : Nat) : ℚ) + 20 }) ∧
    ((∀ y x, levelData y x ≠ START_SLAVE) →
      (loadLevelData state levelData).slavePos = state.slavePos) := by
  have centre : ∀ c : Fin MAP_HEIGHT × Fin MAP_WIDTH, cellCentre c =
      { x := 40 * ((c.2 : Nat) : ℚ) + 20, y := 40 * ((c.1 : Nat) : ℚ) + 20 } := by
    intro c
    have hx := cellCentre_x c
    have hy := cellCentre_y c
    cases hcc : cellCentre c
    rw [hcc] at hx hy
    simp only [] at hx hy
    rw [hx, hy, Vector2.mk.injEq]
    exact ⟨by ring, by ring⟩
  refine ⟨?_, ?_, ?_, ?_⟩
  · intro h
    obtain ⟨c, hc, -⟩ := lastMarker_of_exists levelData START_MASTER h
    obtain ⟨h1, h2⟩ := (lastMarker_spec levelData START_MASTER).1 c hc
    refine ⟨c, h1, h2, ?_⟩
    rw [loadLevelData_masterPos, hc]
    exact centre c
  · intro h
    rw [loadLevelData_masterPos, ((lastMarker_spec levelData START_MASTER).2).2 h]
    rfl
  · intro h
    obtain ⟨c, hc, -⟩ := lastMarker_of_exists levelData START_SLAVE h
    obtain ⟨h1, h2⟩ := (lastMarker_spec levelData START_SLAVE).1 c hc
    refine ⟨c, h1, h2, ?_⟩
    rw [loadLevelData_slavePos, hc]
    exact centre c
  · intro h
    rw [loadLevelData_slavePos, ((lastMarker_spec levelData START_SLAVE).2).2 h]
    rfl

theorem setCell_nivel (c : LevelCreator) (y : Fin MAP_HEIGHT) (x : Fin MAP_WIDTH) (v : Int)
    (y2 : Fin MAP_HEIGHT) (x2 : Fin MAP_WIDTH) :
    (c.setCell y x v).nivel y2 x2 = if y2 = y ∧ x2 = x then v else c.nivel y2 x2 := by
  show Function.update c.nivel y (Function.update (c.nivel y) x v) y2 x2 = _
  by_cases hy : y2 = y
  · subst hy
    rw [Function.update_same]
    by_cases hx : x2 = x
    · subst hx
      rw [Function.update_same, if_pos ⟨rfl, rfl⟩]
    · rw [Function.update_noteq hx, if_neg (fun h => hx h.2)]
  · rw [Function.update_noteq hy, if_neg (fun h => hy h.1)]

theorem foldl_paint {α : Type} (f : LevelCreator → α → LevelCreator)
    (P : α → Prop) (v : Int) (y : Fin MAP_HEIGHT) (x : Fin MAP_WIDTH)
    (hf1 : ∀ st a, P a → (f st a).nivel y x = v)
    (hf2 : ∀ st a, ¬ P a → (f st a).nivel y x = st.nivel y x) (l : List α) :
    ∀ st, ((∃ a ∈ l, P a) → (l.foldl f st).nivel y x = v) ∧
      ((∀ a ∈ l, ¬ P a) → (l.foldl f st).nivel y x = st.nivel y x) := by
  induction l with
  | nil =>
    intro st
    exact ⟨fun h => by simp at h, fun _ => rfl⟩
  | cons a l ih =>
    intro st
    rw [List.foldl_cons]
    constructor
    · intro h
      by_cases hl : ∃ b ∈ l, P b
      · exact (ih (f st a)).1 hl
      · have hl2 : ∀ b ∈ l, ¬ P b := fun b hb hP => hl ⟨b, hb, hP⟩
        rw [(ih (f st a)).2 hl2]
        obtain ⟨b, hb, hP⟩ := h
        rcases List.mem_cons.1 hb with rfl | hb2
        · exact hf1 st b hP
        · exact absurd hP (hl2 b hb2)
    · intro h
      rw [(ih (f st a)).2 (fun b hb => h b (List.mem_cons_of_mem a hb))]
      exact hf2 st a (h a (List.mem_cons_self a l))

theorem createBordes_nivel (c : LevelCreator) (y : Fin MAP_HEIGHT) (x : Fin MAP_WIDTH) :
    (isBorderCell y x → c.createBordes.nivel y x = PARED) ∧
      (¬ isBorderCell y x → c.createBordes.nivel y x = c.nivel y x) := by
  have hrow := foldl_paint
    (fun st (a : Fin MAP_WIDTH) =>
      (st.setCell ⟨0, by decide⟩ a PARED).setCell ⟨MAP_HEIGHT - 1, by decide⟩ a PARED)
    (fun a => ((y : Nat) = 0 ∨ (y : Nat) = MAP_HEIGHT - 1) ∧ x = a) PARED y x
    (by
      intro st a hP
      simp only [setCell_nivel]
      obtain ⟨hy, rfl⟩ := hP
      rcases hy with hy | hy
      · have : y = ⟨0, by decide⟩ := Fin.ext hy
        subst this
        simp
      · have : y = ⟨MAP_HEIGHT - 1, by decide⟩ := Fin.ext hy
        simp [this])
    (by
      intro st a hP
      simp only [setCell_nivel]
      have h1 : ¬ (y = ⟨MAP_HEIGHT - 1, by decide⟩ ∧ x = a) := by
        rintro ⟨h1, h2⟩
        exact hP ⟨Or.inr (by rw [h1]), h2⟩
      have h2 : ¬ (y = ⟨0, by decide⟩ ∧ x = a) := by
        rintro ⟨h1, h2⟩
        exact hP ⟨Or.inl (by rw [h1]), h2⟩
      rw [if_neg h1, if_neg h2])
    (List.finRange MAP_WIDTH) c
  have hcol := foldl_paint
    (fun st (a : Fin MAP_HEIGHT) =>
      (st.setCell a ⟨0, by decide⟩ PARED).setCell a ⟨MAP_WIDTH - 1, by decide⟩ PARED)
    (fun a => y = a ∧ ((x : Nat) = 0 ∨ (x : Nat) = MAP_WIDTH - 1)) PARED y x
    (by
      intro st a hP
      simp only [setCell_nivel]
      obtain ⟨rfl, hx⟩ := hP
      rcases hx with hx | hx
      · have : x = ⟨0, by decide⟩ := Fin.ext hx
        subst this
        simp
      · have : x = ⟨MAP_WIDTH - 1, by decide⟩ := Fin.ext hx
        simp [this])
    (by
      intro st a hP
      simp only [setCell_nivel]
      have h1 : ¬ (y = a ∧ x = ⟨MAP_WIDTH - 1, by decide⟩) := by
        rintro ⟨h1, h2⟩
        exact hP ⟨h1, Or.inr (by rw [h2])⟩
      have h2 : ¬ (y = a ∧ x = ⟨0, by decide⟩) := by
        rintro ⟨h1, h2⟩
        exact hP ⟨h1, Or.inl (by rw [h2])⟩
      rw [if_neg h1, if_neg h2])
    (List.finRange MAP_HEIGHT) ((List.finRange MAP_WIDTH).foldl
      (fun st (a : Fin MAP_WIDTH) =>
        (st.setCell ⟨0, by decide⟩ a PARED).setCell ⟨MAP_HEIGHT - 1, by decide⟩ a PARED) c)
  have hdef : c.createBordes = (List.finRange MAP_HEIGHT).foldl
      (fun st (a : Fin MAP_HEIGHT) =>
        (st.setCell a ⟨0, by decide⟩ PARED).setCell a ⟨MAP_WIDTH - 1, by decide⟩ PARED)
      ((List.finRange MAP_WIDTH).foldl
        (fun st (a : Fin MAP_WIDTH) =>
          (st.setCell ⟨0, by decide⟩ a PARED).setCell ⟨MAP_HEIGHT - 1, by decide⟩ a PARED) c) := rfl
  rw [hdef]
  constructor
  · intro hb
    by_cases hx : (x : Nat) = 0 ∨ (x : Nat) = MAP_WIDTH - 1
    · exact hcol.1 ⟨y, List.mem_finRange y, rfl, hx⟩
    · rw [hcol.2 (fun a _ hP => hx hP.2)]
      have hy : (y : Nat) = 0 ∨ (y : Nat) = MAP_HEIGHT - 1 := by
        unfold isBorderCell at hb
        tauto
      exact hrow.1 ⟨x, List.mem_finRange x, hy, rfl⟩
  · intro hb
    unfold isBorderCell at hb
    rw [hcol.2 (fun a _ hP => hb (by tauto)), hrow.2 (fun a _ hP => hb (by tauto))]

theorem initializeWithBordes_nivel (c : LevelCreator) (y : Fin MAP_HEIGHT)
    (x : Fin MAP_WIDTH) :
    (isBorderCell y x → c.initializeWithBordes.nivel y x = PARED) ∧
      (¬ isBorderCell y x → c.initializeWithBordes.nivel y x = VACIO) := by
  have hdef : c.initializeWithBordes = LevelCreator.createBordes
      ((List.finRange MAP_HEIGHT).foldl
        (fun st (a : Fin MAP_HEIGHT) =>
          (List.finRange MAP_WIDTH).foldl (fun st2 b => st2.setCell a b VACIO) st) c) := rfl
  rw [hdef]
  have hinner : ∀ (a : Fin MAP_HEIGHT) (st : LevelCreator),
      (y = a → ((List.finRange MAP_WIDTH).foldl (fun st2 b => st2.setCell a b VACIO) st).nivel
        y x = VACIO) ∧
      (¬ y = a → ((List.finRange MAP_WIDTH).foldl (fun st2 b => st2.setCell a b VACIO) st).nivel
        y x = st.nivel y x) := by
    intro a st
    have h := foldl_paint (fun st2 (b : Fin MAP_WIDTH) => st2.setCell a b VACIO)
      (fun b => y = a ∧ x = b) VACIO y x
      (by intro st2 b hP; rw [setCell_nivel, if_pos hP])
      (by intro st2 b hP; rw [setCell_nivel, if_neg hP])
      (List.finRange MAP_WIDTH) st
    exact ⟨fun hy => h.1 ⟨x, List.mem_finRange x, hy, rfl⟩, fun hy => h.2 (fun b _ hP => hy hP.1)⟩
  have hcleared := (foldl_paint
      (fun st (a : Fin MAP_HEIGHT) =>
        (List.finRange MAP_WIDTH).foldl (fun st2 b => st2.setCell a b VACIO) st)
      (fun a => y = a) VACIO y x (fun st a hP => (hinner a st).1 hP)
      (fun st a hP => (hinner a st).2 hP) (List.finRange MAP_HEIGHT) c).1
      ⟨y, List.mem_finRange y, rfl⟩
  exact ⟨(createBordes_nivel _ y x).1,
    fun hb => ((createBordes_nivel _ y x).2 hb).trans hcleared⟩

theorem initializeWithBordes_locked (c : LevelCreator) :
    c.initializeWithBordes.BordersLocked := by
  refine ⟨fun y x hb => (initializeWithBordes_nivel c y x).1 hb, fun y x => ?_⟩
  by_cases hb : isBorderCell y x
  · rw [(initializeWithBordes_nivel c y x).1 hb]; decide
  · rw [(initializeWithBordes_nivel c y x).2 hb]; decide

theorem setCell_locked (c : LevelCreator) (hc : c.BordersLocked) (y : Fin MAP_HEIGHT)
    (x : Fin MAP_WIDTH) (v : Int) (hb : ¬ isBorderCell y x) (hv : 0 ≤ v ∧ v ≤ 12) :
    (c.setCell y x v).BordersLocked := by
  refine ⟨fun y2 x2 hb2 => ?_, fun y2 x2 => ?_⟩
  · rw [setCell_nivel, if_neg]
    · exact hc.1 y2 x2 hb2
    · rintro ⟨rfl, rfl⟩
      exact hb hb2
  · rw [setCell_nivel]
    split_ifs
    · exact hv
    · exact hc.2 y2 x2

theorem cycle_range (v : Int) (hv : 0 ≤ v ∧ v ≤ 12) :
    (v + 1).tmod TOTAL_TILE_TYPES = (v + 1) % 13 ∧
      0 ≤ (v + 1).tmod TOTAL_TILE_TYPES ∧ (v + 1).tmod TOTAL_TILE_TYPES ≤ 12 := by
  have h : (v + 1).tmod TOTAL_TILE_TYPES = (v + 1) % 13 :=
    Int.tmod_eq_emod (by omega) (by decide)
  rw [h]
  omega

theorem applyClicks_locked (c : LevelCreator) (hc : c.BordersLocked) (tileX tileY : Int)
    (h : inGrid tileX tileY)
    (hb : tileX ≠ 0 ∧ tileX ≠ 19 ∧ tileY ≠ 0 ∧ tileY ≠ 14) (l r : Bool) :
    (c.applyClicks tileX tileY h l r).BordersLocked := by
  have hnb : ¬ isBorderCell ⟨tileY.toNat, by have := h.2.2.1; have := h.2.2.2; omega⟩
      ⟨tileX.toNat, by have := h.1; have := h.2.1; omega⟩ := by
    show ¬ (tileY.toNat = 0 ∨ tileY.toNat = 15 - 1 ∨ tileX.toNat = 0 ∨ tileX.toNat = 20 - 1)
    have h1 := h.1
    have h2 := h.2.2.1
    omega
  simp only [LevelCreator.applyClicks]
  have hc1 : ∀ c1 : LevelCreator, c1.BordersLocked →
      (if r = true then c1.setCell ⟨tileY.toNat, by have := h.2.2.1; have := h.2.2.2; omega⟩
        ⟨tileX.toNat, by have := h.1; have := h.2.1; omega⟩ VACIO else c1).BordersLocked := by
    intro c1 h1
    cases r
    · exact h1
    · exact setCell_locked c1 h1 _ _ _ hnb (by decide)
  apply hc1
  cases l
  · exact hc
  · exact setCell_locked c hc _ _ _ hnb (cycle_range _ (hc.2 _ _)).2

theorem handleInput_locked (c : LevelCreator) (hc : c.BordersLocked) (input : CreatorInput) :
    (c.handleInput input).BordersLocked := by
  have hkeys : ∀ c1 : LevelCreator, c1.BordersLocked →
      (if input.keyC = true then
        LevelCreator.clearLevel
          (if input.keyG = true then { c1 with gridVisible := !c1.gridVisible } else c1)
      else (if input.keyG = true then { c1 with gridVisible := !c1.gridVisible }
        else c1)).BordersLocked := by
    intro c1 h1
    split_ifs
    · exact initializeWithBordes_locked _
    · exact initializeWithBordes_locked _
    · exact h1
    · exact h1
  simp only [LevelCreator.handleInput]
  apply hkeys
  split_ifs with h1 h2
  · refine applyClicks_locked c hc _ _ h2.2 ?_ _ _
    have h3 := h2.1
    simp only [AUTO_BORDES, Bool.true_and, Bool.not_eq_true', Bool.or_eq_false_iff,
      decide_eq_false_iff_not] at h3
    refine ⟨h3.1.1.1, ?_, h3.1.2, ?_⟩
    · intro h; exact h3.1.1.2 (by rw [h]; rfl)
    · intro h; exact h3.2 (by rw [h]; rfl)
  · exact hc
  · exact hc

theorem foldl_handleInput_locked (inputs : List CreatorInput) :
    ∀ c : LevelCreator, c.BordersLocked → (inputs.foldl LevelCreator.handleInput c).BordersLocked := by
  induction inputs with
  | nil => intro c hc; exact hc
  | cons a l ih => intro c hc; exact ih _ (handleInput_locked c hc a)

/-- Claim C23. Border lock of the level editor: the constructor leaves `PARED` on every
border cell and `VACIO` on every interior cell, whatever the array held before, and after
any sequence of `handleInput` calls (left clicks, right clicks at any mouse position, and
`clearLevel` by key C) every border cell still holds `PARED` and every cell holds a value
in `0 .. 12`. -/
theorem editor_border_lock (uninitialised : MapArray) (inputs : List CreatorInput) :
    (∀ y x, (isBorderCell y x → (LevelCreator.construct uninitialised).nivel y x = PARED) ∧
      (¬ isBorderCell y x → (LevelCreator.construct uninitialised).nivel y x = VACIO)) ∧
    (∀ y x, isBorderCell y x → (LevelCreator.afterInputs uninitialised inputs).nivel y x = PARED) ∧
    (∀ y x, 0 ≤ (LevelCreator.afterInputs uninitialised inputs).nivel y x ∧
      (LevelCreator.afterInputs uninitialised inputs).nivel y x ≤ 12) := by
  have h := foldl_handleInput_locked inputs (LevelCreator.construct uninitialised)
    (initializeWithBordes_locked _)
  exact ⟨fun y x => initializeWithBordes_nivel _ y x, h.1, h.2⟩

theorem tile_of_mouse (p : ℚ) (n : Nat) (h1 : 40 * (n : ℚ) ≤ p) (h2 : p < 40 * (n : ℚ) + 40) :
    (truncToInt p).tdiv TILE_SIZE = (n : Int) := by
  have h0 : 0 ≤ p := le_trans (by positivity) h1
  rw [truncToInt_of_nonneg h0]
  have hf1 : 40 * (n : Int) ≤ ⌊p⌋ := Int.le_floor.2 (by push_cast; exact h1)
  have hf2 : ⌊p⌋ < 40 * (n : Int) + 40 := Int.floor_lt.2 (by push_cast; exact h2)
  rw [Int.tdiv_eq_ediv (by omega) (by decide)]
  show ⌊p⌋ / 40 = (n : Int)
  omega

theorem applyClicks_left (c : LevelCreator) (tileX tileY : Int) (h : inGrid tileX tileY)
    (y : Fin MAP_HEIGHT) (x : Fin MAP_WIDTH) (hx : tileX = ((x : Nat) : Int))
    (hy : tileY = ((y : Nat) : Int)) :
    c.applyClicks tileX tileY h true false =
      c.setCell y x ((c.nivel y x + 1).tmod TOTAL_TILE_TYPES) := by
  subst hx hy
  simp only [LevelCreator.applyClicks, Int.toNat_natCast, Fin.eta, if_true, Bool.false_eq_true,
    if_false]

theorem handleInput_leftClick (c : LevelCreator) (y : Fin MAP_HEIGHT) (x : Fin MAP_WIDTH)
    (hb : ¬ isBorderCell y x) (input : CreatorInput) (hi : IsLeftClickOn y x input) :
    (c.handleInput input).nivel =
      (c.setCell y x ((c.nivel y x + 1).tmod TOTAL_TILE_TYPES)).nivel := by
  obtain ⟨hmx, hmy, hl, hr, hc⟩ := hi
  have hx := tile_of_mouse input.mousePos.x x hmx.1 hmx.2
  have hy := tile_of_mouse input.mousePos.y y hmy.1 hmy.2
  have hxl : (x : Nat) < 20 := x.isLt
  have hyl : (y : Nat) < 15 := y.isLt
  have hkeys : ∀ c1 : LevelCreator,
      (if input.keyC = true then
        LevelCreator.clearLevel
          (if input.keyG = true then { c1 with gridVisible := !c1.gridVisible } else c1)
      else (if input.keyG = true then { c1 with gridVisible := !c1.gridVisible }
        else c1)).nivel = c1.nivel := by
    intro c1
    rw [hc]
    cases input.keyG
    · rfl
    · rfl
  simp only [LevelCreator.handleInput]
  rw [hkeys, hl, hr]
  unfold isBorderCell at hb
  have hb2 : ¬ ((y : Nat) = 0 ∨ (y : Nat) = 14 ∨ (x : Nat) = 0 ∨ (x : Nat) = 19) := hb
  split_ifs with h1 h2
  · rw [applyClicks_left c _ _ h2.2 y x hx hy]
  · exfalso
    apply h2
    rw [hx, hy]
    refine ⟨?_, ?_⟩
    · simp only [AUTO_BORDES, Bool.true_and, Bool.not_eq_true', Bool.or_eq_false_iff,
        decide_eq_false_iff_not]
      refine ⟨⟨⟨?_, ?_⟩, ?_⟩, ?_⟩
      · omega
      · show ¬ ((x : Nat) : Int) = 20 - 1
        omega
      · omega
      · show ¬ ((y : Nat) : Int) = 15 - 1
        omega
    · show 0 ≤ ((x : Nat) : Int) ∧ ((x : Nat) : Int) < 20 ∧ 0 ≤ ((y : Nat) : Int) ∧
        ((y : Nat) : Int) < 15
      omega
  · exfalso
    apply h1
    have : input.mousePos.x < 40 * 19 + 40 := by
      have h19 : ((x : Nat) : ℚ) ≤ 19 := by exact_mod_cast Nat.le_of_lt_succ hxl
      linarith [hmx.2]
    show input.mousePos.x < (((20 * 40 : Int)) : ℚ)
    norm_num at this ⊢
    exact this

theorem foldl_leftClicks (y : Fin MAP_HEIGHT) (x : Fin MAP_WIDTH) (hb : ¬ isBorderCell y x)
    (inputs : List CreatorInput) :
    ∀ c : LevelCreator, (∀ input ∈ inputs, IsLeftClickOn y x input) →
      0 ≤ c.nivel y x ∧ c.nivel y x ≤ 12 →
      (inputs.foldl LevelCreator.handleInput c).nivel y x =
          (c.nivel y x + (inputs.length : Int)) % 13 ∧
      ∀ y2 x2, ¬ (y2 = y ∧ x2 = x) →
        (inputs.foldl LevelCreator.handleInput c).nivel y2 x2 = c.nivel y2 x2 := by
  induction inputs with
  | nil =>
    intro c _ ht
    refine ⟨?_, fun _ _ _ => rfl⟩
    show c.nivel y x = (c.nivel y x + 0) % 13
    omega
  | cons a l ih =>
    intro c hin ht
    have ha := handleInput_leftClick c y x hb a (hin a (List.mem_cons_self a l))
    have hcell : (c.handleInput a).nivel y x = (c.nivel y x + 1) % 13 := by
      rw [ha, setCell_nivel, if_pos ⟨rfl, rfl⟩]
      exact (cycle_range _ ht).1
    have hih := ih (c.handleInput a) (fun i hi => hin i (List.mem_cons_of_mem a hi))
      (by rw [hcell]; omega)
    rw [List.foldl_cons]
    refine ⟨?_, ?_⟩
    · rw [hih.1, hcell, List.length_cons]
      push_cast
      omega
    · intro y2 x2 hne
      rw [hih.2 y2 x2 hne, ha, setCell_nivel, if_neg hne]

/-- Claim C24. Tile cycle of the level editor. A left click on an interior cell holding
`t` in `0 .. 12` replaces it by `(t + 1) mod 13` and leaves every other cell as it was;
after `n` successive left clicks on the cell it holds `(t + n) mod 13`, so 13 clicks restore
the value and `n` clicks with `1 <= n < 13` do not. -/
theorem editor_tile_cycle (c : LevelCreator) (y : Fin MAP_HEIGHT) (x : Fin MAP_WIDTH)
    (hb : ¬ isBorderCell y x) (ht : 0 ≤ c.nivel y x ∧ c.nivel y x ≤ 12)
    (inputs : List CreatorInput) (hin : ∀ input ∈ inputs, IsLeftClickOn y x input) :
    (∀ input, IsLeftClickOn y x input →
      (c.handleInput input).nivel y x = (c.nivel y x + 1) % 13 ∧
      ∀ y2 x2, ¬ (y2 = y ∧ x2 = x) → (c.handleInput input).nivel y2 x2 = c.nivel y2 x2) ∧
    (inputs.foldl LevelCreator.handleInput c).nivel y x =
      (c.nivel y x + (inputs.length : Int)) % 13 ∧
    (∀ y2 x2, ¬ (y2 = y ∧ x2 = x) →
      (inputs.foldl LevelCreator.handleInput c).nivel y2 x2 = c.nivel y2 x2) ∧
    (inputs.length = 13 → (inputs.foldl LevelCreator.handleInput c).nivel y x = c.nivel y x) ∧
    (1 ≤ inputs.length → inputs.length < 13 →
      (inputs.foldl LevelCreator.handleInput c).nivel y x ≠ c.nivel y x) := by
  have h := foldl_leftClicks y x hb inputs c hin ht
  refine ⟨?_, h.1, h.2, ?_, ?_⟩
  · intro input hi
    have h1 := foldl_leftClicks y x hb [input] c
      (fun i hi2 => by rw [List.mem_singleton.1 hi2]; exact hi) ht
    exact ⟨h1.1, h1.2⟩
  · intro hlen
    rw [h.1, hlen]
    push_cast
    omega
  · intro h1 h2
    rw [h.1]
    omega

theorem openField_accepts (m : Bool) (p q : Vector2) :
    checkCollisionWithLaberinto ⟨400, 300⟩ (PLAYER_RADIUS : ℚ) m
      (GameState.constructed openGrid p q) = false := by
  rw [checkCollision_open _ _ _ _ (openGrid_passable m p q), decide_eq_false_iff_not]
  norm_num [PLAYER_RADIUS, MAP_WIDTH, MAP_HEIGHT, TILE_SIZE]

theorem meetingState_candidate :
    calculateNewPosition leftKeyboard meetingState.masterPos [65, 68, 87, 83] =
      meetingState.slavePos := by
  have h := calculateNewPosition_four_coords leftKeyboard meetingState.masterPos 65 68 87 83
  have hx : (calculateNewPosition leftKeyboard meetingState.masterPos [65, 68, 87, 83]).x
      = 400 := by
    rw [h.1, clamp_of_mem] <;> norm_num [leftKeyboard, meetingState, GameState.constructed]
  have hy : (calculateNewPosition leftKeyboard meetingState.masterPos [65, 68, 87, 83]).y
      = 300 := by
    rw [h.2, clamp_of_mem] <;> norm_num [leftKeyboard, meetingState, GameState.constructed]
  cases hc : calculateNewPosition leftKeyboard meetingState.masterPos [65, 68, 87, 83]
  rw [hc] at hx hy
  simp only [] at hx hy
  rw [hx, hy]
  rfl

theorem leftClickAt_isLeftClickOn :
    ∀ input ∈ List.replicate 13 (leftClickAt 50 50), IsLeftClickOn 1 1 input := by
  intro input hi
  rw [List.eq_of_mem_replicate hi]
  refine ⟨⟨?_, ?_⟩, ⟨?_, ?_⟩, rfl, rfl, rfl⟩ <;> norm_num [leftClickAt]

/-- Witness of `no_teardown_race`: the advance from level 0, whatever the workers still
did. -/
theorem no_teardown_race_witness :
    (completedMain 0).world.state.levelCompleted = true ∧
    (completedMain 0).world.state.currentLevel + 1 < TOTAL_LEVELS ∧
    (stopAndJoin (completedMain 0).world sampleRun).state.gameRunning = false ∧
    (levelAdvance (completedMain 0) true sampleRun).world.state =
      (levelAdvance (completedMain 0) true []).world.state ∧
    (levelAdvance (completedMain 0) true sampleRun).world.locals = ValidationLocals.initial :=
  ⟨rfl, by decide, (no_teardown_race (completedMain 0) sampleRun [] rfl (by decide)).1,
    (no_teardown_race (completedMain 0) sampleRun [] rfl (by decide)).2.2.1,
    (no_teardown_race (completedMain 0) sampleRun [] rfl (by decide)).2.2.2.2⟩

/-- Witness of `checkCollision_deterministic`: two states with the same open grid and the
same gate flags, and different positions of the master. -/
theorem checkCollision_deterministic_witness :
    nearEdgeState.laberinto = openFieldState.laberinto ∧
    nearEdgeState.button1Active = openFieldState.button1Active ∧
    nearEdgeState.button2Active = openFieldState.button2Active ∧
    nearEdgeState.button3Active = openFieldState.button3Active ∧
    checkCollisionWithLaberinto ⟨400, 300⟩ 15 true nearEdgeState =
      checkCollisionWithLaberinto ⟨400, 300⟩ 15 true openFieldState :=
  ⟨rfl, rfl, rfl, rfl,
    (checkCollision_deterministic ⟨400, 300⟩ 15 true openFieldState nearEdgeState
      (fun _ => false) [65, 68, 87, 83]).1 rfl rfl rfl rfl⟩

/-- Witness of `editor_border_lock`: after a left click on the corner cell and a right click
in the interior the corner still holds `PARED`. -/
theorem editor_border_lock_witness :
    isBorderCell 0 0 ∧
    (LevelCreator.afterInputs openGrid
      [leftClickAt 10 10, { leftClickAt 50 50 with leftPressed := false, rightPressed := true }]
      ).nivel 0 0 = PARED :=
  ⟨Or.inl rfl, (editor_border_lock openGrid
      [leftClickAt 10 10, { leftClickAt 50 50 with leftPressed := false, rightPressed := true }]
      ).2.1 0 0 (Or.inl rfl)⟩

/-- Witness of `editor_tile_cycle`: thirteen left clicks on the cell `(1, 1)` of level 0. -/
theorem editor_tile_cycle_witness :
    ¬ isBorderCell 1 1 ∧ (0 ≤ editorOnLevel0.nivel 1 1 ∧ editorOnLevel0.nivel 1 1 ≤ 12) ∧
    ((List.replicate 13 (leftClickAt 50 50)).foldl LevelCreator.handleInput editorOnLevel0).nivel
      1 1 = editorOnLevel0.nivel 1 1 :=
  ⟨by unfold isBorderCell; decide, by decide,
    (editor_tile_cycle editorOnLevel0 1 1 (by unfold isBorderCell; decide) (by decide)
      (List.replicate 13 (leftClickAt 50 50)) leftClickAt_isLeftClickOn).2.2.2.1 rfl⟩

/-- Witness of `grid_indexing_safe`: the centre of the map, and a run on level 0. -/
theorem grid_indexing_safe_witness :
    inGrid (truncToInt ((⟨400, 300⟩ : Vector2).x / (TILE_SIZE : ℚ)))
      (truncToInt ((⟨400, 300⟩ : Vector2).y / (TILE_SIZE : ℚ))) ∧
    (∃ y x, nivel0 y x = START_MASTER) ∧ (∃ y x, nivel0 y x = START_SLAVE) ∧
    inGrid
      (masterTileX
        (World.run ⟨loadLevelData openFieldState nivel0, ValidationLocals.initial, []⟩
          sampleRun).state)
      (masterTileY
        (World.run ⟨loadLevelData openFieldState nivel0, ValidationLocals.initial, []⟩
          sampleRun).state) :=
  ⟨(grid_indexing_safe ⟨400, 300⟩ true openFieldState openFieldState ValidationLocals.initial []
      nivel0 sampleRun).1 (by norm_num) (by norm_num) (by norm_num) (by norm_num),
    ⟨1, 1, by decide⟩, ⟨13, 1, by decide⟩,
    ((grid_indexing_safe ⟨400, 300⟩ true openFieldState openFieldState ValidationLocals.initial []
      nivel0 sampleRun).2.2 ⟨1, 1, by decide⟩ ⟨13, 1, by decide⟩).1⟩

/-- Witness of `opening_gates_never_blocks`: the open field with no flag set and with all
flags set, and a position accepted before a run. -/
theorem opening_gates_never_blocks_witness :
    allSetState.laberinto = openFieldState.laberinto ∧
    checkCollisionWithLaberinto ⟨400, 300⟩ (PLAYER_RADIUS : ℚ) true openFieldState = false ∧
    checkCollisionWithLaberinto ⟨400, 300⟩ (PLAYER_RADIUS : ℚ) true allSetState = false ∧
    checkCollisionWithLaberinto ⟨400, 300⟩ (PLAYER_RADIUS : ℚ) true
      (World.run ⟨openFieldState, ValidationLocals.initial, []⟩ ([] ++ sampleRun)).state = false :=
  ⟨rfl, openField_accepts true _ _,
    (opening_gates_never_blocks ⟨400, 300⟩ (PLAYER_RADIUS : ℚ) true openFieldState allSetState
      ⟨openFieldState, ValidationLocals.initial, []⟩ [] sampleRun).1 rfl (fun _ => rfl)
      (fun _ => rfl) (fun _ => rfl) (openField_accepts true _ _),
    (opening_gates_never_blocks ⟨400, 300⟩ (PLAYER_RADIUS : ℚ) true openFieldState allSetState
      ⟨openFieldState, ValidationLocals.initial, []⟩ [] sampleRun).2
      (openField_accepts true _ _)⟩

/-- Witness of `spawn_is_last_marker`: level 0 has a master spawn, the open grid has none. -/
theorem spawn_is_last_marker_witness :
    (∃ y x, nivel0 y x = START_MASTER) ∧
    (∃ c : Fin MAP_HEIGHT × Fin MAP_WIDTH, nivel0 c.1 c.2 = START_MASTER ∧
      (∀ c2, nivel0 c2.1 c2.2 = START_MASTER → c2 = c ∨ rowMajorBefore c2 c) ∧
      (loadLevelData openFieldState nivel0).masterPos =
        { x := 40 * ((c.2 : Nat) : ℚ) + 20, y := 40 * ((c.1 : Nat) : ℚ) + 20 }) ∧
    (∀ y x, openGrid y x ≠ START_MASTER) ∧
    (loadLevelData openFieldState openGrid).masterPos = openFieldState.masterPos :=
  ⟨⟨1, 1, by decide⟩,
    (spawn_is_last_marker openFieldState nivel0).1 ⟨1, 1, by decide⟩,
    fun _ _ => by show VACIO ≠ START_MASTER; decide,
    (spawn_is_last_marker openFieldState openGrid).2.1
      (fun _ _ => by show VACIO ≠ START_MASTER; decide)⟩

/-- Witness of `level_index_in_range`: the play button on the menu. -/
theorem level_index_in_range_witness :
    ((MainState.initial openGrid ⟨400, 300⟩ ⟨400, 300⟩).after
        [LifecycleEvent.frame true false []]
      ).world.state.currentLevel + 1 < TOTAL_LEVELS ∧
    shippedLevel
      (((MainState.initial openGrid ⟨400, 300⟩ ⟨400, 300⟩).after
        [LifecycleEvent.frame true false []]
      ).world.state.currentLevel + 1) ≠ none :=
  ⟨by decide,
    (level_index_in_range openGrid ⟨400, 300⟩ ⟨400, 300⟩
      [LifecycleEvent.frame true false []]).2.2.2
      (by decide)⟩

/-- Witness of `agents_do_not_collide`: the master steps left onto the position of the
slave. -/
theorem agents_do_not_collide_witness :
    checkCollisionWithLaberinto (calculateNewPosition leftKeyboard meetingState.masterPos
      [65, 68, 87, 83]) (PLAYER_RADIUS : ℚ) true meetingState = false ∧
    calculateNewPosition leftKeyboard meetingState.masterPos [65, 68, 87, 83] =
      meetingState.slavePos ∧
    (physicsStep leftKeyboard meetingState true [65, 68, 87, 83]).masterPos =
      (physicsStep leftKeyboard meetingState true [65, 68, 87, 83]).slavePos :=
  ⟨by rw [meetingState_candidate]; exact openField_accepts true _ _, meetingState_candidate,
    (agents_do_not_collide leftKeyboard meetingState [65, 68, 87, 83] ⟨0, 0⟩).2.2
      (by rw [meetingState_candidate]; exact openField_accepts true _ _) meetingState_candidate⟩

/-! ## The validation tick on the cells under the agents, and the stop of the workers -/

theorem gridTileIs_of_cell (lab : MapArray) (p : Vector2) (y : Fin MAP_HEIGHT)
    (x : Fin MAP_WIDTH) (kind : Int) (h : standsInCell p y x) :
    gridTileIs lab (truncToInt (p.x / (TILE_SIZE : ℚ))) (truncToInt (p.y / (TILE_SIZE : ℚ))) kind
      = decide (lab y x = kind) := by
  obtain ⟨hx0, hx1, hy0, hy1⟩ := h
  have ex : truncToInt (p.x / (TILE_SIZE : ℚ)) = ((x : Nat) : Int) :=
    truncToInt_tile p.x ((x : Nat) : Int) (le_trans (by positivity) hx0)
      (by push_cast; linarith) (by push_cast; linarith)
  have ey : truncToInt (p.y / (TILE_SIZE : ℚ)) = ((y : Nat) : Int) :=
    truncToInt_tile p.y ((y : Nat) : Int) (le_trans (by positivity) hy0)
      (by push_cast; linarith) (by push_cast; linarith)
  rw [ex, ey]
  have hx : (x : Nat) < 20 := x.isLt
  have hy : (y : Nat) < 15 := y.isLt
  have hin : inGrid ((x : Nat) : Int) ((y : Nat) : Int) := by
    show ((x : Nat) : Int) ≥ 0 ∧ ((x : Nat) : Int) < 20 ∧ ((y : Nat) : Int) ≥ 0 ∧
      ((y : Nat) : Int) < 15
    omega
  unfold gridTileIs
  rw [dif_pos hin]
  simp only [Int.toNat_natCast, Fin.eta]

theorem masterOn_of_cell (s : GameState) (y : Fin MAP_HEIGHT) (x : Fin MAP_WIDTH)
    (kind : Int) (h : standsInCell s.masterPos y x) :
    masterOn s kind = decide (s.laberinto y x = kind) :=
  gridTileIs_of_cell s.laberinto s.masterPos y x kind h

theorem slaveOn_of_cell (s : GameState) (y : Fin MAP_HEIGHT) (x : Fin MAP_WIDTH)
    (kind : Int) (h : standsInCell s.slavePos y x) :
    slaveOn s kind = decide (s.laberinto y x = kind) :=
  gridTileIs_of_cell s.laberinto s.slavePos y x kind h

/-- Claim C9. For agents standing in cells of the grid (the master in row `my` column `mx`,
the slave in row `sy` column `sx`), after one validation tick `button1Active` is its old
value or-ed with "the master's cell holds `BOTON_1`" and `button2Active` is its old value
or-ed with "the slave's cell holds `BOTON_2`". The other agent has no effect: with the
slave on `BOTON_1` and the master off it the first flag keeps its value, and with the
master on `BOTON_2` and the slave off it the second flag keeps its value. -/
theorem single_agent_plates_latch (s : GameState) (l : ValidationLocals)
    (my sy : Fin MAP_HEIGHT) (mx sx : Fin MAP_WIDTH)
    (hm : standsInCell s.masterPos my mx) (hs : standsInCell s.slavePos sy sx) :
    (validationTick s l).1.button1Active =
        (s.button1Active || decide (s.laberinto my mx = BOTON_1)) ∧
    (validationTick s l).1.button2Active =
        (s.button2Active || decide (s.laberinto sy sx = BOTON_2)) ∧
    (s.laberinto my mx ≠ BOTON_1 →
      (validationTick s l).1.button1Active = s.button1Active) ∧
    (s.laberinto sy sx ≠ BOTON_2 →
      (validationTick s l).1.button2Active = s.button2Active) ∧
    (s.laberinto sy sx = BOTON_1 → s.laberinto my mx ≠ BOTON_1 →
      (validationTick s l).1.button1Active = s.button1Active) ∧
    (s.laberinto my mx = BOTON_2 → s.laberinto sy sx ≠ BOTON_2 →
      (validationTick s l).1.button2Active = s.button2Active) := by
  obtain ⟨h1, h2, -, -⟩ := validationTick_flags s l
  rw [h1, h2, masterOn_of_cell s my mx _ hm, slaveOn_of_cell s sy sx _ hs]
  refine ⟨rfl, rfl, ?_, ?_, ?_, ?_⟩
  · intro hne; simp [hne]
  · intro hne; simp [hne]
  · intro _ hne; simp [hne]
  · intro _ hne; simp [hne]

/-- Claim C11. For agents standing in cells of the grid, after one validation tick
`levelCompleted` is its old value or-ed with "the master's cell holds `META` and the
slave's cell holds `META`". Scenario A on level 0 (master spawn in row 1 column 1, goal in
row 13 column 18): a tick with the master in the goal cell, the slave in a cell that is not
a goal and `levelCompleted` false leaves `masterInGoal` true, `bothInGoal` false and
`levelCompleted` false. -/
theorem levelCompleted_latches_on_joint_goal (s : GameState) (l : ValidationLocals)
    (my sy : Fin MAP_HEIGHT) (mx sx : Fin MAP_WIDTH)
    (hm : standsInCell s.masterPos my mx) (hs : standsInCell s.slavePos sy sx) :
    (validationTick s l).1.levelCompleted =
      (s.levelCompleted ||
        (decide (s.laberinto my mx = META) && decide (s.laberinto sy sx = META))) ∧
    (nivel0 1 1 = START_MASTER ∧ nivel0 13 18 = META) ∧
    (s.laberinto = nivel0 → my = 13 → mx = 18 → s.laberinto sy sx ≠ META →
      s.levelCompleted = false →
      (validationTick s l).1.masterInGoal = true ∧
      (validationTick s l).1.bothInGoal = false ∧
      (validationTick s l).1.levelCompleted = false) := by
  obtain ⟨g1, -, g3⟩ := validationTick_goalFlags s l
  have hl := (validationTick_flags s l).2.2.2
  rw [g1, g3, hl, masterOn_of_cell s my mx _ hm, slaveOn_of_cell s sy sx _ hs]
  refine ⟨rfl, ⟨by decide, by decide⟩, ?_⟩
  intro hg hy hx hne h0
  have hgoal : s.laberinto my mx = META := by
    rw [hg, hy, hx]
    decide
  rw [h0, decide_eq_true hgoal, decide_eq_false hne]
  exact ⟨rfl, rfl, rfl⟩

theorem ownPlatesState_cells :
    standsInCell ownPlatesState.masterPos 1 2 ∧ standsInCell ownPlatesState.slavePos 4 14 := by
  constructor
  · show 40 * ((2 : Nat) : ℚ) ≤ 100 ∧ (100 : ℚ) < 40 * ((2 : Nat) : ℚ) + 40 ∧
      40 * ((1 : Nat) : ℚ) ≤ 60 ∧ (60 : ℚ) < 40 * ((1 : Nat) : ℚ) + 40
    norm_num
  · show 40 * ((14 : Nat) : ℚ) ≤ 580 ∧ (580 : ℚ) < 40 * ((14 : Nat) : ℚ) + 40 ∧
      40 * ((4 : Nat) : ℚ) ≤ 180 ∧ (180 : ℚ) < 40 * ((4 : Nat) : ℚ) + 40
    norm_num

theorem swappedPlatesState_cells :
    standsInCell swappedPlatesState.masterPos 4 14 ∧
      standsInCell swappedPlatesState.slavePos 1 2 := by
  constructor
  · show 40 * ((14 : Nat) : ℚ) ≤ 580 ∧ (580 : ℚ) < 40 * ((14 : Nat) : ℚ) + 40 ∧
      40 * ((4 : Nat) : ℚ) ≤ 180 ∧ (180 : ℚ) < 40 * ((4 : Nat) : ℚ) + 40
    norm_num
  · show 40 * ((2 : Nat) : ℚ) ≤ 100 ∧ (100 : ℚ) < 40 * ((2 : Nat) : ℚ) + 40 ∧
      40 * ((1 : Nat) : ℚ) ≤ 60 ∧ (60 : ℚ) < 40 * ((1 : Nat) : ℚ) + 40
    norm_num

theorem goalCell_stands : standsInCell ⟨740, 540⟩ 13 18 := by
  show 40 * ((18 : Nat) : ℚ) ≤ 740 ∧ (740 : ℚ) < 40 * ((18 : Nat) : ℚ) + 40 ∧
    40 * ((13 : Nat) : ℚ) ≤ 540 ∧ (540 : ℚ) < 40 * ((13 : Nat) : ℚ) + 40
  norm_num

theorem slaveSpawnCell_stands : standsInCell ⟨60, 540⟩ 13 1 := by
  show 40 * ((1 : Nat) : ℚ) ≤ 60 ∧ (60 : ℚ) < 40 * ((1 : Nat) : ℚ) + 40 ∧
    40 * ((13 : Nat) : ℚ) ≤ 540 ∧ (540 : ℚ) < 40 * ((13 : Nat) : ℚ) + 40
  norm_num

theorem stoppedWorld_body_moves :
    (stoppedWorld.step (Action.physics true upKeyboard [65, 68, 87, 83])).state.masterPos.y
      = 297 := by
  obtain ⟨hx, hy⟩ := calculateNewPosition_four_coords upKeyboard stoppedWorld.state.masterPos
    65 68 87 83
  have k1 : upKeyboard 65 = false := by decide
  have k2 : upKeyboard 68 = false := by decide
  have k3 : upKeyboard 87 = true := by decide
  have k4 : upKeyboard 83 = false := by decide
  rw [k1, k2] at hx
  rw [k3, k4] at hy
  have hx2 : (calculateNewPosition upKeyboard stoppedWorld.state.masterPos [65, 68, 87, 83]).x
      = 400 := by
    rw [hx, clamp_of_mem] <;>
      norm_num [stoppedWorld, openFieldState, GameState.constructed]
  have hy2 : (calculateNewPosition upKeyboard stoppedWorld.state.masterPos [65, 68, 87, 83]).y
      = 297 := by
    rw [hy, clamp_of_mem] <;>
      norm_num [stoppedWorld, openFieldState, GameState.constructed]
  have hopen : ∀ y x, canPassTile (stoppedWorld.state.laberinto y x) true stoppedWorld.state
      = true := by
    intro y x
    simp [stoppedWorld, openFieldState, GameState.constructed, openGrid, canPassTile]
  have hfree : checkCollisionWithLaberinto
      (calculateNewPosition upKeyboard stoppedWorld.state.masterPos [65, 68, 87, 83])
      (PLAYER_RADIUS : ℚ) true stoppedWorld.state = false := by
    rw [checkCollision_open _ _ _ _ hopen, decide_eq_false_iff_not, hx2, hy2]
    norm_num [PLAYER_RADIUS, MAP_WIDTH, MAP_HEIGHT, TILE_SIZE]
  show (physicsStep upKeyboard stoppedWorld.state true [65, 68, 87, 83]).masterPos.y = 297
  unfold physicsStep
  simp only [if_true]
  rw [hfree]
  simp only [Bool.not_false, if_true]
  exact hy2

/-- Counterexample to claim C19 as stated: in a world whose `gameRunning` already reads
false, a physics loop body of the master that had passed the loop test before the flag was
cleared still runs to its end and moves the master from `y = 300` to `y = 297`; this is
what the join of the level advance waits for. -/
theorem in_flight_body_writes_after_stop :
    stoppedWorld.state.gameRunning = false ∧
    stoppedWorld.state.masterPos.y = 300 ∧
    (stoppedWorld.step (Action.physics true upKeyboard [65, 68, 87, 83])).state.masterPos.y
      = 297 ∧
    stopAndJoin ⟨openFieldState, ValidationLocals.initial, []⟩
        [Action.physics true upKeyboard [65, 68, 87, 83]] =
      stoppedWorld.step (Action.physics true upKeyboard [65, 68, 87, 83]) ∧
    (stopAndJoin ⟨openFieldState, ValidationLocals.initial, []⟩
      [Action.physics true upKeyboard [65, 68, 87, 83]]).state.gameRunning = false :=
  ⟨rfl, rfl, stoppedWorld_body_moves, rfl,
    (stopAndJoin_frame ⟨openFieldState, ValidationLocals.initial, []⟩ _).1⟩

/-- Claim C19, as amended. A worker loop iteration that reads `gameRunning = false` at its
loop test executes no body: it leaves the whole state (both positions, every flag), the
validation locals and the notifications as they were, and so does every sequence of such
iterations. A body already entered when the flag is cleared still completes, so the writes
stop once the bodies in flight have ended: after the stop and the join no sequence of
worker iterations changes anything, and a stop with no body in flight changes
`gameRunning` alone. -/
theorem no_writes_after_join (w : World) (a : Action) (inFlight actions : List Action) :
    (w.state.gameRunning = false →
      w.iterate a = w ∧ w.iterateAll actions = w ∧
      (w.iterateAll actions).state.masterPos = w.state.masterPos ∧
      (w.iterateAll actions).state.slavePos = w.state.slavePos ∧
      (w.iterateAll actions).emitted = w.emitted) ∧
    (stopAndJoin w inFlight).state.gameRunning = false ∧
    (stopAndJoin w inFlight).iterate a = stopAndJoin w inFlight ∧
    (stopAndJoin w inFlight).iterateAll actions = stopAndJoin w inFlight ∧
    stopAndJoin w [] = { w with state := { w.state with gameRunning := false } } := by
  have hj := (stopAndJoin_frame w inFlight).1
  refine ⟨?_, hj, World.iterate_stopped _ a hj, World.iterateAll_stopped actions _ hj, rfl⟩
  intro h
  have e := World.iterateAll_stopped actions w h
  refine ⟨World.iterate_stopped w a h, e, ?_, ?_, ?_⟩ <;> rw [e]

/-- Witness of `no_writes_after_join`: a stopped world and a short sequence of
iterations. -/
theorem no_writes_after_join_witness :
    stoppedWorld.state.gameRunning = false ∧
    stoppedWorld.iterateAll sampleRun = stoppedWorld ∧
    (stoppedWorld.iterateAll sampleRun).state.masterPos = stoppedWorld.state.masterPos :=
  ⟨rfl,
    ((no_writes_after_join stoppedWorld Action.validation [] sampleRun).1 rfl).2.1,
    ((no_writes_after_join stoppedWorld Action.validation [] sampleRun).1 rfl).2.2.1⟩

/-- Witness of `single_agent_plates_latch`: on level 1, each agent on its own plate latches
both flags; with the agents exchanged (the slave on `BOTON_1`, the master on `BOTON_2`)
neither flag changes. -/
theorem single_agent_plates_latch_witness :
    (standsInCell ownPlatesState.masterPos 1 2 ∧ standsInCell ownPlatesState.slavePos 4 14 ∧
      ownPlatesState.laberinto 1 2 = BOTON_1 ∧ ownPlatesState.laberinto 4 14 = BOTON_2 ∧
      ownPlatesState.button1Active = false ∧ ownPlatesState.button2Active = false ∧
      (validationTick ownPlatesState ValidationLocals.initial).1.button1Active = true ∧
      (validationTick ownPlatesState ValidationLocals.initial).1.button2Active = true) ∧
    (standsInCell swappedPlatesState.masterPos 4 14 ∧
      standsInCell swappedPlatesState.slavePos 1 2 ∧
      swappedPlatesState.laberinto 1 2 = BOTON_1 ∧ swappedPlatesState.laberinto 4 14 = BOTON_2 ∧
      (validationTick swappedPlatesState ValidationLocals.initial).1.button1Active =
        swappedPlatesState.button1Active ∧
      (validationTick swappedPlatesState ValidationLocals.initial).1.button2Active =
        swappedPlatesState.button2Active) :=
  ⟨⟨ownPlatesState_cells.1, ownPlatesState_cells.2, by decide, by decide, rfl, rfl,
    (single_agent_plates_latch ownPlatesState ValidationLocals.initial 1 4 2 14
      ownPlatesState_cells.1 ownPlatesState_cells.2).1.trans (by decide),
    (single_agent_plates_latch ownPlatesState ValidationLocals.initial 1 4 2 14
      ownPlatesState_cells.1 ownPlatesState_cells.2).2.1.trans (by decide)⟩,
   ⟨swappedPlatesState_cells.1, swappedPlatesState_cells.2, by decide, by decide,
    (single_agent_plates_latch swappedPlatesState ValidationLocals.initial 4 1 14 2
      swappedPlatesState_cells.1 swappedPlatesState_cells.2).2.2.2.2.1 (by decide) (by decide),
    (single_agent_plates_latch swappedPlatesState ValidationLocals.initial 4 1 14 2
      swappedPlatesState_cells.1 swappedPlatesState_cells.2).2.2.2.2.2 (by decide)
      (by decide)⟩⟩

/-- Witness of `levelCompleted_latches_on_joint_goal`: scenario A on level 0, and the latch
with both agents in the goal cell. -/
theorem levelCompleted_latches_on_joint_goal_witness :
    (standsInCell masterOnGoalState.masterPos 13 18 ∧
      standsInCell masterOnGoalState.slavePos 13 1 ∧
      masterOnGoalState.laberinto = nivel0 ∧ masterOnGoalState.laberinto 13 1 ≠ META ∧
      masterOnGoalState.levelCompleted = false ∧
      (validationTick masterOnGoalState ValidationLocals.initial).1.masterInGoal = true ∧
      (validationTick masterOnGoalState ValidationLocals.initial).1.bothInGoal = false ∧
      (validationTick masterOnGoalState ValidationLocals.initial).1.levelCompleted = false) ∧
    (standsInCell bothOnGoalState.masterPos 13 18 ∧
      standsInCell bothOnGoalState.slavePos 13 18 ∧
      bothOnGoalState.levelCompleted = false ∧
      (validationTick bothOnGoalState ValidationLocals.initial).1.levelCompleted = true) :=
  ⟨⟨goalCell_stands, slaveSpawnCell_stands, rfl, by decide, rfl,
    (levelCompleted_latches_on_joint_goal masterOnGoalState ValidationLocals.initial
      13 13 18 1 goalCell_stands slaveSpawnCell_stands).2.2 rfl rfl rfl (by decide) rfl⟩,
   ⟨goalCell_stands, goalCell_stands, rfl,
    (levelCompleted_latches_on_joint_goal bothOnGoalState ValidationLocals.initial
      13 13 18 18 goalCell_stands goalCell_stands).1.trans (by decide)⟩⟩

end DuoMaze
